import Mathlib

/-!
# PX4 vehicle: command dispatcher (`Px4_vehicle::Vehicle_command_act`)

Shallow embedding of the retrying command dispatcher of `src/px4_vehicle.cpp`.
The activity is a record; every member function is a pure function on that
record.  Outgoing messages are appended to the `sent` log, the retry timer is
the optional `timer` field (holding the timeout it was armed with).
-/

namespace Px4_vehicle

/-! ## MAVLink constants

Numeric values of the MAVLink common message set.  The generated MAVLink
header is not part of the sources of this repository; the values below are
the protocol's. -/

/-- Message id of PARAM_REQUEST_READ. -/
def MESSAGE_ID_PARAM_REQUEST_READ : Nat := 20
/-- Message id of PARAM_SET. -/
def MESSAGE_ID_PARAM_SET : Nat := 23
/-- Message id of MISSION_ITEM. -/
def MESSAGE_ID_MISSION_ITEM : Nat := 39
/-- Message id of MISSION_SET_CURRENT. -/
def MESSAGE_ID_MISSION_SET_CURRENT : Nat := 41
/-- Message id of MISSION_COUNT. -/
def MESSAGE_ID_MISSION_COUNT : Nat := 44
/-- Message id of COMMAND_LONG. -/
def MESSAGE_ID_COMMAND_LONG : Nat := 76

/-- MAV_RESULT value for an accepted command. -/
def MAV_RESULT_ACCEPTED : Nat := 0
/-- MAV_RESULT value for a command still in progress. -/
def MAV_RESULT_IN_PROGRESS : Nat := 5
/-- MAV_MISSION_RESULT value for an accepted mission. -/
def MAV_MISSION_ACCEPTED : Nat := 0
/-- MAV_CMD number of COMPONENT_ARM_DISARM. -/
def MAV_CMD_COMPONENT_ARM_DISARM : Nat := 400
/-- MAV_CMD number of SET_CAMERA_MODE. -/
def MAV_CMD_SET_CAMERA_MODE : Nat := 530

/-! ## Data model -/

/-- A C++ `float` payload field, represented by its IEEE-754 binary32 bit
pattern (read modulo 2^32). -/
structure F32 where
  bits : Nat
deriving DecidableEq, Repr

/-- NaN test: exponent all ones and a non-zero mantissa. -/
def F32.isNaN (x : F32) : Bool :=
  (x.bits / 2 ^ 23) % 256 == 255 && x.bits % 2 ^ 23 != 0

/-- Zero test: both +0 and -0. -/
def F32.isZero (x : F32) : Bool :=
  x.bits % 2 ^ 31 == 0

/-- The C++ `operator==` on two floats: false when either side is NaN, the
two zeros compare equal, otherwise the bit patterns agree. -/
def F32.eq (x y : F32) : Bool :=
  !x.isNaN && !y.isNaN &&
    (x.bits % 2 ^ 32 == y.bits % 2 ^ 32 || (x.isZero && y.isZero))

/-- Vendor of the autopilot (`Px4_vendor`). -/
inductive Px4_vendor where
  | PX4
  | YUNEEC
deriving DecidableEq, Repr

/-- The payloads a command queue can hold (`mavlink::Payload_base::Ptr`),
with the fields the dispatcher looks at. -/
inductive Payload where
  | COMMAND_LONG (command : Nat) (params : List F32) (confirmation : Nat)
  | MISSION_SET_CURRENT (seq : Nat)
  | PARAM_SET (param_id : String) (param_value : F32)
  | PARAM_REQUEST_READ (param_id : String)
  | MISSION_COUNT (count : Nat)
  | MISSION_ITEM (seq : Nat)
deriving DecidableEq, Repr

/-- Message id of a payload (`Payload_base::Get_id`). -/
def Payload.Get_id : Payload → Nat
  | .COMMAND_LONG _ _ _ => MESSAGE_ID_COMMAND_LONG
  | .MISSION_SET_CURRENT _ => MESSAGE_ID_MISSION_SET_CURRENT
  | .PARAM_SET _ _ => MESSAGE_ID_PARAM_SET
  | .PARAM_REQUEST_READ _ => MESSAGE_ID_PARAM_REQUEST_READ
  | .MISSION_COUNT _ => MESSAGE_ID_MISSION_COUNT
  | .MISSION_ITEM _ => MESSAGE_ID_MISSION_ITEM

/-- The `command` field read through the cast to `Pld_command_long`; only
read when `Get_id` is COMMAND_LONG. -/
def Payload.command : Payload → Nat
  | .COMMAND_LONG c _ _ => c
  | _ => 0

/-- Events the activity reacts to: the four registered MAVLink messages, a
status text, and the expiry of the retry timer. -/
inductive Event where
  | COMMAND_ACK (command : Nat) (result : Nat)
  | MISSION_ACK (type : Nat)
  | MISSION_CURRENT (seq : Nat)
  | PARAM_VALUE (param_id : String) (param_value : F32)
  | STATUSTEXT
  | TIMER
deriving DecidableEq, Repr

/-- What the owner of the conversation has been told: `active` while
`ucs_request` is set and not yet completed. -/
inductive Status where
  | idle
  | active
  | succeeded
  | failed (text : String)
deriving DecidableEq, Repr

/-- The result-code decoders `Mav_result_to_string` and
`Mav_mission_result_to_string` of the MAVLink support library, which is not
part of the sources of this repository; taken as parameters. -/
structure Mavlink_names where
  Mav_result_to_string : Nat → String
  Mav_mission_result_to_string : Nat → String

/-- State of `Px4_vehicle::Vehicle_command_act` together with the fields of
the owning vehicle that the dispatcher reads (`vendor`) and its observable
effects (`sent`, `status`). -/
structure Vehicle_command_act where
  try_count : Nat
  retry_timeout : Int
  extended_retry_timeout : Int
  vendor : Px4_vendor
  remaining_attempts : Nat
  current_timeout : Int
  cmd_messages : List Payload
  command_count : Nat
  timer : Option Int
  timers_created : Nat
  handlers_registered : Bool
  statustext_handler : Bool
  status : Status
  sent : List Payload
deriving DecidableEq, Repr

namespace Vehicle_command_act

/-- Source `Send_message`: hand one payload to the MAVLink stream. -/
def Send_message (a : Vehicle_command_act) (m : Payload) : Vehicle_command_act :=
  { a with sent := a.sent ++ [m] }

/-- Source `Schedule_timer`: cancel the pending timer, if any, and create a new one
with the current timeout. -/
def Schedule_timer (a : Vehicle_command_act) : Vehicle_command_act :=
  { a with timer := some a.current_timeout, timers_created := a.timers_created + 1 }

/-- Source `Register_status_text`: install the status text handler. -/
def Register_status_text (a : Vehicle_command_act) : Vehicle_command_act :=
  { a with statustext_handler := true }

/-- Source `Unregister_status_text`: remove the status text handler. -/
def Unregister_status_text (a : Vehicle_command_act) : Vehicle_command_act :=
  { a with statustext_handler := false }

/-- Source `On_disable`: drop the status text handler and cancel the timer. -/
def On_disable (a : Vehicle_command_act) : Vehicle_command_act :=
  { Unregister_status_text a with timer := none }

/-- Modelled from the spec: `Activity::Disable()` of the base class
`Mavlink_vehicle::Activity`, whose source is not in this repository.  The
conversation is aborted immediately: the `On_disable` hook of the source
runs (it cancels the pending timer) and incoming messages are no longer
routed to the activity.  The queue is a member of the derived class and is
only touched by the code of the source. -/
def Disable_activity (a : Vehicle_command_act) : Vehicle_command_act :=
  { On_disable a with handlers_registered := false }

/-- Modelled from the spec: `Activity::Disable(reason)` of the base class.
It aborts the conversation and reports failure with `reason` to the owner;
on a dispatcher that has no request in progress nothing is reported. -/
def Disable (a : Vehicle_command_act) (reason : String) : Vehicle_command_act :=
  { Disable_activity a with
    status := if a.status = Status.active then Status.failed reason else a.status }

/-- Modelled from the spec: `Activity::Disable_success()` of the base class.
It ends the conversation and notifies the owner with success. -/
def Disable_success (a : Vehicle_command_act) : Vehicle_command_act :=
  { Disable_activity a with
    status := if a.status = Status.active then Status.succeeded else a.status }

/-- Source `Try`: the timer callback.  The test `!remaining_attempts--` reads
the counter and then decrements it; the counter is declared in the header,
which is not among the sources, and is taken as an unsigned 64-bit
`size_t`, so the decrement of zero wraps around.  The result flag (always
false) tells the timer processor not to re-arm the timer by itself. -/
def Try (a : Vehicle_command_act) : Vehicle_command_act × Bool :=
  if a.remaining_attempts = 0 then
    (Disable { a with remaining_attempts := 2 ^ 64 - 1 }
      "Vehicle_command all attempts failed.", false)
  else
    let a := { a with remaining_attempts := a.remaining_attempts - 1 }
    match a.cmd_messages with
    | cmd :: _ => (Schedule_timer (Send_message a cmd), false)
    | [] => (Disable a "Command list empty", false)

/-- Source `Send_next_command`: pop the head, then send the new head or finish. -/
def Send_next_command (a : Vehicle_command_act) : Vehicle_command_act :=
  let a := { a with cmd_messages := a.cmd_messages.tail }
  match a.cmd_messages with
  | cmd :: _ =>
    Schedule_timer (Send_message { a with remaining_attempts := a.try_count } cmd)
  | [] => Disable_success a

/-- Source `On_mission_current`: a MISSION_CURRENT with the queued sequence
answers a MISSION_SET_CURRENT head. -/
def On_mission_current (a : Vehicle_command_act) (seq : Nat) : Vehicle_command_act :=
  match a.cmd_messages with
  | [] => a
  | cmd :: _ =>
    match cmd with
    | .MISSION_SET_CURRENT s => if seq = s then Send_next_command a else a
    | _ => a

/-- Source `On_command_ack`: the ack is compared with the command of a
COMMAND_LONG head, and with the message id of a head of another kind. -/
def On_command_ack (n : Mavlink_names) (a : Vehicle_command_act)
    (command result : Nat) : Vehicle_command_act :=
  match a.cmd_messages with
  | [] => a
  | cmd :: _ =>
    let command_id := cmd.Get_id
    let command_id :=
      if command_id = MESSAGE_ID_COMMAND_LONG then cmd.command else command_id
    if command = command_id then
      if result = MAV_RESULT_ACCEPTED then
        Send_next_command a
      else if a.vendor = Px4_vendor.YUNEEC ∧ command = MAV_CMD_SET_CAMERA_MODE
          ∧ result = MAV_RESULT_IN_PROGRESS then
        a
      else
        Disable a ("Result: " ++ toString result ++ " ("
          ++ n.Mav_result_to_string result ++ ")")
    else a

/-- Source `On_mission_ack`: applied to the head without looking at its kind. -/
def On_mission_ack (n : Mavlink_names) (a : Vehicle_command_act)
    (type : Nat) : Vehicle_command_act :=
  match a.cmd_messages with
  | [] => a
  | _ :: _ =>
    if type = MAV_MISSION_ACCEPTED then
      Send_next_command a
    else
      Disable a ("MISSION_ACK result: " ++ toString type ++ " ("
        ++ n.Mav_mission_result_to_string type ++ ")")

/-- Source `On_param_value`: answers a PARAM_REQUEST_READ head by name and a
PARAM_SET head by name and value. -/
def On_param_value (a : Vehicle_command_act) (param_id : String)
    (param_value : F32) : Vehicle_command_act :=
  match a.cmd_messages with
  | [] => a
  | cmd :: _ =>
    match cmd with
    | .PARAM_REQUEST_READ param_name =>
      if param_id = param_name then Send_next_command a else a
    | .PARAM_SET param_name value =>
      if param_id = param_name then
        if F32.eq param_value value then Send_next_command a
        else Disable a "PARAM_SET failed"
      else a
    | _ => a

/-- Source `On_status_text`: command execution is assumed to have started, so
wait longer. -/
def On_status_text (a : Vehicle_command_act) : Vehicle_command_act :=
  if a.current_timeout < a.extended_retry_timeout then
    Schedule_timer { a with current_timeout := a.extended_retry_timeout }
  else a

/-- Source `Enable`, first part (up to `cmd_messages.clear()`): register the four
MAVLink handlers and reset the counters and the queue. -/
def Enable_begin (a : Vehicle_command_act) : Vehicle_command_act :=
  { a with
    handlers_registered := true
    remaining_attempts := a.try_count
    current_timeout := a.retry_timeout
    cmd_messages := [] }

/-- Source `Enable`, last part: record the queue length and make the first try. -/
def Enable_end (a : Vehicle_command_act) : Vehicle_command_act :=
  (Try { a with command_count := a.cmd_messages.length }).1

/-- Source `Enable` with the translation loop over the request's commands
represented by what it leaves behind when no command disables the
activity: the queue `queue` appended by the `Process_*` steps and whether
one of them (arm, disarm) registered the status text handler. -/
def Enable (a : Vehicle_command_act) (queue : List Payload)
    (statustext : Bool) : Vehicle_command_act :=
  let a := Enable_begin a
  Enable_end { a with
    cmd_messages := a.cmd_messages ++ queue
    statustext_handler := a.statustext_handler || statustext }

/-- Delivery of one event.  A MAVLink message reaches its handler only while
the handlers are registered, a status text only while the status text
handler is installed, and the timer can only fire while one is pending. -/
def step (n : Mavlink_names) (a : Vehicle_command_act) : Event → Vehicle_command_act
  | .COMMAND_ACK command result =>
    if a.handlers_registered then On_command_ack n a command result else a
  | .MISSION_ACK type =>
    if a.handlers_registered then On_mission_ack n a type else a
  | .MISSION_CURRENT seq =>
    if a.handlers_registered then On_mission_current a seq else a
  | .PARAM_VALUE param_id param_value =>
    if a.handlers_registered then On_param_value a param_id param_value else a
  | .STATUSTEXT =>
    if a.statustext_handler then On_status_text a else a
  | .TIMER =>
    if a.timer.isSome then (Try a).1 else a

/-- Delivery of a sequence of events, oldest first. -/
def run (n : Mavlink_names) (a : Vehicle_command_act) (es : List Event) : Vehicle_command_act :=
  es.foldl (step n) a

end Vehicle_command_act

/-- The acknowledgment that accepts a queued message, by the correlation
rules: a command ack with the queued command-kind and result ACCEPTED for a
generic command, an accepted mission ack for a mission upload message, a
mission-current event with the queued sequence for mission-set-current, a
parameter value with the queued name for a parameter read, and with the
queued name and value for a parameter set. -/
def matching_accept : Payload → Event → Bool
  | .COMMAND_LONG c _ _, .COMMAND_ACK command result =>
    command == c && result == MAV_RESULT_ACCEPTED
  | .MISSION_COUNT _, .MISSION_ACK type => type == MAV_MISSION_ACCEPTED
  | .MISSION_ITEM _, .MISSION_ACK type => type == MAV_MISSION_ACCEPTED
  | .MISSION_SET_CURRENT s, .MISSION_CURRENT seq => seq == s
  | .PARAM_REQUEST_READ name, .PARAM_VALUE param_id _ => param_id == name
  | .PARAM_SET name value, .PARAM_VALUE param_id v => param_id == name && F32.eq v value
  | _, _ => false

/-! ## Example data -/

/-- Decoders used in the examples. -/
def example_names : Mavlink_names :=
  ⟨fun _ => "reason", fun _ => "mission reason"⟩

/-- A dispatcher with a request attached, `try_count = N`, nothing sent yet. -/
def example_act (N : Nat) (v : Px4_vendor) : Vehicle_command_act :=
  { try_count := N, retry_timeout := 1000, extended_retry_timeout := 5000, vendor := v,
    remaining_attempts := 0, current_timeout := 0, cmd_messages := [], command_count := 0,
    timer := none, timers_created := 0, handlers_registered := false,
    statustext_handler := false, status := Status.active, sent := [] }

/-- The arm command: COMPONENT_ARM_DISARM with param1 = 1.0. -/
def example_arm : Payload := .COMMAND_LONG MAV_CMD_COMPONENT_ARM_DISARM [⟨1065353216⟩] 0

/-- A mission-set-current message for item 0. -/
def example_set_current : Payload := .MISSION_SET_CURRENT 0

/-- A parameter write of 5.0 to MPC_XY_CRUISE. -/
def example_param_set : Payload := .PARAM_SET "MPC_XY_CRUISE" ⟨1084227584⟩

/-! ## General facts about the dispatcher -/

open Vehicle_command_act

/-- A dispatcher has ended when no event can reach it any more. -/
def Ended (a : Vehicle_command_act) : Prop :=
  a.handlers_registered = false ∧ a.statustext_handler = false ∧ a.timer = none

/-- The messages sent by a transition from `a` to `s`, each paired with its
queue index: the number of elements of the original queue `Q` that had been
removed when it was sent. -/
def sends_between (Q : List Payload) (a s : Vehicle_command_act) : List (Nat × Payload) :=
  (s.sent.drop a.sent.length).map (fun m => (Q.length - s.cmd_messages.length, m))

/-- The indexed messages sent while the events `es` are delivered to `a`. -/
def send_trace (n : Mavlink_names) (Q : List Payload) :
    Vehicle_command_act → List Event → List (Nat × Payload)
  | _, [] => []
  | a, e :: es => sends_between Q a (step n a e) ++ send_trace n Q (step n a e) es

/-- The indexed messages sent by a whole conversation: by `Enable` on the
queue `Q` and then by the handling of the events `es`. -/
def conversation_trace (n : Mavlink_names) (a : Vehicle_command_act) (Q : List Payload)
    (st : Bool) (es : List Event) : List (Nat × Payload) :=
  sends_between Q a (Enable a Q st) ++ send_trace n Q (Enable a Q st) es

/-- Every index repeats its predecessor or exceeds it by one, `p` being the
predecessor of the first. -/
def stepwise_from : Nat → List Nat → Bool
  | _, [] => true
  | p, i :: is => (i == p || i == p + 1) && stepwise_from i is

/-- The indices start at 0 and each one repeats its predecessor or exceeds
it by one. -/
def ordered_indices : List Nat → Bool
  | [] => true
  | i :: is => i == 0 && stepwise_from 0 is

/-- The four ways one transition can affect the queue and the sent log:
nothing, a resend of the head, the removal of the head followed by a send
of the new head, or the removal of the last element, which ends the
conversation. -/
def Step_shape (s t : Vehicle_command_act) : Prop :=
  (t.cmd_messages = s.cmd_messages ∧ t.sent = s.sent)
  ∨ (∃ m rest, s.cmd_messages = m :: rest ∧ t.cmd_messages = m :: rest
      ∧ t.sent = s.sent ++ [m])
  ∨ (∃ m m2 rest, s.cmd_messages = m :: m2 :: rest ∧ t.cmd_messages = m2 :: rest
      ∧ t.sent = s.sent ++ [m2])
  ∨ (∃ m, s.cmd_messages = [m] ∧ t.cmd_messages = [] ∧ t.sent = s.sent ∧ Ended t)

/-! ## Translation of a request into the command queue

The loop of `Vehicle_command_act::Enable` over the commands of the request
and the `Process_*` functions it dispatches to. -/

/-- MAV_CMD number of DO_SET_MODE. -/
def MAV_CMD_DO_SET_MODE : Nat := 176
/-- MAV_CMD number of DO_REPOSITION. -/
def MAV_CMD_DO_REPOSITION : Nat := 192
/-- MAV_CMD number of DO_SET_ROI. -/
def MAV_CMD_DO_SET_ROI : Nat := 201
/-- MAV_CMD number of DO_MOUNT_CONTROL. -/
def MAV_CMD_DO_MOUNT_CONTROL : Nat := 205
/-- MAV_MODE_FLAG bit for an enabled custom mode. -/
def MAV_MODE_FLAG_CUSTOM_MODE_ENABLED : Nat := 1
/-- MAV_DO_REPOSITION_FLAGS bit asking for a mode change. -/
def MAV_DO_REPOSITION_FLAGS_CHANGE_MODE : Nat := 1
/-- MAV_ROI value for a region of interest given by location. -/
def MAV_ROI_LOCATION : Nat := 3
/-- MAV_MOUNT_MODE value for MAVLink targeting. -/
def MAV_MOUNT_MODE_MAVLINK_TARGETING : Nat := 2

/-- PX4 main mode POSCTL (`Px4_main_mode`, declared in the header). -/
def Px4_main_mode_POSCTL : Nat := 3
/-- PX4 main mode AUTO. -/
def Px4_main_mode_AUTO : Nat := 4
/-- PX4 auto sub-mode TAKEOFF (`Px4_auto_sub_mode`, declared in the header). -/
def Px4_auto_sub_mode_AUTO_TAKEOFF : Nat := 2
/-- PX4 auto sub-mode LOITER. -/
def Px4_auto_sub_mode_AUTO_LOITER : Nat := 3
/-- PX4 auto sub-mode MISSION. -/
def Px4_auto_sub_mode_AUTO_MISSION : Nat := 4
/-- PX4 auto sub-mode RTL. -/
def Px4_auto_sub_mode_AUTO_RTL : Nat := 5
/-- PX4 auto sub-mode LAND. -/
def Px4_auto_sub_mode_AUTO_LAND : Nat := 6

/-- Order key of a binary32 bit pattern: the magnitude bits, negated when
the sign bit is set.  Both zeros have key 0. -/
def F32.key (x : F32) : Int :=
  if x.bits % 2 ^ 32 < 2 ^ 31 then ((x.bits % 2 ^ 31 : Nat) : Int)
  else -((x.bits % 2 ^ 31 : Nat) : Int)

/-- The C++ `operator<` on two floats: false when either side is NaN. -/
def F32.lt (x y : F32) : Bool :=
  !x.isNaN && !y.isNaN && decide (x.key < y.key)

/-- Position of the leading one bit of `n`, searched in at most `fuel` steps. -/
def floor_log2 : Nat → Nat → Nat
  | 0, _ => 0
  | fuel + 1, n => if n < 2 then 0 else floor_log2 fuel (n / 2) + 1

/-- Conversion of an integer constant to `float`, for values below 2^24,
which convert exactly. -/
def F32.of_nat (n : Nat) : F32 :=
  if n = 0 then ⟨0⟩
  else ⟨(127 + floor_log2 24 n) * 2 ^ 23 + (n * 2 ^ (23 - floor_log2 24 n) - 2 ^ 23)⟩

/-- Unary minus on a float: the sign bit is flipped. -/
def F32.neg (x : F32) : F32 :=
  ⟨(x.bits + 2 ^ 31) % 2 ^ 32⟩

/-- A C++ `double`, represented by its IEEE-754 binary64 bit pattern (read
modulo 2^64). -/
structure F64 where
  bits : Nat
deriving DecidableEq, Repr

/-- NaN test on a double: exponent all ones and a non-zero mantissa. -/
def F64.isNaN (x : F64) : Bool :=
  (x.bits / 2 ^ 52) % 2048 == 2047 && x.bits % 2 ^ 52 != 0

/-- Zero test on a double: both +0 and -0. -/
def F64.isZero (x : F64) : Bool :=
  x.bits % 2 ^ 63 == 0

/-- The C++ comparison `x != 0` on a double: true for NaN. -/
def F64.ne_zero (x : F64) : Bool :=
  x.isNaN || !x.isZero

/-- Control modes reported to the ground station (`proto::CONTROL_MODE_*`). -/
inductive Control_mode where
  | MANUAL
  | AUTO
  | CLICK_GO
  | JOYSTICK
deriving DecidableEq, Repr

/-- Home location of the vehicle (`home_location`), in doubles. -/
structure Home_location where
  latitude : F64
  longitude : F64
  altitude : F64
deriving DecidableEq, Repr

/-- Stick values of the MANUAL_CONTROL message used for direct control. -/
structure Manual_control where
  x : Int
  y : Int
  z : Int
  r : Int
deriving DecidableEq, Repr

/-- Floating point arithmetic and header constants used while a request is
translated.  The arithmetic of the C++ floating types, the values a payload
field holds after `Create()`, and the default arguments and constants
declared in the header are not determined by the sources of this
repository; they are parameters of the translation. -/
structure Command_arith where
  /-- Content of a float payload field that was never assigned. -/
  unset : F32
  /-- Content of the confirmation field when it was never assigned. -/
  unset_confirmation : Nat
  /-- Float addition. -/
  add : F32 → F32 → F32
  /-- Float subtraction. -/
  sub : F32 → F32 → F32
  /-- Float multiplication. -/
  mul : F32 → F32 → F32
  /-- Conversion of a double to float. -/
  to_float : F64 → F32
  /-- The expression `1E7f * 180.0f * c / M_PI` of `Do_reposition`. -/
  reposition_coord : F32 → F32
  /-- The expression `home_location.altitude + alt - ao` of `Process_waypoint`. -/
  waypoint_altitude : F64 → F32 → F32 → F32
  /-- The expression `c * 180.0 / M_PI` of `Process_set_poi`. -/
  rad_to_deg : F64 → F32
  /-- The conversion `x * 1000` to `int` of `Process_direct_vehicle_control`. -/
  stick : F32 → Int
  /-- The constant DIRECT_PAYLOAD_CONTROLLING_COEF. -/
  DIRECT_PAYLOAD_CONTROLLING_COEF : F32
  /-- The constant MANUAL_CONTROL_TIMEOUT, in clock ticks. -/
  MANUAL_CONTROL_TIMEOUT : Int
  /-- Default sub-mode argument of `Set_mode`. -/
  Set_mode_default_sub_mode : Nat
  /-- Default latitude argument of `Do_reposition`. -/
  Do_reposition_default_latitude : F32
  /-- Default longitude argument of `Do_reposition`. -/
  Do_reposition_default_longitude : F32
  /-- Default altitude argument of `Do_reposition`. -/
  Do_reposition_default_altitude : F32
  /-- Default heading argument of `Do_reposition`. -/
  Do_reposition_default_heading : F32
  /-- Default speed argument of `Do_reposition`. -/
  Do_reposition_default_speed : F32

/-- The commands of a request, by the registered command they resolve to,
with the parameters the `Process_*` functions read from the parameter
list.  `other` stands for every registered command that has no branch in
`Enable`. -/
inductive Command where
  | emergency_land
  | arm
  | disarm
  | takeoff_command
  | resume
  | pause
  | auto
  | manual
  | rth
  | land_command
  | waypoint (ground_speed : F32) (latitude longitude : F64)
      (altitude_amsl altitude_origin heading : F32)
  | set_poi (active : Bool) (latitude longitude : F64) (altitude_amsl : F32)
  | guided
  | direct_payload_control (pitch yaw : F32)
  | direct_vehicle_control (pitch yaw roll throttle : F32)
  | joystick
  | other
deriving DecidableEq, Repr

/-- The vehicle as seen by the command dispatcher: the dispatcher itself and
the members of `Px4_vehicle` the `Process_*` functions read or write.
`steady_clock` is the reading of the monotonic clock at the time of the
call; `manual_control_sent` logs the MANUAL_CONTROL messages handed to the
stream. -/
structure Vehicle where
  vehicle_command : Vehicle_command_act
  is_armed : Bool
  control_mode : Option Control_mode
  is_airborne : Bool
  home_location : Home_location
  max_ground_speed : F32
  base_mode : Nat
  payload_pitch : F32
  payload_yaw : F32
  direct_vehicle_control : Option Manual_control
  direct_vehicle_control_timer : Bool
  direct_vehicle_control_last_received : Int
  direct_vehicle_control_last_sent : Int
  manual_control_sent : List Manual_control
  steady_clock : Int
deriving DecidableEq, Repr

namespace Vehicle

/-- Source `cmd_messages.emplace_back`: append a payload to the queue. -/
def emplace_back (v : Vehicle) (m : Payload) : Vehicle :=
  { v with vehicle_command :=
      { v.vehicle_command with cmd_messages := v.vehicle_command.cmd_messages ++ [m] } }

/-- Source `Is_home_position_valid`. -/
def Is_home_position_valid (v : Vehicle) : Bool :=
  v.home_location.latitude.ne_zero || v.home_location.longitude.ne_zero

/-- Source `Set_direct_vehicle_control`. -/
def Set_direct_vehicle_control (v : Vehicle) (p r t y : Int) : Vehicle :=
  match v.direct_vehicle_control with
  | some _ => { v with direct_vehicle_control := some ⟨p, r, t, y⟩ }
  | none => v

/-- Source `Send_direct_vehicle_control`. -/
def Send_direct_vehicle_control (v : Vehicle) : Vehicle :=
  match v.direct_vehicle_control with
  | some m =>
    { v with
      manual_control_sent := v.manual_control_sent ++ [m]
      direct_vehicle_control_last_sent := v.steady_clock }
  | none => v

/-- Source `Start_direct_vehicle_control`.  The stick values of the newly
created message are set to zero before it is first sent. -/
def Start_direct_vehicle_control (E : Command_arith) (v : Vehicle) : Vehicle :=
  let v :=
    match v.direct_vehicle_control with
    | none =>
      { v with
        direct_vehicle_control := some ⟨0, 0, 0, 0⟩
        direct_vehicle_control_timer := true }
    | some _ => v
  let v := { v with
    direct_vehicle_control_last_received := v.steady_clock + E.MANUAL_CONTROL_TIMEOUT }
  Send_direct_vehicle_control (Set_direct_vehicle_control v 0 0 0 0)

/-- Source `Stop_direct_vehicle_control`. -/
def Stop_direct_vehicle_control (v : Vehicle) : Vehicle :=
  let v := Send_direct_vehicle_control (Set_direct_vehicle_control v 0 0 0 0)
  { v with direct_vehicle_control := none }

/-- Source `Vehicle_command_act::Set_mode`. -/
def Set_mode (E : Command_arith) (v : Vehicle) (main_mode sub_mode : Nat) : Vehicle :=
  v.emplace_back (Payload.COMMAND_LONG MAV_CMD_DO_SET_MODE
    [F32.of_nat (v.base_mode ||| MAV_MODE_FLAG_CUSTOM_MODE_ENABLED),
      F32.of_nat main_mode, F32.of_nat sub_mode, E.unset, E.unset, E.unset, E.unset] 1)

/-- Source `Vehicle_command_act::Do_reposition`. -/
def Do_reposition (E : Command_arith) (v : Vehicle)
    (latitude longitude altitude heading speed : F32) : Vehicle :=
  v.emplace_back (Payload.COMMAND_LONG MAV_CMD_DO_REPOSITION
    [speed, F32.of_nat MAV_DO_REPOSITION_FLAGS_CHANGE_MODE, F32.of_nat 0, heading,
      E.reposition_coord latitude, E.reposition_coord longitude, altitude] 0)

/-- Lift of a dispatcher operation to the vehicle. -/
def on_command (v : Vehicle) (f : Vehicle_command_act → Vehicle_command_act) : Vehicle :=
  { v with vehicle_command := f v.vehicle_command }

/-- Source `Vehicle_command_act::Process_arm`. -/
def Process_arm (E : Command_arith) (v : Vehicle) : Vehicle :=
  if !v.is_armed && v.control_mode = some Control_mode.AUTO then
    v.on_command (fun a => a.Disable "Arming disabled while in AUTO mode")
  else
    (v.emplace_back (Payload.COMMAND_LONG MAV_CMD_COMPONENT_ARM_DISARM
      [F32.of_nat 1, E.unset, E.unset, E.unset, E.unset, E.unset, E.unset] 0)).on_command
      Vehicle_command_act.Register_status_text

/-- Source `Vehicle_command_act::Process_disarm`. -/
def Process_disarm (E : Command_arith) (v : Vehicle) : Vehicle :=
  (v.emplace_back (Payload.COMMAND_LONG MAV_CMD_COMPONENT_ARM_DISARM
    [F32.of_nat 0, E.unset, E.unset, E.unset, E.unset, E.unset, E.unset] 0)).on_command
    Vehicle_command_act.Register_status_text

/-- Source `Vehicle_command_act::Process_emergency_land`. -/
def Process_emergency_land (E : Command_arith) (v : Vehicle) : Vehicle :=
  Process_disarm E v

/-- Source `Vehicle_command_act::Process_takeoff`. -/
def Process_takeoff (E : Command_arith) (v : Vehicle) : Vehicle :=
  Set_mode E v Px4_main_mode_AUTO Px4_auto_sub_mode_AUTO_TAKEOFF

/-- Source `Vehicle_command_act::Process_rth`. -/
def Process_rth (E : Command_arith) (v : Vehicle) : Vehicle :=
  Set_mode E v Px4_main_mode_AUTO Px4_auto_sub_mode_AUTO_RTL

/-- Source `Vehicle_command_act::Process_land`. -/
def Process_land (E : Command_arith) (v : Vehicle) : Vehicle :=
  Set_mode E v Px4_main_mode_AUTO Px4_auto_sub_mode_AUTO_LAND

/-- Source `Vehicle_command_act::Process_guided`. -/
def Process_guided (E : Command_arith) (v : Vehicle) : Vehicle :=
  let v :=
    if !v.is_airborne then Set_mode E v Px4_main_mode_AUTO Px4_auto_sub_mode_AUTO_TAKEOFF
    else v
  Set_mode E v Px4_main_mode_AUTO Px4_auto_sub_mode_AUTO_LOITER

/-- Source `Vehicle_command_act::Process_joystick`. -/
def Process_joystick (E : Command_arith) (v : Vehicle) : Vehicle :=
  Start_direct_vehicle_control E
    (Set_mode E v Px4_main_mode_POSCTL E.Set_mode_default_sub_mode)

/-- Source `Vehicle_command_act::Process_auto`. -/
def Process_auto (E : Command_arith) (v : Vehicle) : Vehicle :=
  let v := v.emplace_back (Payload.MISSION_SET_CURRENT 0)
  let v :=
    if !v.is_airborne then Set_mode E v Px4_main_mode_AUTO Px4_auto_sub_mode_AUTO_TAKEOFF
    else v
  Set_mode E v Px4_main_mode_AUTO Px4_auto_sub_mode_AUTO_MISSION

/-- Source `Vehicle_command_act::Process_manual`. -/
def Process_manual (E : Command_arith) (v : Vehicle) : Vehicle :=
  Set_mode E (Stop_direct_vehicle_control v) Px4_main_mode_POSCTL E.Set_mode_default_sub_mode

/-- Source `Vehicle_command_act::Process_pause`. -/
def Process_pause (E : Command_arith) (v : Vehicle) : Vehicle :=
  Do_reposition E (Stop_direct_vehicle_control v)
    E.Do_reposition_default_latitude E.Do_reposition_default_longitude
    E.Do_reposition_default_altitude E.Do_reposition_default_heading
    E.Do_reposition_default_speed

/-- Source `Vehicle_command_act::Process_resume`. -/
def Process_resume (E : Command_arith) (v : Vehicle) : Vehicle :=
  Set_mode E (Stop_direct_vehicle_control v) Px4_main_mode_AUTO Px4_auto_sub_mode_AUTO_MISSION

/-- Source `Vehicle_command_act::Process_waypoint`. -/
def Process_waypoint (E : Command_arith) (v : Vehicle) (speed : F32) (lat lon : F64)
    (alt ao hdg : F32) : Vehicle :=
  if v.Is_home_position_valid then
    let v :=
      if !v.is_airborne then Set_mode E v Px4_main_mode_AUTO Px4_auto_sub_mode_AUTO_TAKEOFF
      else v
    let v :=
      if !(v.control_mode = some Control_mode.CLICK_GO) then
        Set_mode E v Px4_main_mode_AUTO Px4_auto_sub_mode_AUTO_LOITER
      else v
    let v :=
      if v.vehicle_command.vendor = Px4_vendor.YUNEEC then v
      else
        let v := v.emplace_back (Payload.PARAM_SET "MPC_XY_CRUISE" speed)
        if F32.lt v.max_ground_speed speed then
          v.emplace_back (Payload.PARAM_SET "MPC_XY_VEL_MAX" speed)
        else v
    Do_reposition E v (E.to_float lat) (E.to_float lon)
      (E.waypoint_altitude v.home_location.altitude alt ao) hdg speed
  else
    v.on_command (fun a => a.Disable "Invalid home position")

/-- Source `Vehicle_command_act::Process_set_poi`. -/
def Process_set_poi (E : Command_arith) (v : Vehicle) (active : Bool) (latitude longitude : F64)
    (altitude_amsl : F32) : Vehicle :=
  let p567 :=
    if active then [E.rad_to_deg latitude, E.rad_to_deg longitude, altitude_amsl]
    else [F32.of_nat 0, F32.of_nat 0, F32.of_nat 0]
  v.emplace_back (Payload.COMMAND_LONG MAV_CMD_DO_SET_ROI
    ([F32.of_nat MAV_ROI_LOCATION, E.unset, E.unset, E.unset] ++ p567) E.unset_confirmation)

/-- Source `Vehicle_command_act::Process_direct_payload_control`. -/
def Process_direct_payload_control (E : Command_arith) (v : Vehicle) (pitch yaw : F32) :
    Vehicle :=
  let v := { v with
    payload_pitch := E.add v.payload_pitch (E.mul pitch E.DIRECT_PAYLOAD_CONTROLLING_COEF) }
  let v := { v with
    payload_yaw := E.add v.payload_yaw (E.mul yaw E.DIRECT_PAYLOAD_CONTROLLING_COEF) }
  let v := if F32.lt (F32.of_nat 0) v.payload_pitch then
    { v with payload_pitch := F32.of_nat 0 } else v
  let v := if F32.lt v.payload_pitch (F32.of_nat 90).neg then
    { v with payload_pitch := (F32.of_nat 90).neg } else v
  let v := if F32.lt (F32.of_nat 180) v.payload_yaw then
    { v with payload_yaw := E.sub v.payload_yaw (F32.of_nat 360) } else v
  let v := if F32.lt v.payload_yaw (F32.of_nat 180).neg then
    { v with payload_yaw := E.add v.payload_yaw (F32.of_nat 360) } else v
  v.emplace_back (Payload.COMMAND_LONG MAV_CMD_DO_MOUNT_CONTROL
    [v.payload_pitch, F32.of_nat 0, v.payload_yaw, E.unset, E.unset, E.unset,
      F32.of_nat MAV_MOUNT_MODE_MAVLINK_TARGETING] E.unset_confirmation)

/-- Source `Vehicle_command_act::Process_direct_vehicle_control`. -/
def Process_direct_vehicle_control (E : Command_arith) (v : Vehicle)
    (pitch yaw roll throttle : F32) : Vehicle :=
  let v := Set_direct_vehicle_control v (E.stick pitch) (E.stick roll) (E.stick throttle)
    (E.stick yaw)
  { v with direct_vehicle_control_last_received := v.steady_clock }

/-- The body of the loop of `Enable`: dispatch on the registered command. -/
def Process_command (E : Command_arith) (v : Vehicle) : Command → Vehicle
  | .emergency_land => Process_emergency_land E v
  | .arm => Process_arm E v
  | .disarm => Process_disarm E v
  | .takeoff_command => Process_takeoff E v
  | .resume => Process_resume E v
  | .pause => Process_pause E v
  | .auto => Process_auto E v
  | .manual => Process_manual E v
  | .rth => Process_rth E v
  | .land_command => Process_land E v
  | .waypoint speed lat lon alt ao hdg => Process_waypoint E v speed lat lon alt ao hdg
  | .set_poi active lat lon alt => Process_set_poi E v active lat lon alt
  | .guided => Process_guided E v
  | .direct_payload_control pitch yaw => Process_direct_payload_control E v pitch yaw
  | .direct_vehicle_control pitch yaw roll throttle =>
    Process_direct_vehicle_control E v pitch yaw roll throttle
  | .joystick => Process_joystick E v
  | .other => v.on_command (fun a => a.Disable "Unsupported command")

/-- The loop of `Enable` over the commands of the request.  Its condition
tests `ucs_request` before every command: once the request has been
completed by a `Disable`, the remaining commands are not looked at. -/
def Enable_loop (E : Command_arith) : Vehicle → List Command → Vehicle
  | v, [] => v
  | v, c :: cs =>
    if v.vehicle_command.status = Status.active then Enable_loop E (Process_command E v c) cs
    else v

/-- Source `Vehicle_command_act::Enable` on a request with the commands
`cmds`: reset, translate the commands, then make the first try. -/
def Enable (E : Command_arith) (v : Vehicle) (cmds : List Command) : Vehicle :=
  (Enable_loop E (v.on_command Vehicle_command_act.Enable_begin) cmds).on_command
    Vehicle_command_act.Enable_end

end Vehicle

/-- Example arithmetic for the command translation: NaN for unassigned
float fields and default arguments, first operand for the arithmetic that
the examples never reach. -/
def example_command_arith : Command_arith :=
  { unset := ⟨2143289344⟩
    unset_confirmation := 0
    add := fun x _ => x
    sub := fun x _ => x
    mul := fun x _ => x
    to_float := fun _ => ⟨2143289344⟩
    reposition_coord := fun x => x
    waypoint_altitude := fun _ x _ => x
    rad_to_deg := fun _ => ⟨2143289344⟩
    stick := fun _ => 0
    DIRECT_PAYLOAD_CONTROLLING_COEF := ⟨1065353216⟩
    MANUAL_CONTROL_TIMEOUT := 3000
    Set_mode_default_sub_mode := 0
    Do_reposition_default_latitude := ⟨2143289344⟩
    Do_reposition_default_longitude := ⟨2143289344⟩
    Do_reposition_default_altitude := ⟨2143289344⟩
    Do_reposition_default_heading := ⟨2143289344⟩
    Do_reposition_default_speed := ⟨3212836864⟩ }

/-- A vehicle on the ground with the given armed flag, control mode and
home location, whose dispatcher has a request attached. -/
def example_vehicle (armed : Bool) (mode : Option Control_mode) (home : Home_location) :
    Vehicle :=
  { vehicle_command := example_act 3 Px4_vendor.PX4
    is_armed := armed
    control_mode := mode
    is_airborne := false
    home_location := home
    max_ground_speed := ⟨1092616192⟩
    base_mode := 0
    payload_pitch := ⟨0⟩
    payload_yaw := ⟨0⟩
    direct_vehicle_control := none
    direct_vehicle_control_timer := false
    direct_vehicle_control_last_received := 0
    direct_vehicle_control_last_sent := 0
    manual_control_sent := []
    steady_clock := 0 }

/-- A home location that was never reported: all zero. -/
def example_home_unset : Home_location := ⟨⟨0⟩, ⟨0⟩, ⟨0⟩⟩

/-- A reported home location: 47 degrees north, 8 degrees east (in radians),
500 m. -/
def example_home : Home_location :=
  ⟨⟨4605563867864061676⟩, ⟨4594198589358644537⟩, ⟨4647503709213818880⟩⟩

/-! ## Mission compiler (`Px4_vehicle::Task_upload`)

The compiler folds the actions of a task request into MAVLink mission
items.  The values of the C++ floating types are kept abstract: the
compiler is parametric in their carrier `F` and in the arithmetic on it. -/

/-- MAV_CMD number of NAV_WAYPOINT. -/
def MAV_CMD_NAV_WAYPOINT : Nat := 16
/-- MAV_CMD number of NAV_LAND. -/
def MAV_CMD_NAV_LAND : Nat := 21
/-- MAV_CMD number of NAV_TAKEOFF. -/
def MAV_CMD_NAV_TAKEOFF : Nat := 22
/-- MAV_CMD number of NAV_VTOL_TAKEOFF. -/
def MAV_CMD_NAV_VTOL_TAKEOFF : Nat := 84
/-- MAV_CMD number of NAV_VTOL_LAND. -/
def MAV_CMD_NAV_VTOL_LAND : Nat := 85
/-- MAV_CMD number of DO_CHANGE_SPEED. -/
def MAV_CMD_DO_CHANGE_SPEED : Nat := 178
/-- MAV_CMD number of DO_SET_SERVO. -/
def MAV_CMD_DO_SET_SERVO : Nat := 183
/-- MAV_CMD number of DO_REPEAT_SERVO. -/
def MAV_CMD_DO_REPEAT_SERVO : Nat := 184
/-- MAV_CMD number of DO_SET_ROI_LOCATION. -/
def MAV_CMD_DO_SET_ROI_LOCATION : Nat := 195
/-- MAV_CMD number of DO_SET_ROI_NONE. -/
def MAV_CMD_DO_SET_ROI_NONE : Nat := 197
/-- MAV_CMD number of DO_DIGICAM_CONTROL. -/
def MAV_CMD_DO_DIGICAM_CONTROL : Nat := 203
/-- MAV_CMD number of DO_MOUNT_CONFIGURE. -/
def MAV_CMD_DO_MOUNT_CONFIGURE : Nat := 204
/-- MAV_CMD number of DO_SET_CAM_TRIGG_DIST. -/
def MAV_CMD_DO_SET_CAM_TRIGG_DIST : Nat := 206
/-- MAV_CMD number of IMAGE_START_CAPTURE. -/
def MAV_CMD_IMAGE_START_CAPTURE : Nat := 2000
/-- MAV_CMD number of IMAGE_STOP_CAPTURE. -/
def MAV_CMD_IMAGE_STOP_CAPTURE : Nat := 2001
/-- MAV_CMD number of VIDEO_START_CAPTURE. -/
def MAV_CMD_VIDEO_START_CAPTURE : Nat := 2500
/-- MAV_CMD number of VIDEO_STOP_CAPTURE. -/
def MAV_CMD_VIDEO_STOP_CAPTURE : Nat := 2501
/-- MAV_CMD number of DO_VTOL_TRANSITION. -/
def MAV_CMD_DO_VTOL_TRANSITION : Nat := 3000
/-- MAV_FRAME value of the mission frame. -/
def MAV_FRAME_MISSION : Nat := 2
/-- MAV_FRAME value of the global frame with relative altitude. -/
def MAV_FRAME_GLOBAL_RELATIVE_ALT : Nat := 3
/-- MAV_VTOL_STATE value of multicopter flight. -/
def MAV_VTOL_STATE_MC : Nat := 3
/-- MAV_VTOL_STATE value of fixed wing flight. -/
def MAV_VTOL_STATE_FW : Nat := 4
/-- CAMERA_MODE value for still images. -/
def CAMERA_MODE_IMAGE : Nat := 0
/-- CAMERA_MODE value for video. -/
def CAMERA_MODE_VIDEO : Nat := 1

/-- Vehicle classes (`proto::VEHICLE_TYPE_*`). -/
inductive Vehicle_type where
  | GROUND
  | FIXED_WING
  | MULTICOPTER
  | HELICOPTER
  | VTOL
deriving DecidableEq, Repr

/-- A geodetic position: latitude and longitude in radians, altitude in
metres. -/
structure Geodetic_tuple (F : Type) where
  latitude : F
  longitude : F
  altitude : F
deriving DecidableEq, Repr

/-- The MISSION_ITEM payload.  `seq` is a 16-bit field. -/
structure Mission_item (F : Type) where
  seq : Nat
  target_system : Nat
  target_component : Nat
  frame : Nat
  command : Nat
  current : Nat
  autocontinue : Nat
  param1 : F
  param2 : F
  param3 : F
  param4 : F
  x : F
  y : F
  z : F
deriving DecidableEq, Repr

/-- Fields of a Move action. -/
structure Move_action (F : Type) where
  position : Geodetic_tuple F
  wait_time : F
  acceptance_radius : F
  loiter_orbit : F
  heading : F
deriving DecidableEq, Repr

/-- Fields of a Takeoff action read by the compiler. -/
structure Takeoff_action (F : Type) where
  position : Geodetic_tuple F
  heading : F
deriving DecidableEq, Repr

/-- States of a camera trigger action with a branch in
`Prepare_camera_trigger`. -/
inductive Camera_trigger_state where
  | SINGLE_PHOTO
  | SERIAL_PHOTO
  | OFF
  | ON
deriving DecidableEq, Repr

/-- Target of a VTOL transition. -/
inductive Vtol_transition_mode where
  | FIXED
  | VTOL
deriving DecidableEq, Repr

/-- Flight actions of a task request (`Action::Type`), with the fields the
compiler reads.  Camera intervals are millisecond counts.  `OTHER` stands
for an action type without a branch in `Prepare_action`. -/
inductive Action (F : Type) where
  | MOVE (move : Move_action F)
  | WAIT (wait_time : F)
  | PAYLOAD_STEERING
  | TAKEOFF (takeoff : Takeoff_action F)
  | LANDING (position : Geodetic_tuple F) (heading : F)
  | CHANGE_SPEED (speed : F)
  | SET_HOME
  | POI (position : Geodetic_tuple F) (active : Bool)
  | HEADING (heading : F)
  | PANORAMA
  | CAMERA_CONTROL (tilt roll yaw : F)
  | CAMERA_TRIGGER (state : Camera_trigger_state) (interval : Int)
  | CAMERA_SERIES_BY_TIME (interval : Int)
  | CAMERA_SERIES_BY_DISTANCE (interval : F)
  | VTOL_TRANSITION (mode : Vtol_transition_mode)
  | OTHER
deriving DecidableEq, Repr

/-- Failsafe choices of the task attributes (`Emergency_action`). -/
inductive Emergency_action where
  | DO_NOT_CHANGE
  | GO_HOME
  | LAND
  | WAIT
  | CONTINUE
deriving DecidableEq, Repr

/-- Attributes of a task request. -/
structure Task_attributes (F : Type) where
  rc_loss : Emergency_action
  gnss_loss : Emergency_action
  low_battery : Emergency_action
  safe_altitude : F
deriving DecidableEq, Repr

/-- The task request handed to `Task_upload::Enable`. -/
structure Task_request (F : Type) where
  actions : List (Action F)
  attributes : Task_attributes F
  takeoff_altitude : F
  return_native_route : Bool
deriving DecidableEq, Repr

/-- Value written by an attribute parameter write. -/
inductive Attribute_value (F : Type) where
  | int_px4 (v : Int)
  | float (v : F)
deriving DecidableEq, Repr

/-- Members of `Px4_vehicle` read by the compiler. -/
structure Compiler_config (F : Type) where
  vehicle_type : Vehicle_type
  vendor : Px4_vendor
  autoheading : Bool
  auto_generate_mission_poi : Bool
  set_poi_supported : Bool
  camera_trigger_type : Int
  camera_servo_idx : F
  camera_servo_pwm : F
  camera_servo_time : F
  real_system_id : Nat
  camera_component_id : Nat
  max_ground_speed : F
  home_altitude_amsl : Option F
deriving DecidableEq, Repr

/-- Arithmetic on the C++ floating types, the geodesy of the SDK, what
`Pld_mission_item::Create()` returns, and the constants and default
arguments declared in the header: none of them is determined by the sources
of this repository, so the compiler takes them as parameters. -/
structure Arith (F : Type) where
  /-- The test `std::isnan`. -/
  isnan : F → Bool
  /-- The comparison `<`. -/
  lt : F → F → Bool
  /-- Subtraction. -/
  sub : F → F → F
  /-- Multiplication. -/
  mul : F → F → F
  /-- Division. -/
  div : F → F → F
  /-- Unary minus. -/
  neg : F → F
  /-- The function `fabs`. -/
  fabs : F → F
  /-- Conversion of an integer constant. -/
  of_int : Int → F
  /-- Conversion to `float`. -/
  to_float : F → F
  /-- The expression `static_cast<float>(count) / 1000.0` on a millisecond count. -/
  of_ms : Int → F
  /-- The constant NAN. -/
  nan : F
  /-- The constant M_PI. -/
  pi : F
  /-- Initial bearing from one position to another (`Wgs84_position::Bearing`). -/
  Bearing : Geodetic_tuple F → Geodetic_tuple F → F
  /-- The SDK function `Normalize_angle_0_2pi`. -/
  Normalize_angle_0_2pi : F → F
  /-- A freshly created mission item. -/
  Create : Mission_item F
  /-- Target system and component after `Fill_target_ids`. -/
  Fill_target_ids : Nat × Nat → Nat × Nat
  /-- The SDK predicate `Vehicle::Is_copter`. -/
  Is_copter : Vehicle_type → Bool
  /-- The constant CHANGE_SPEED_TRESHOLD. -/
  CHANGE_SPEED_TRESHOLD : F
  /-- The constant ACCEPTANCE_RADIUS_MIN. -/
  ACCEPTANCE_RADIUS_MIN : F
  /-- The constant MAX_COPTER_SPEED. -/
  MAX_COPTER_SPEED : F
  /-- Default interval argument of `Prepare_camera_trigger_impl`. -/
  camera_trigger_default_interval : F

/-- State of `Px4_vehicle::Task_upload`: the compiler context, the prepared
items, and the request being compiled. -/
structure Task_upload (F : Type) where
  request : Task_request F
  prepared_actions : List (Mission_item F)
  task_attributes : List (String × Attribute_value F)
  current_mission_poi : Option (Geodetic_tuple F)
  current_mission_heading : Option F
  current_camera_mode : Option Nat
  first_mission_poi_set : Bool
  restart_mission_poi : Bool
  current_heading : F
  current_speed : F
  heading_to_this_wp : F
  camera_series_by_dist_active : Bool
  camera_series_by_dist_active_in_wp : Bool
  camera_series_by_time_active : Bool
  camera_series_by_time_active_in_wp : Bool
  max_mission_speed : F
  last_move_action : Option (Move_action F)
  takeoff_action : Option (Takeoff_action F)
deriving DecidableEq, Repr

namespace Task_upload

variable {F : Type}

/-- The conversion `(x * 180.0) / M_PI` from radians to degrees. -/
def deg (A : Arith F) (x : F) : F :=
  A.div (A.mul x (A.of_int 180)) A.pi

/-- Source `Fill_mavlink_mission_item_coords`. -/
def Fill_mavlink_mission_item_coords (A : Arith F) (t : Task_upload F)
    (msg : Mission_item F) (tuple : Geodetic_tuple F) (heading : F) : Mission_item F :=
  { msg with
    x := deg A tuple.latitude
    y := deg A tuple.longitude
    z := A.sub tuple.altitude t.request.takeoff_altitude
    param4 := deg A heading }

/-- The commands for which `Fill_mavlink_mission_item_common` selects the
mission frame. -/
def mission_frame_commands : List Nat :=
  [MAV_CMD_DO_CHANGE_SPEED, MAV_CMD_DO_SET_SERVO, MAV_CMD_DO_DIGICAM_CONTROL,
    MAV_CMD_DO_MOUNT_CONFIGURE, MAV_CMD_DO_MOUNT_CONTROL, MAV_CMD_IMAGE_START_CAPTURE,
    MAV_CMD_IMAGE_STOP_CAPTURE, MAV_CMD_VIDEO_START_CAPTURE, MAV_CMD_VIDEO_STOP_CAPTURE,
    MAV_CMD_SET_CAMERA_MODE, MAV_CMD_DO_SET_CAM_TRIGG_DIST, MAV_CMD_DO_VTOL_TRANSITION,
    MAV_CMD_DO_SET_ROI_NONE]

/-- Source `Fill_mavlink_mission_item_common`.  The sequence number is the
number of items prepared so far, stored in the 16-bit `seq` field. -/
def Fill_mavlink_mission_item_common (A : Arith F) (t : Task_upload F)
    (msg : Mission_item F) : Mission_item F :=
  { msg with
    target_system := (A.Fill_target_ids (msg.target_system, msg.target_component)).1
    target_component := (A.Fill_target_ids (msg.target_system, msg.target_component)).2
    seq := t.prepared_actions.length % 2 ^ 16
    frame :=
      if mission_frame_commands.contains msg.command then MAV_FRAME_MISSION
      else MAV_FRAME_GLOBAL_RELATIVE_ALT
    autocontinue := 1 }

/-- Source `Add_mission_item`. -/
def Add_mission_item (A : Arith F) (t : Task_upload F) (mi : Mission_item F) :
    Task_upload F :=
  { t with prepared_actions := t.prepared_actions ++ [Fill_mavlink_mission_item_common A t mi] }

/-- Source `Build_roi_mission_item`. -/
def Build_roi_mission_item (A : Arith F) (t : Task_upload F) (coords : Geodetic_tuple F) :
    Mission_item F :=
  Fill_mavlink_mission_item_coords A t
    { A.Create with command := MAV_CMD_DO_SET_ROI_LOCATION } coords (A.of_int 0)

/-- Source `Build_wp_mission_item`. -/
def Build_wp_mission_item (A : Arith F) (t : Task_upload F) (ma : Move_action F) :
    Mission_item F :=
  Fill_mavlink_mission_item_coords A t
    { A.Create with
      command := MAV_CMD_NAV_WAYPOINT
      current := 0
      param1 := A.mul ma.wait_time (A.of_int 10)
      param2 :=
        if A.lt ma.acceptance_radius A.ACCEPTANCE_RADIUS_MIN then A.ACCEPTANCE_RADIUS_MIN
        else ma.acceptance_radius
      param3 := ma.loiter_orbit }
    ma.position ma.heading

/-- Source `Prepare_move`, first part: turn off a camera series that was not
started since the previous waypoint, then clear the in-waypoint flags. -/
def Prepare_move_series_off (A : Arith F) (cfg : Compiler_config F) (t : Task_upload F) :
    Task_upload F :=
  let t :=
    if !t.camera_series_by_dist_active_in_wp then
      if t.camera_series_by_dist_active then
        Add_mission_item A { t with camera_series_by_dist_active := false }
          { A.Create with command := MAV_CMD_DO_SET_CAM_TRIGG_DIST }
      else t
    else t
  let t :=
    if !t.camera_series_by_time_active_in_wp then
      if t.camera_series_by_time_active then
        Add_mission_item A { t with camera_series_by_time_active := false }
          (if cfg.camera_trigger_type = 1 then
            { A.Create with
              command := MAV_CMD_DO_REPEAT_SERVO
              param1 := cfg.camera_servo_idx }
          else
            { A.Create with
              target_system := cfg.real_system_id
              target_component := cfg.camera_component_id
              command := MAV_CMD_IMAGE_STOP_CAPTURE })
      else t
    else t
  { t with
    camera_series_by_dist_active_in_wp := false
    camera_series_by_time_active_in_wp := false }

/-- The position the bearing of `Prepare_move` is taken from: the previous
Move if there is one, else the Takeoff if there is one. -/
def bearing_origin (t : Task_upload F) : Option (Geodetic_tuple F) :=
  match t.last_move_action with
  | some from_move => some from_move.position
  | none =>
    match t.takeoff_action with
    | some from_takeoff => some from_takeoff.position
    | none => none

/-- Source `Prepare_move`, second part: the heading to this waypoint.  An
undefined bearing (several waypoints at the same coordinates) leaves
`heading_to_this_wp` as it was. -/
def Prepare_move_heading (A : Arith F) (t : Task_upload F) (to_move : Move_action F) :
    Task_upload F :=
  match bearing_origin t with
  | some origin =>
    let calculated_heading := A.to_float (A.Bearing origin to_move.position)
    if !A.isnan calculated_heading then
      { t with heading_to_this_wp :=
          A.to_float (A.Normalize_angle_0_2pi calculated_heading) }
    else t
  | none => t

/-- Source `Prepare_move`, third part: automatic POI item or yaw angle.  The
heading of the Move action itself is overwritten when autoheading applies. -/
def Prepare_move_yaw (A : Arith F) (cfg : Compiler_config F) (t : Task_upload F)
    (to_move : Move_action F) : Task_upload F × Move_action F :=
  match t.current_mission_poi with
  | some poi =>
    if !t.first_mission_poi_set && (cfg.auto_generate_mission_poi || t.restart_mission_poi) then
      (Add_mission_item A t (Build_roi_mission_item A t poi), to_move)
    else (t, to_move)
  | none =>
    let t :=
      match t.current_mission_heading with
      | some heading => { t with current_heading := heading }
      | none => { t with current_heading := t.heading_to_this_wp }
    if (t.last_move_action.isSome || t.takeoff_action.isSome)
        && A.Is_copter cfg.vehicle_type then
      if cfg.autoheading then (t, { to_move with heading := t.current_heading })
      else (t, { to_move with heading := A.nan })
    else (t, to_move)

/-- Source `Prepare_move`.  The second component is the Move action as the
function leaves it. -/
def Prepare_move (A : Arith F) (cfg : Compiler_config F) (t : Task_upload F)
    (to_move : Move_action F) : Task_upload F × Move_action F :=
  let t := Prepare_move_series_off A cfg t
  let t := Prepare_move_heading A t to_move
  let r := Prepare_move_yaw A cfg t to_move
  let mi := Build_wp_mission_item A r.1 r.2
  let mi := if r.1.last_move_action.isNone then { mi with current := 1 } else mi
  let t := Add_mission_item A r.1 mi
  ({ t with last_move_action := some r.2, current_mission_heading := none }, r.2)

/-- Source `Prepare_wait`. -/
def Prepare_wait (A : Arith F) (cfg : Compiler_config F) (t : Task_upload F)
    (wait_time : F) : Task_upload F :=
  match t.last_move_action with
  | some last_move =>
    let wp := Build_wp_mission_item A t last_move
    let wp :=
      if t.current_mission_poi.isNone && cfg.autoheading then
        { wp with param4 := deg A (A.Normalize_angle_0_2pi t.current_heading) }
      else wp
    let t := { t with first_mission_poi_set := false, restart_mission_poi := true }
    Add_mission_item A t { wp with param1 := wait_time }
  | none => t

/-- Source `Prepare_takeoff`. -/
def Prepare_takeoff (A : Arith F) (cfg : Compiler_config F) (t : Task_upload F)
    (takeoff : Takeoff_action F) : Task_upload F :=
  let mi : Mission_item F :=
    { A.Create with
      command :=
        if cfg.vehicle_type = Vehicle_type.VTOL then MAV_CMD_NAV_VTOL_TAKEOFF
        else MAV_CMD_NAV_TAKEOFF
      param1 := A.of_int 0 }
  let t := Add_mission_item A t
    (Fill_mavlink_mission_item_coords A t mi takeoff.position takeoff.heading)
  { t with takeoff_action := some takeoff }

/-- Source `Prepare_landing`. -/
def Prepare_landing (A : Arith F) (cfg : Compiler_config F) (t : Task_upload F)
    (position : Geodetic_tuple F) (heading : F) : Task_upload F :=
  let mi : Mission_item F :=
    { A.Create with
      command :=
        if cfg.vehicle_type = Vehicle_type.VTOL then MAV_CMD_NAV_VTOL_LAND
        else MAV_CMD_NAV_LAND }
  let t := Add_mission_item A t (Fill_mavlink_mission_item_coords A t mi position heading)
  { t with last_move_action := none, takeoff_action := none }

/-- Source `Prepare_vtol_transition`. -/
def Prepare_vtol_transition (A : Arith F) (cfg : Compiler_config F) (t : Task_upload F)
    (mode : Vtol_transition_mode) : Task_upload F :=
  if cfg.vehicle_type = Vehicle_type.VTOL then
    Add_mission_item A t
      { A.Create with
        command := MAV_CMD_DO_VTOL_TRANSITION
        param1 :=
          match mode with
          | Vtol_transition_mode.FIXED => A.of_int MAV_VTOL_STATE_FW
          | Vtol_transition_mode.VTOL => A.of_int MAV_VTOL_STATE_MC }
  else t

/-- Source `Prepare_change_speed`. -/
def Prepare_change_speed (A : Arith F) (t : Task_upload F) (speed : F) : Task_upload F :=
  if A.lt (A.fabs (A.sub t.current_speed speed)) A.CHANGE_SPEED_TRESHOLD then t
  else
    Add_mission_item A { t with current_speed := speed }
      { A.Create with
        command := MAV_CMD_DO_CHANGE_SPEED
        param1 := A.of_int 1
        param2 := speed
        param3 := A.of_int (-1) }

/-- Source `Prepare_POI`. -/
def Prepare_POI (A : Arith F) (t : Task_upload F) (position : Geodetic_tuple F)
    (active : Bool) : Task_upload F :=
  if active then
    let t := { t with current_mission_poi := some position }
    Add_mission_item A { t with first_mission_poi_set := true }
      (Build_roi_mission_item A t position)
  else
    Add_mission_item A { t with current_mission_poi := none }
      { A.Create with command := MAV_CMD_DO_SET_ROI_NONE }

/-- Source `Prepare_heading`. -/
def Prepare_heading (A : Arith F) (t : Task_upload F) (heading : F) : Task_upload F :=
  let t := { t with
    current_heading := heading
    current_mission_heading := some heading
    restart_mission_poi := true }
  match t.last_move_action with
  | some last_move =>
    let wp := Build_wp_mission_item A t last_move
    let wp :=
      if t.current_mission_poi.isNone then
        { wp with param4 := deg A (A.Normalize_angle_0_2pi t.current_heading) }
      else wp
    Add_mission_item A { t with first_mission_poi_set := false, restart_mission_poi := true } wp
  | none => t

/-- Source `Prepare_camera_series_by_distance`. -/
def Prepare_camera_series_by_distance (A : Arith F) (t : Task_upload F) (interval : F) :
    Task_upload F :=
  let t := Add_mission_item A t
    { A.Create with command := MAV_CMD_DO_SET_CAM_TRIGG_DIST, param1 := interval }
  { t with camera_series_by_dist_active := true, camera_series_by_dist_active_in_wp := true }

/-- Source `Prepare_camera_mode`.  The explicit three second wait goes
through `Prepare_action`, which dispatches a Wait action to `Prepare_wait`. -/
def Prepare_camera_mode (A : Arith F) (cfg : Compiler_config F) (t : Task_upload F)
    (mode : Nat) : Task_upload F :=
  if t.current_camera_mode.isNone || t.current_camera_mode != some mode then
    let t := Add_mission_item A t
      { A.Create with
        target_system := cfg.real_system_id
        target_component := cfg.camera_component_id
        command := MAV_CMD_SET_CAMERA_MODE
        param1 := A.of_int 0
        param2 := A.of_int mode }
    let t := { t with current_camera_mode := some mode }
    Prepare_wait A cfg t (A.of_int 3)
  else t

/-- Source `Prepare_camera_trigger_impl`. -/
def Prepare_camera_trigger_impl (A : Arith F) (cfg : Compiler_config F) (t : Task_upload F)
    (multiply_photos : Bool) (interval_in_seconds : F) : Task_upload F :=
  let t :=
    if cfg.camera_trigger_type = 1 then
      Add_mission_item A t
        { A.Create with
          command := MAV_CMD_DO_REPEAT_SERVO
          param1 := cfg.camera_servo_idx
          param2 := cfg.camera_servo_pwm
          param3 := if multiply_photos then A.of_int 65535 else A.of_int 1
          param4 := if multiply_photos then interval_in_seconds else cfg.camera_servo_time }
    else
      let t := Prepare_camera_mode A cfg t CAMERA_MODE_IMAGE
      Add_mission_item A t
        { A.Create with
          target_system := cfg.real_system_id
          target_component := cfg.camera_component_id
          command := MAV_CMD_IMAGE_START_CAPTURE
          param1 := A.of_int 0
          param2 := interval_in_seconds
          param3 := if multiply_photos then A.of_int 0 else A.of_int 1 }
  { t with
    camera_series_by_time_active := multiply_photos
    camera_series_by_time_active_in_wp := multiply_photos }

/-- Source `Prepare_camera_recording_impl`. -/
def Prepare_camera_recording_impl (A : Arith F) (cfg : Compiler_config F)
    (t : Task_upload F) (start_recording : Bool) : Task_upload F :=
  let t := Prepare_camera_mode A cfg t CAMERA_MODE_VIDEO
  Add_mission_item A t
    (if start_recording then
      { A.Create with
        command := MAV_CMD_VIDEO_START_CAPTURE
        target_system := cfg.real_system_id
        target_component := cfg.camera_component_id
        param1 := A.of_int 0
        param2 := A.of_int 1 }
    else
      { A.Create with
        command := MAV_CMD_VIDEO_STOP_CAPTURE
        target_system := cfg.real_system_id
        target_component := cfg.camera_component_id })

/-- Source `Prepare_camera_series_by_time`. -/
def Prepare_camera_series_by_time (A : Arith F) (cfg : Compiler_config F)
    (t : Task_upload F) (interval : Int) : Task_upload F :=
  Prepare_camera_trigger_impl A cfg t true (A.of_ms interval)

/-- Source `Prepare_camera_trigger`. -/
def Prepare_camera_trigger (A : Arith F) (cfg : Compiler_config F) (t : Task_upload F)
    (state : Camera_trigger_state) (interval : Int) : Task_upload F :=
  match state with
  | Camera_trigger_state.SINGLE_PHOTO =>
    Prepare_camera_trigger_impl A cfg t false A.camera_trigger_default_interval
  | Camera_trigger_state.SERIAL_PHOTO =>
    Prepare_camera_trigger_impl A cfg t true (A.of_ms interval)
  | Camera_trigger_state.OFF =>
    if cfg.camera_trigger_type = 0 then Prepare_camera_recording_impl A cfg t false else t
  | Camera_trigger_state.ON =>
    if cfg.camera_trigger_type = 0 then Prepare_camera_recording_impl A cfg t true else t

/-- Source `Prepare_camera_control`. -/
def Prepare_camera_control (A : Arith F) (t : Task_upload F) (tilt roll yaw : F) :
    Task_upload F :=
  Add_mission_item A t
    { A.Create with
      command := MAV_CMD_DO_MOUNT_CONTROL
      param1 := deg A (A.neg tilt)
      param2 := deg A roll
      param3 := deg A yaw
      z := A.of_int MAV_MOUNT_MODE_MAVLINK_TARGETING }

/-- Source `Prepare_action`.  The second component is the action as the
function leaves it: a Move has its heading overwritten by `Prepare_move`. -/
def Prepare_action (A : Arith F) (cfg : Compiler_config F) (t : Task_upload F) :
    Action F → Task_upload F × Action F
  | .MOVE move => ((Prepare_move A cfg t move).1, Action.MOVE (Prepare_move A cfg t move).2)
  | .WAIT wait_time => (Prepare_wait A cfg t wait_time, Action.WAIT wait_time)
  | .PAYLOAD_STEERING => (t, Action.PAYLOAD_STEERING)
  | .TAKEOFF takeoff => (Prepare_takeoff A cfg t takeoff, Action.TAKEOFF takeoff)
  | .LANDING position heading =>
    (Prepare_landing A cfg t position heading, Action.LANDING position heading)
  | .CHANGE_SPEED speed => (Prepare_change_speed A t speed, Action.CHANGE_SPEED speed)
  | .SET_HOME => (t, Action.SET_HOME)
  | .POI position active =>
    (if cfg.set_poi_supported then Prepare_POI A t position active else t,
      Action.POI position active)
  | .HEADING heading => (Prepare_heading A t heading, Action.HEADING heading)
  | .PANORAMA => (t, Action.PANORAMA)
  | .CAMERA_CONTROL tilt roll yaw =>
    (Prepare_camera_control A t tilt roll yaw, Action.CAMERA_CONTROL tilt roll yaw)
  | .CAMERA_TRIGGER state interval =>
    (Prepare_camera_trigger A cfg t state interval, Action.CAMERA_TRIGGER state interval)
  | .CAMERA_SERIES_BY_TIME interval =>
    (Prepare_camera_series_by_time A cfg t interval, Action.CAMERA_SERIES_BY_TIME interval)
  | .CAMERA_SERIES_BY_DISTANCE interval =>
    (Prepare_camera_series_by_distance A t interval, Action.CAMERA_SERIES_BY_DISTANCE interval)
  | .VTOL_TRANSITION mode =>
    (Prepare_vtol_transition A cfg t mode, Action.VTOL_TRANSITION mode)
  | .OTHER => (t, Action.OTHER)

/-- The loop of `Prepare_task` over the actions of the request, left to
right; the second component holds the actions as the loop leaves them. -/
def Prepare_actions (A : Arith F) (cfg : Compiler_config F) :
    Task_upload F → List (Action F) → Task_upload F × List (Action F)
  | t, [] => (t, [])
  | t, action :: rest =>
    ((Prepare_actions A cfg (Prepare_action A cfg t action).1 rest).1,
      (Prepare_action A cfg t action).2
        :: (Prepare_actions A cfg (Prepare_action A cfg t action).1 rest).2)

/-- Source `Prepare_task`. -/
def Prepare_task (A : Arith F) (cfg : Compiler_config F) (t : Task_upload F) :
    Task_upload F :=
  let t := { t with prepared_actions := [], last_move_action := none, takeoff_action := none }
  let r := Prepare_actions A cfg t t.request.actions
  { r.1 with request := { r.1.request with actions := r.2 } }

/-- Source `Task_upload::On_disable`, as far as the compiler state goes (the
completion of the request and the two upload conversations are outside). -/
def On_disable (A : Arith F) (t : Task_upload F) : Task_upload F :=
  { t with
    prepared_actions := []
    task_attributes := []
    current_mission_poi := none
    current_mission_heading := none
    current_camera_mode := none
    last_move_action := none
    takeoff_action := none
    first_mission_poi_set := false
    restart_mission_poi := false
    current_heading := A.of_int 0 }

/-- Source `Task_upload::Enable`, the block under "Clean state". -/
def Enable_clean_state (A : Arith F) (t : Task_upload F) : Task_upload F :=
  { t with
    prepared_actions := []
    task_attributes := []
    current_mission_poi := none
    current_mission_heading := none
    first_mission_poi_set := false
    restart_mission_poi := false
    current_heading := A.of_int 0
    current_speed := A.of_int (-1)
    heading_to_this_wp := A.of_int 0
    camera_series_by_dist_active := false
    camera_series_by_dist_active_in_wp := false
    camera_series_by_time_active := false
    camera_series_by_time_active_in_wp := false
    max_mission_speed := A.of_int 0 }

/-- Source `Filter_copter_actions`: every action is kept; the largest
requested speed is recorded. -/
def Filter_copter_actions (A : Arith F) : Task_upload F → List (Action F) →
    Task_upload F × List (Action F)
  | t, [] => (t, [])
  | t, action :: rest =>
    let t :=
      match action with
      | Action.CHANGE_SPEED speed =>
        if A.lt t.max_mission_speed speed then { t with max_mission_speed := speed } else t
      | _ => t
    ((Filter_copter_actions A t rest).1, action :: (Filter_copter_actions A t rest).2)

/-- The action types erased by `Filter_plane_actions` and
`Filter_rover_actions`. -/
def erased_for_plane_or_rover : Action F → Bool
  | Action.CAMERA_CONTROL _ _ _ => true
  | Action.CAMERA_TRIGGER _ _ => true
  | Action.PANORAMA => true
  | Action.POI _ _ => true
  | Action.HEADING _ => true
  | _ => false

/-- Source `Filter_plane_actions`. -/
def Filter_plane_actions (actions : List (Action F)) : List (Action F) :=
  actions.filter (fun action => !erased_for_plane_or_rover action)

/-- Source `Filter_rover_actions`. -/
def Filter_rover_actions (actions : List (Action F)) : List (Action F) :=
  actions.filter (fun action => !erased_for_plane_or_rover action)

/-- Source `Filter_actions`. -/
def Filter_actions (A : Arith F) (cfg : Compiler_config F) (t : Task_upload F) :
    Task_upload F :=
  match cfg.vehicle_type with
  | Vehicle_type.HELICOPTER | Vehicle_type.MULTICOPTER | Vehicle_type.VTOL =>
    { (Filter_copter_actions A t t.request.actions).1 with
      request := { t.request with actions := (Filter_copter_actions A t t.request.actions).2 } }
  | Vehicle_type.FIXED_WING =>
    { t with request := { t.request with actions := Filter_plane_actions t.request.actions } }
  | Vehicle_type.GROUND =>
    { t with request := { t.request with actions := Filter_rover_actions t.request.actions } }

/-- Source `Task_upload::Enable`, from the start to the clamp of the mission
speed: clean state, refusal of failsafe changes on a Yuneec vehicle (the
flag returned is false and the activity is disabled), altitude origin,
filtering pass and speed ceiling.  What follows in the source (native route
export, or the attribute pass and the start of the parameter upload) is
not part of this function. -/
def Enable_prepare (A : Arith F) (cfg : Compiler_config F) (t : Task_upload F)
    (request : Task_request F) : Task_upload F × Bool :=
  let t := Enable_clean_state A t
  if cfg.vendor = Px4_vendor.YUNEEC
      && (request.attributes.rc_loss != Emergency_action.DO_NOT_CHANGE
        || request.attributes.gnss_loss != Emergency_action.DO_NOT_CHANGE
        || request.attributes.low_battery != Emergency_action.DO_NOT_CHANGE) then
    (On_disable A t, false)
  else
    let request :=
      if !request.return_native_route then
        match cfg.home_altitude_amsl with
        | some hl => { request with takeoff_altitude := hl }
        | none => request
      else request
    let t := { t with request := request }
    let t := Filter_actions A cfg t
    let t :=
      if A.lt A.MAX_COPTER_SPEED t.max_mission_speed then
        { t with max_mission_speed := A.MAX_COPTER_SPEED }
      else t
    (t, true)

/-- One compilation: `Enable` up to the speed ceiling, then `Prepare_task`
when the request was not refused. -/
def compile (A : Arith F) (cfg : Compiler_config F) (t : Task_upload F)
    (request : Task_request F) : Task_upload F :=
  if (Enable_prepare A cfg t request).2 then
    Prepare_task A cfg (Enable_prepare A cfg t request).1
  else (Enable_prepare A cfg t request).1

end Task_upload

/-- The sequence numbers of a list of items: the item at index `i` carries
`i` reduced to the 16 bits of the `seq` field. -/
def Seq_ok {F : Type} (items : List (Mission_item F)) : Prop :=
  ∀ (i : Nat) (item : Mission_item F), items[i]? = some item → item.seq = i % 2 ^ 16

/-! ## Example arithmetic for the compiler

Exact arithmetic on fractions, without rounding, and a stand-in for the
geodesy of the SDK. -/

/-- Example carrier: NaN or a fraction in lowest terms. -/
inductive Xnum where
  | nan
  | val (num : Int) (den : Nat)
deriving DecidableEq, Repr

namespace Xnum

/-- The fraction `n / d` in lowest terms; NaN for a zero denominator. -/
def frac (n : Int) (d : Nat) : Xnum :=
  if d = 0 then Xnum.nan
  else Xnum.val (n / (Nat.gcd n.natAbs d : Nat)) (d / Nat.gcd n.natAbs d)

/-- NaN test. -/
def isnan : Xnum → Bool
  | Xnum.nan => true
  | Xnum.val _ _ => false

/-- Exact subtraction. -/
def sub : Xnum → Xnum → Xnum
  | Xnum.val a b, Xnum.val c d => frac (a * d - c * b) (b * d)
  | _, _ => Xnum.nan

/-- Exact multiplication. -/
def mul : Xnum → Xnum → Xnum
  | Xnum.val a b, Xnum.val c d => frac (a * c) (b * d)
  | _, _ => Xnum.nan

/-- Exact division; NaN for a zero divisor. -/
def div : Xnum → Xnum → Xnum
  | Xnum.val a b, Xnum.val c d =>
    if c = 0 then Xnum.nan
    else if 0 < c then frac (a * d) (b * c.natAbs)
    else frac (-(a * d)) (b * c.natAbs)
  | _, _ => Xnum.nan

/-- Unary minus. -/
def neg : Xnum → Xnum
  | Xnum.val a b => Xnum.val (-a) b
  | Xnum.nan => Xnum.nan

/-- Absolute value. -/
def fabs : Xnum → Xnum
  | Xnum.val a b => Xnum.val (Int.natAbs a) b
  | Xnum.nan => Xnum.nan

/-- Comparison; false when either side is NaN. -/
def lt : Xnum → Xnum → Bool
  | Xnum.val a b, Xnum.val c d => decide (a * d < c * b)
  | _, _ => false

/-- The value of the double M_PI. -/
def pi : Xnum := Xnum.val 884279719003555 281474976710656

/-- Reduction of an angle to the range from 0 to two M_PI. -/
def normalize : Xnum → Xnum
  | Xnum.val a b =>
    sub (Xnum.val a b)
      (mul (Xnum.val ((a * 140737488355328) / (b * 884279719003555)) 1)
        (Xnum.val 884279719003555 140737488355328))
  | Xnum.nan => Xnum.nan

/-- Stand-in for the bearing of the SDK: undefined for coincident points, a
quarter turn east or three quarter turns west along a parallel, zero north
or a half turn south otherwise. -/
def bearing (p q : Geodetic_tuple Xnum) : Xnum :=
  if p.latitude = q.latitude ∧ p.longitude = q.longitude then Xnum.nan
  else if p.latitude = q.latitude then
    if lt p.longitude q.longitude then Xnum.val 884279719003555 562949953421312
    else Xnum.val 2652839157010665 562949953421312
  else if lt p.latitude q.latitude then Xnum.val 0 1
  else pi

end Xnum

/-- Example mission item as created: numeric fields zero, float fields NaN. -/
def example_item : Mission_item Xnum :=
  { seq := 0, target_system := 0, target_component := 0, frame := 0, command := 0,
    current := 0, autocontinue := 0, param1 := Xnum.nan, param2 := Xnum.nan,
    param3 := Xnum.nan, param4 := Xnum.nan, x := Xnum.nan, y := Xnum.nan, z := Xnum.nan }

/-- Example arithmetic: exact fractions, speed change threshold 0.01. -/
def example_arith : Arith Xnum :=
  { isnan := Xnum.isnan
    lt := Xnum.lt
    sub := Xnum.sub
    mul := Xnum.mul
    div := Xnum.div
    neg := Xnum.neg
    fabs := Xnum.fabs
    of_int := fun n => Xnum.val n 1
    to_float := fun x => x
    of_ms := fun n => Xnum.frac n 1000
    nan := Xnum.nan
    pi := Xnum.pi
    Bearing := Xnum.bearing
    Normalize_angle_0_2pi := Xnum.normalize
    Create := example_item
    Fill_target_ids := fun _ => (1, 1)
    Is_copter := fun ty =>
      decide (ty = Vehicle_type.MULTICOPTER) || decide (ty = Vehicle_type.HELICOPTER)
    CHANGE_SPEED_TRESHOLD := Xnum.val 1 100
    ACCEPTANCE_RADIUS_MIN := Xnum.val 1 1
    MAX_COPTER_SPEED := Xnum.val 20 1
    camera_trigger_default_interval := Xnum.val 0 1 }

/-- Example configuration: a PX4 vehicle of the given class with
autoheading on and the given camera trigger type (0: camera discovered,
1: servo fallback). -/
def example_config (ty : Vehicle_type) (camera_trigger_type : Int) : Compiler_config Xnum :=
  { vehicle_type := ty
    vendor := Px4_vendor.PX4
    autoheading := true
    auto_generate_mission_poi := false
    set_poi_supported := true
    camera_trigger_type := camera_trigger_type
    camera_servo_idx := Xnum.val 8 1
    camera_servo_pwm := Xnum.val 1900 1
    camera_servo_time := Xnum.val 1 1
    real_system_id := 1
    camera_component_id := 100
    max_ground_speed := Xnum.val 10 1
    home_altitude_amsl := none }

/-- Example request with the given actions, no failsafe change, altitude
origin 0. -/
def example_request (actions : List (Action Xnum)) : Task_request Xnum :=
  { actions := actions
    attributes :=
      { rc_loss := Emergency_action.DO_NOT_CHANGE
        gnss_loss := Emergency_action.DO_NOT_CHANGE
        low_battery := Emergency_action.DO_NOT_CHANGE
        safe_altitude := Xnum.nan }
    takeoff_altitude := Xnum.val 0 1
    return_native_route := false }

/-- A task upload activity that has just been disabled. -/
def example_task_upload : Task_upload Xnum :=
  { request := example_request []
    prepared_actions := []
    task_attributes := []
    current_mission_poi := none
    current_mission_heading := none
    current_camera_mode := none
    first_mission_poi_set := false
    restart_mission_poi := false
    current_heading := Xnum.val 0 1
    current_speed := Xnum.val (-1) 1
    heading_to_this_wp := Xnum.val 0 1
    camera_series_by_dist_active := false
    camera_series_by_dist_active_in_wp := false
    camera_series_by_time_active := false
    camera_series_by_time_active_in_wp := false
    max_mission_speed := Xnum.val 0 1
    last_move_action := none
    takeoff_action := none }

/-- Example Move to a point on the equator at the given longitude (in
thousandths of a radian), altitude 50 m, with the given heading. -/
def example_move (lon_milli : Int) (heading : Xnum) : Move_action Xnum :=
  { position := ⟨Xnum.val 0 1, Xnum.frac lon_milli 1000, Xnum.val 50 1⟩
    wait_time := Xnum.val 0 1
    acceptance_radius := Xnum.val 2 1
    loiter_orbit := Xnum.val 0 1
    heading := heading }

/-! ## Filtering pass and task attributes -/

/-- The running maximum of the speeds of the ChangeSpeed actions of a list,
starting from 0, in the words of the specification. -/
def max_change_speed {F : Type} (A : Arith F) (actions : List (Action F)) : F :=
  actions.foldl
    (fun m action =>
      match action with
      | Action.CHANGE_SPEED speed => if A.lt m speed then speed else m
      | _ => m)
    (A.of_int 0)

/-- A speed clamped to the platform ceiling MAX_COPTER_SPEED. -/
def clamp_to_ceiling {F : Type} (A : Arith F) (speed : F) : F :=
  if A.lt A.MAX_COPTER_SPEED speed then A.MAX_COPTER_SPEED else speed

/-- MAVLink mode flag AUTO_ENABLED. -/
def MAV_MODE_FLAG_AUTO_ENABLED : Nat := 4
/-- MAVLink mode flag GUIDED_ENABLED. -/
def MAV_MODE_FLAG_GUIDED_ENABLED : Nat := 8
/-- MAVLink mode flag MANUAL_INPUT_ENABLED. -/
def MAV_MODE_FLAG_MANUAL_INPUT_ENABLED : Nat := 64

/-- PX4 main mode UNKNOWN (`Px4_main_mode`, declared in the header). -/
def Px4_main_mode_UNKNOWN : Nat := 0
/-- PX4 main mode MANUAL. -/
def Px4_main_mode_MANUAL : Nat := 1
/-- PX4 main mode ALTCTL. -/
def Px4_main_mode_ALTCTL : Nat := 2
/-- PX4 main mode ACRO. -/
def Px4_main_mode_ACRO : Nat := 5
/-- PX4 main mode OFFBOARD. -/
def Px4_main_mode_OFFBOARD : Nat := 6
/-- PX4 main mode STABILIZED. -/
def Px4_main_mode_STABILIZED : Nat := 7
/-- PX4 main mode RATTITUDE. -/
def Px4_main_mode_RATTITUDE : Nat := 8
/-- PX4 auto sub-mode UNKNOWN (`Px4_auto_sub_mode`, declared in the header). -/
def Px4_auto_sub_mode_UNKNOWN : Nat := 0
/-- PX4 auto sub-mode READY. -/
def Px4_auto_sub_mode_AUTO_READY : Nat := 1
/-- PX4 auto sub-mode RTGS. -/
def Px4_auto_sub_mode_AUTO_RTGS : Nat := 7
/-- PX4 auto sub-mode FOLLOW_TARGET. -/
def Px4_auto_sub_mode_AUTO_FOLLOW_TARGET : Nat := 8

/-- The byte `main_mode` of the union `Px4_custom_mode` (declared in the
header): bits 16 to 23 of the 32-bit custom mode. -/
def Px4_custom_mode.main_mode (data : Nat) : Nat :=
  (data / 2 ^ 16) % 256

/-- The byte `sub_mode` of the union `Px4_custom_mode`: bits 24 to 31. -/
def Px4_custom_mode.sub_mode (data : Nat) : Nat :=
  (data / 2 ^ 24) % 256

/-- Flight modes reported to the ground station that the decoder assigns
(`proto::FLIGHT_MODE_*`). -/
inductive Flight_mode where
  | HOLD
  | LAND
  | WAYPOINTS
  | RTH
  | TAKEOFF
deriving DecidableEq, Repr

/-- Modelled from the spec: the argument of `Set_enabled()` called without
an argument; the default is declared in the SDK, and the specification has
the commands so set become enabled. -/
def Set_enabled_default : Bool := true

/-- The enabled flags of the commands written by `Update_capability_states`
and the available flag of `c_direct_vehicle_control`. -/
structure Command_states where
  c_direct_vehicle_control : Bool
  c_direct_vehicle_control_available : Bool
  c_manual : Bool
  c_disarm : Bool
  c_waypoint : Bool
  c_emergency_land : Bool
  c_auto : Bool
  c_guided : Bool
  c_land_command : Bool
  c_pause : Bool
  c_resume : Bool
  c_joystick : Bool
  c_rth : Bool
  c_takeoff_command : Bool
  c_arm : Bool
deriving DecidableEq, Repr

/-- The vehicle together with what it reports to the ground station: the
members of `Px4_vehicle` read or written by `Process_heartbeat` and
`Update_capability_states`.  The inherited field `control_mode` is the
telemetry field `t_control_mode`, `base_mode` is what `Get_base_mode()`
returns and `is_armed` what `Is_armed()` returns; `native_flight_mode` is the
32-bit `native_flight_mode.data`; a telemetry field without a value is
`none`. -/
structure Reported_vehicle extends Vehicle where
  native_flight_mode : Nat
  t_native_flight_mode : Option (Option String)
  current_flight_mode : Option Flight_mode
  t_flight_mode : Option Flight_mode
  t_is_armed : Option Bool
  commands : Command_states
deriving DecidableEq, Repr

namespace Reported_vehicle

/-- Source `Get_native_flight_mode_name`; `none` is the null pointer. -/
def Get_native_flight_mode_name (mode : Nat) : Option String :=
  let main_mode := Px4_custom_mode.main_mode mode
  let sub_mode := Px4_custom_mode.sub_mode mode
  if main_mode = Px4_main_mode_ACRO then some "ACRO"
  else if main_mode = Px4_main_mode_ALTCTL then some "ALTCTL"
  else if main_mode = Px4_main_mode_AUTO then
    if sub_mode = Px4_auto_sub_mode_AUTO_FOLLOW_TARGET then some "AUTO_FOLLOW_TARGET"
    else if sub_mode = Px4_auto_sub_mode_AUTO_LAND then some "AUTO_LAND"
    else if sub_mode = Px4_auto_sub_mode_AUTO_LOITER then some "AUTO_LOITER"
    else if sub_mode = Px4_auto_sub_mode_AUTO_MISSION then some "AUTO_MISSION"
    else if sub_mode = Px4_auto_sub_mode_AUTO_READY then some "AUTO_READY"
    else if sub_mode = Px4_auto_sub_mode_AUTO_RTGS then some "AUTO_RTGS"
    else if sub_mode = Px4_auto_sub_mode_AUTO_RTL then some "AUTO_RTL"
    else if sub_mode = Px4_auto_sub_mode_AUTO_TAKEOFF then some "AUTO_TAKEOFF"
    else if sub_mode = Px4_auto_sub_mode_UNKNOWN then some "AUTO_UNKNOWN"
    else some "AUTO"
  else if main_mode = Px4_main_mode_MANUAL then some "MANUAL"
  else if main_mode = Px4_main_mode_OFFBOARD then some "OFFBOARD"
  else if main_mode = Px4_main_mode_POSCTL then some "POSCTL"
  else if main_mode = Px4_main_mode_RATTITUDE then some "RATTITUDE"
  else if main_mode = Px4_main_mode_STABILIZED then some "STABILIZED"
  else if main_mode = Px4_main_mode_UNKNOWN then some "UNKNOWN"
  else none

/-- The SDK predicate `Is_control_mode`. -/
def Is_control_mode (v : Reported_vehicle) (m : Control_mode) : Bool :=
  v.control_mode == some m

/-- The SDK predicate `Is_flight_mode`, on the reported flight mode. -/
def Is_flight_mode (v : Reported_vehicle) (m : Flight_mode) : Bool :=
  v.t_flight_mode == some m

/-- Source `Update_capability_states`.  The local `current_control_mode` is
read from `t_control_mode`; when that field has no value the local is not
initialised, and `indeterminate` stands for what it then compares as
(`none`: equal to no control mode). -/
def Update_capability_states (indeterminate : Option Control_mode) (v : Reported_vehicle) :
    Reported_vehicle :=
  let current_control_mode : Option Control_mode :=
    match v.control_mode with
    | some m => some m
    | none => indeterminate
  let c := v.commands
  let c := { c with
    c_direct_vehicle_control := v.Is_control_mode Control_mode.JOYSTICK
    c_direct_vehicle_control_available := v.Is_control_mode Control_mode.JOYSTICK
    c_manual := current_control_mode != some Control_mode.MANUAL
    c_disarm := v.is_armed && !v.is_airborne }
  let c :=
    if v.is_armed && v.is_airborne then
      { c with
        c_waypoint := Set_enabled_default
        c_emergency_land := Set_enabled_default
        c_auto := !v.Is_flight_mode Flight_mode.WAYPOINTS
        c_guided := current_control_mode != some Control_mode.CLICK_GO
        c_land_command := Set_enabled_default
        c_pause := !v.Is_control_mode Control_mode.MANUAL && !v.Is_flight_mode Flight_mode.HOLD
        c_resume := v.Is_flight_mode Flight_mode.HOLD
        c_joystick := !v.Is_control_mode Control_mode.JOYSTICK
        c_rth := Set_enabled_default
        c_takeoff_command := false
        c_arm := false }
    else
      { c with
        c_waypoint := v.is_armed
        c_emergency_land := false
        c_auto := v.is_armed
        c_guided := false
        c_land_command := false
        c_pause := false
        c_resume := false
        c_joystick := false
        c_rth := false
        c_takeoff_command := v.is_armed
        c_arm := !v.is_armed && current_control_mode != some Control_mode.AUTO }
  { v with commands := c }

/-- Source `Process_heartbeat`, the decoding of a changed custom mode. -/
def Decode_native_flight_mode (v : Reported_vehicle) (new_mode : Nat) : Reported_vehicle :=
  let v := { v with native_flight_mode := new_mode }
  let mode_name := Get_native_flight_mode_name new_mode
  let main_mode := Px4_custom_mode.main_mode new_mode
  let sub_mode := Px4_custom_mode.sub_mode new_mode
  let v :=
    if main_mode = Px4_main_mode_AUTO then
      let v := { v with control_mode := some Control_mode.AUTO }
      if sub_mode = Px4_auto_sub_mode_AUTO_LOITER then
        { v with
          control_mode := some Control_mode.CLICK_GO
          current_flight_mode := some Flight_mode.HOLD }
      else if sub_mode = Px4_auto_sub_mode_AUTO_LAND then
        { v with current_flight_mode := some Flight_mode.LAND }
      else if sub_mode = Px4_auto_sub_mode_AUTO_MISSION then
        { v with current_flight_mode := some Flight_mode.WAYPOINTS }
      else if sub_mode = Px4_auto_sub_mode_AUTO_RTL then
        { v with current_flight_mode := some Flight_mode.RTH }
      else if sub_mode = Px4_auto_sub_mode_AUTO_TAKEOFF then
        { v with current_flight_mode := some Flight_mode.TAKEOFF }
      else { v with current_flight_mode := none }
    else
      { v with current_flight_mode := none, control_mode := some Control_mode.MANUAL }
  { v with t_native_flight_mode := some mode_name }

/-- The test `base_mode & flag` of `Process_heartbeat`. -/
def has_mode_flag (v : Reported_vehicle) (flag : Nat) : Bool :=
  (v.base_mode &&& flag) != 0

/-- Source `Process_heartbeat`.  `valid` is the outcome of the SDK test
`Is_vehicle_heartbeat_valid` on the message, `custom_mode` the field
`custom_mode` of its payload. -/
def Process_heartbeat (indeterminate : Option Control_mode) (v : Reported_vehicle)
    (valid : Bool) (custom_mode : Nat) : Reported_vehicle :=
  if !valid then v
  else
    let v :=
      if v.has_mode_flag MAV_MODE_FLAG_CUSTOM_MODE_ENABLED then
        let new_mode := custom_mode % 2 ^ 32
        if v.native_flight_mode != new_mode then Decode_native_flight_mode v new_mode else v
      else if v.has_mode_flag MAV_MODE_FLAG_AUTO_ENABLED then
        if v.is_armed then { v with control_mode := some Control_mode.AUTO }
        else { v with control_mode := some Control_mode.MANUAL }
      else if v.has_mode_flag MAV_MODE_FLAG_MANUAL_INPUT_ENABLED then
        { v with control_mode := some Control_mode.AUTO }
      else if v.has_mode_flag MAV_MODE_FLAG_GUIDED_ENABLED then
        { v with control_mode := some Control_mode.CLICK_GO }
      else { v with control_mode := none }
    let v :=
      if v.Is_control_mode Control_mode.MANUAL && v.direct_vehicle_control.isSome then
        { v with control_mode := some Control_mode.JOYSTICK }
      else v
    let v := { v with t_is_armed := some v.is_armed }
    let v := { v with t_flight_mode := v.current_flight_mode }
    Update_capability_states indeterminate v

/-- Source `On_extended_sys_state`; `in_air` is the test
`landed_state == MAV_LANDED_STATE_IN_AIR` on the message. -/
def On_extended_sys_state (indeterminate : Option Control_mode) (v : Reported_vehicle)
    (in_air : Bool) : Reported_vehicle :=
  Update_capability_states indeterminate { v with is_airborne := in_air }

/-- The pair reported to the ground station: control mode and flight mode. -/
def reported_modes (v : Reported_vehicle) : Option Control_mode × Option Flight_mode :=
  (v.control_mode, v.t_flight_mode)

end Reported_vehicle

/-- The decoding of a custom mode in the words of the specification: AUTO
main mode maps the sub-modes loiter, land, mission, return-to-launch and
takeoff to a flight mode, loiter with control mode CLICK_GO; any other main
mode is MANUAL, reported as JOYSTICK while direct control is engaged. -/
def decode_custom_mode (main_mode sub_mode : Nat) (direct_control : Bool) :
    Option Control_mode × Option Flight_mode :=
  if main_mode = Px4_main_mode_AUTO then
    if sub_mode = Px4_auto_sub_mode_AUTO_LOITER then
      (some Control_mode.CLICK_GO, some Flight_mode.HOLD)
    else if sub_mode = Px4_auto_sub_mode_AUTO_LAND then
      (some Control_mode.AUTO, some Flight_mode.LAND)
    else if sub_mode = Px4_auto_sub_mode_AUTO_MISSION then
      (some Control_mode.AUTO, some Flight_mode.WAYPOINTS)
    else if sub_mode = Px4_auto_sub_mode_AUTO_RTL then
      (some Control_mode.AUTO, some Flight_mode.RTH)
    else if sub_mode = Px4_auto_sub_mode_AUTO_TAKEOFF then
      (some Control_mode.AUTO, some Flight_mode.TAKEOFF)
    else (some Control_mode.AUTO, none)
  else if direct_control then (some Control_mode.JOYSTICK, none)
  else (some Control_mode.MANUAL, none)

/-- Command flags all off. -/
def example_commands : Command_states :=
  ⟨false, false, false, false, false, false, false, false, false, false, false, false,
    false, false, false⟩

/-- A vehicle on the ground with the given mode bits, armed flag and
direct control channel, holding the given native flight mode, control mode
and flight mode from earlier heartbeats. -/
def example_reported (base_mode : Nat) (armed : Bool)
    (direct_vehicle_control : Option Manual_control) (native_flight_mode : Nat)
    (control_mode : Option Control_mode) (flight_mode : Option Flight_mode) :
    Reported_vehicle :=
  { toVehicle :=
      { example_vehicle armed control_mode example_home with
        base_mode := base_mode
        direct_vehicle_control := direct_vehicle_control }
    native_flight_mode := native_flight_mode
    t_native_flight_mode := none
    current_flight_mode := flight_mode
    t_flight_mode := flight_mode
    t_is_armed := none
    commands := example_commands }

/-- The custom mode with the given main mode and sub-mode bytes. -/
def example_custom_mode (main_mode sub_mode : Nat) : Nat :=
  main_mode * 2 ^ 16 + sub_mode * 2 ^ 24

/-- The camera mode a camera trigger state needs: image for photos, video
for recording. -/
def required_camera_mode : Camera_trigger_state → Nat
  | Camera_trigger_state.SINGLE_PHOTO => CAMERA_MODE_IMAGE
  | Camera_trigger_state.SERIAL_PHOTO => CAMERA_MODE_IMAGE
  | Camera_trigger_state.OFF => CAMERA_MODE_VIDEO
  | Camera_trigger_state.ON => CAMERA_MODE_VIDEO

/-- The command of the capture item of a camera trigger state. -/
def capture_command : Camera_trigger_state → Nat
  | Camera_trigger_state.SINGLE_PHOTO => MAV_CMD_IMAGE_START_CAPTURE
  | Camera_trigger_state.SERIAL_PHOTO => MAV_CMD_IMAGE_START_CAPTURE
  | Camera_trigger_state.OFF => MAV_CMD_VIDEO_STOP_CAPTURE
  | Camera_trigger_state.ON => MAV_CMD_VIDEO_START_CAPTURE

/-- The commands of the items that set the camera mode: none when the mode
is the current one, else the mode item, followed by the waypoint of the
three second wait when a Move precedes. -/
def camera_mode_commands {F : Type} (t : Task_upload F) (mode : Nat) : List Nat :=
  if t.current_camera_mode = some mode then []
  else if t.last_move_action.isSome then [MAV_CMD_SET_CAMERA_MODE, MAV_CMD_NAV_WAYPOINT]
  else [MAV_CMD_SET_CAMERA_MODE]

/-- An all-on table of command flags. -/
def example_commands_on : Command_states :=
  ⟨true, true, true, true, true, true, true, true, true, true, true, true, true, true, true⟩

/-- A disarmed vehicle with the custom mode flag set in its base mode and a
direct control channel engaged, before its first heartbeat. -/
def example_joystick_start : Reported_vehicle :=
  example_reported MAV_MODE_FLAG_CUSTOM_MODE_ENABLED false (some ⟨0, 0, 0, 0⟩) 0 none none

/-- The vehicle `example_joystick_start` after a heartbeat in the main mode
POSCTL and after direct control was stopped. -/
def example_joystick_stopped : Reported_vehicle :=
  { Reported_vehicle.Process_heartbeat none example_joystick_start true
      (example_custom_mode Px4_main_mode_POSCTL 0) with
    toVehicle :=
      (Reported_vehicle.Process_heartbeat none example_joystick_start true
        (example_custom_mode Px4_main_mode_POSCTL 0)).toVehicle.Stop_direct_vehicle_control }

/-- Source `Px4_vehicle::Direct_vehicle_control_timer`.  `period` is the
constant MANUAL_CONTROL_PERIOD of the header, in clock ticks.  The second
component is the value returned: false stops the timer. -/
def Vehicle.Direct_vehicle_control_timer (E : Command_arith) (period : Int) (v : Vehicle) :
    Vehicle × Bool :=
  match v.direct_vehicle_control with
  | none => (v, false)
  | some _ =>
    if v.steady_clock - v.direct_vehicle_control_last_received > E.MANUAL_CONTROL_TIMEOUT then
      (v.Stop_direct_vehicle_control, false)
    else if v.steady_clock - v.direct_vehicle_control_last_sent < period then (v, true)
    else (v.Send_direct_vehicle_control, true)

/-- A vehicle with direct control engaged, stick values 100, 200, 300, 400,
last input received at tick 1000 and last message sent at tick 4000, seen at
the given reading of the clock. -/
def example_joystick_vehicle (steady_clock : Int) : Vehicle :=
  { example_vehicle true (some Control_mode.JOYSTICK) example_home with
    direct_vehicle_control := some ⟨100, 200, 300, 400⟩
    direct_vehicle_control_timer := true
    direct_vehicle_control_last_received := 1000
    direct_vehicle_control_last_sent := 4000
    steady_clock := steady_clock }

/-- The part of `Px4_vehicle` that `On_home_position` reads and writes: the
stored home location, the three home telemetry values, the secondary id of
the command map, the route id with its telemetry value, and the altitude
origin.  A telemetry value or origin never set is `none`. -/
structure Home_state (F : Type) where
  home_location : Geodetic_tuple F
  t_home_latitude : Option F
  t_home_longitude : Option F
  t_home_altitude_amsl : Option F
  secondary_id : Option F
  current_route_id : Nat
  t_current_mission_id : Option Nat
  altitude_origin : Option F
deriving DecidableEq, Repr

namespace Home_state

variable {F : Type}

/-- The comparison `x != 0` on a floating-point value. -/
def nonzero (A : Arith F) (x : F) : Bool :=
  A.isnan x || A.lt x (A.of_int 0) || A.lt (A.of_int 0) x

/-- Source `Is_home_position_valid`. -/
def Is_home_position_valid (A : Arith F) (s : Home_state F) : Bool :=
  nonzero A s.home_location.latitude || nonzero A s.home_location.longitude

/-- Source `Calculate_current_route_id`.  `Get_route_id` is the route id the
command map computes from its secondary id (the item hashes it has
accumulated are not touched here). -/
def Calculate_current_route_id (A : Arith F) (Get_route_id : Option F → Nat)
    (s : Home_state F) : Home_state F :=
  let s :=
    match s.t_home_altitude_amsl with
    | some hl => { s with secondary_id := some (A.mul (A.to_float hl) (A.of_int 10)) }
    | none => s
  { s with
    current_route_id := Get_route_id s.secondary_id
    t_current_mission_id := some (Get_route_id s.secondary_id) }

/-- Source `On_home_position` on a HOME_POSITION message with the given
integer fields.  The literals 0.00001 and 0.01 are the quotients 1 / 100000
and 1 / 100. -/
def On_home_position (A : Arith F) (Get_route_id : Option F → Nat) (s : Home_state F)
    (latitude longitude altitude : Int) : Home_state F :=
  let lat := A.div (A.mul (A.div (A.of_int latitude) (A.of_int 10000000)) A.pi) (A.of_int 180)
  let lon := A.div (A.mul (A.div (A.of_int longitude) (A.of_int 10000000)) A.pi) (A.of_int 180)
  let alt := A.div (A.of_int altitude) (A.of_int 1000)
  if A.lt (A.div (A.of_int 1) (A.of_int 100000)) (A.fabs (A.sub s.home_location.latitude lat))
      || A.lt (A.div (A.of_int 1) (A.of_int 100000))
        (A.fabs (A.sub s.home_location.longitude lon))
      || A.lt (A.div (A.of_int 1) (A.of_int 100)) (A.fabs (A.sub s.home_location.altitude alt))
  then
    let s := { s with home_location := ⟨lat, lon, alt⟩ }
    if Is_home_position_valid A s then
      let s :=
        { s with
          t_home_latitude := some lat
          t_home_longitude := some lon
          t_home_altitude_amsl := some alt }
      let s := Calculate_current_route_id A Get_route_id s
      { s with altitude_origin := some s.home_location.altitude }
    else s
  else s

end Home_state

/-- Example: a vehicle that has not received a home position yet. -/
def example_home_state : Home_state Xnum :=
  { home_location := ⟨Xnum.val 0 1, Xnum.val 0 1, Xnum.val 0 1⟩
    t_home_latitude := none
    t_home_longitude := none
    t_home_altitude_amsl := none
    secondary_id := none
    current_route_id := 0
    t_current_mission_id := none
    altitude_origin := none }

/-- Example route id: 0 without secondary id, 1 with one. -/
def example_route_id (secondary_id : Option Xnum) : Nat :=
  if secondary_id.isSome then 1 else 0

/-- Example: the state after the first HOME_POSITION report of latitude 47
degrees, longitude 8 degrees and altitude 500 m. -/
def example_home_reported : Home_state Xnum :=
  Home_state.On_home_position example_arith example_route_id example_home_state
    470000000 80000000 500000

/-- Finite float: the exponent is not all ones (neither infinite nor NaN). -/
def F32.isFinite (x : F32) : Bool :=
  (x.bits / 2 ^ 23) % 256 != 255

/-- The C++ `operator<=` on two floats: false when either side is NaN. -/
def F32.le (x y : F32) : Bool :=
  !x.isNaN && !y.isNaN && decide (x.key ≤ y.key)

/-- The properties of IEEE-754 binary32 arithmetic (round to nearest) that
the clamp of the payload pitch and the wrap of the payload yaw depend on:
the coefficient is a finite constant, a product of finite operands and a sum
of a finite operand and a number are numbers, sum and difference of finite
operands are monotone, and the sums and differences of 180, 360 and 540
that the wrap meets are exact. -/
structure Command_arith.Ieee_order (E : Command_arith) : Prop where
  coef_finite : E.DIRECT_PAYLOAD_CONTROLLING_COEF.isFinite = true
  mul_finite : ∀ a b : F32, a.isFinite = true → b.isFinite = true → (E.mul a b).isNaN = false
  add_finite : ∀ a b : F32, a.isFinite = true → b.isNaN = false → (E.add a b).isNaN = false
  add_le : ∀ a b c d : F32, a.isFinite = true → b.isFinite = true → c.isFinite = true →
    d.isFinite = true → a.le c = true → b.le d = true → (E.add a b).le (E.add c d) = true
  sub_le : ∀ a c b : F32, a.isFinite = true → c.isFinite = true → b.isFinite = true →
    a.le c = true → (E.sub a b).le (E.sub c b) = true
  add_m180_m360 : E.add (F32.of_nat 180).neg (F32.of_nat 360).neg = (F32.of_nat 540).neg
  add_180_360 : E.add (F32.of_nat 180) (F32.of_nat 360) = F32.of_nat 540
  sub_180_360 : E.sub (F32.of_nat 180) (F32.of_nat 360) = (F32.of_nat 180).neg
  sub_540_360 : E.sub (F32.of_nat 540) (F32.of_nat 360) = F32.of_nat 180
  add_m540_360 : E.add (F32.of_nat 540).neg (F32.of_nat 360) = (F32.of_nat 180).neg
  add_m180_360 : E.add (F32.of_nat 180).neg (F32.of_nat 360) = F32.of_nat 180

/-- Example arithmetic, first part: the position of a number on the grid of
the multiples of 180 from -540 to 540, rounding down (the thresholds are the
order keys of -360, -180, 0, 180, 360 and 540). -/
def example_grid_index (x : F32) : Int :=
  if x.key < -1135869952 then -3
  else if x.key < -1127481344 then -2
  else if x.key < 0 then -1
  else if x.key < 1127481344 then 0
  else if x.key < 1135869952 then 1
  else if x.key < 1141309440 then 2
  else 3

/-- Example arithmetic, second part: the multiple of 180 at a grid position,
saturating at -540 and 540. -/
def example_grid_value (j : Int) : F32 :=
  if j ≤ -3 then (F32.of_nat 540).neg
  else if j = -2 then (F32.of_nat 360).neg
  else if j = -1 then (F32.of_nat 180).neg
  else if j = 0 then F32.of_nat 0
  else if j = 1 then F32.of_nat 180
  else if j = 2 then F32.of_nat 360
  else F32.of_nat 540

/-- Example arithmetic for the payload angles: sums and differences are
taken on the grid of the multiples of 180 (NaN operands give NaN), and the
coefficient is 1, by which `mul` multiplies exactly. -/
def example_grid_arith : Command_arith :=
  { example_command_arith with
    add := fun x y =>
      if x.isNaN || y.isNaN then ⟨2143289344⟩
      else example_grid_value (example_grid_index x + example_grid_index y)
    sub := fun x y =>
      if x.isNaN || y.isNaN then ⟨2143289344⟩
      else example_grid_value (example_grid_index x - example_grid_index y) }

/-- Example: a vehicle on the ground whose payload points straight ahead, at
pitch 0 and yaw 180. -/
def example_payload_vehicle : Vehicle :=
  { example_vehicle true none example_home with
    payload_pitch := F32.of_nat 0
    payload_yaw := F32.of_nat 180 }

/-- The state with the action list of its request replaced. -/
def Task_upload.set_actions {F : Type} (t : Task_upload F) (actions : List (Action F)) :
    Task_upload F :=
  { t with request := { t.request with actions := actions } }

/-- Two compiler states agree except for the back-references to the last
Move and to the Takeoff. -/
def Same_but_refs {F : Type} (x y : Task_upload F) : Prop :=
  { x with last_move_action := none, takeoff_action := none }
    = { y with last_move_action := none, takeoff_action := none }

/-- What the translation of commands may do to the dispatcher short of
disabling it: append to the queue and install the status text handler. -/
def Loop_frame (a b : Vehicle_command_act) : Prop :=
  b = { a with cmd_messages := b.cmd_messages, statustext_handler := b.statustext_handler }
  ∧ (∃ l, b.cmd_messages = a.cmd_messages ++ l)
  ∧ (a.statustext_handler = true → b.statustext_handler = true)

theorem step_of_ended (n : Mavlink_names) (a : Vehicle_command_act) (e : Event)
    (h : Ended a) : step n a e = a := by
  obtain ⟨h1, h2, h3⟩ := h
  cases e <;> simp [step, h1, h2, h3]

theorem run_of_ended (n : Mavlink_names) (a : Vehicle_command_act) (es : List Event)
    (h : Ended a) : run n a es = a := by
  induction es with
  | nil => rfl
  | cons e es ih =>
    show run n (step n a e) es = a
    rw [step_of_ended n a e h]
    exact ih

theorem run_cons (n : Mavlink_names) (a : Vehicle_command_act) (e : Event) (es : List Event) :
    run n a (e :: es) = run n (step n a e) es := rfl

theorem run_append (n : Mavlink_names) (a : Vehicle_command_act) (es fs : List Event) :
    run n a (es ++ fs) = run n (run n a es) fs := by
  simp [run, List.foldl_append]

theorem ended_Disable (a : Vehicle_command_act) (reason : String) : Ended (Disable a reason) := by
  simp [Ended, Disable, Disable_activity, On_disable, Unregister_status_text]

theorem ended_Disable_success (a : Vehicle_command_act) : Ended (Disable_success a) := by
  simp [Ended, Disable_success, Disable_activity, On_disable, Unregister_status_text]

/-- A matching accept acknowledgment for the head of the queue makes the
dispatcher move on to the next command. -/
theorem step_matching_accept (n : Mavlink_names) (a : Vehicle_command_act)
    (m : Payload) (rest : List Payload) (e : Event)
    (hreg : a.handlers_registered = true) (hq : a.cmd_messages = m :: rest)
    (he : matching_accept m e = true) : step n a e = Send_next_command a := by
  cases m <;> cases e <;>
    simp_all [matching_accept, step, On_command_ack, On_mission_ack, On_mission_current,
      On_param_value, Payload.Get_id, Payload.command]

/-- What `Enable` leaves behind for a non-empty queue and at least one try. -/
theorem Enable_cons (a : Vehicle_command_act) (m : Payload) (rest : List Payload) (st : Bool)
    (htry : 1 ≤ a.try_count) :
    Enable a (m :: rest) st =
      { a with
        handlers_registered := true
        remaining_attempts := a.try_count - 1
        current_timeout := a.retry_timeout
        cmd_messages := m :: rest
        command_count := rest.length + 1
        statustext_handler := a.statustext_handler || st
        timer := some a.retry_timeout
        timers_created := a.timers_created + 1
        sent := a.sent ++ [m] } := by
  have h : a.try_count ≠ 0 := by omega
  simp [Enable, Enable_begin, Enable_end, Try, Schedule_timer, Send_message, h]

/-- Accepting the head when more commands follow: the next one is sent. -/
theorem Send_next_command_cons (a : Vehicle_command_act) (m m2 : Payload)
    (rest : List Payload) (hq : a.cmd_messages = m :: m2 :: rest) :
    Send_next_command a =
      { a with
        cmd_messages := m2 :: rest
        remaining_attempts := a.try_count
        timer := some a.current_timeout
        timers_created := a.timers_created + 1
        sent := a.sent ++ [m2] } := by
  simp [Send_next_command, Schedule_timer, Send_message, hq]

/-- Accepting the last command ends the conversation. -/
theorem Send_next_command_last (a : Vehicle_command_act) (m : Payload)
    (hq : a.cmd_messages = [m]) :
    Send_next_command a = Disable_success { a with cmd_messages := [] } := by
  simp [Send_next_command, hq]

/-- Core of the all-accepted run, from any in-flight state. -/
theorem run_all_accepted (n : Mavlink_names) :
    ∀ (rest : List Payload) (m : Payload) (a : Vehicle_command_act) (es : List Event),
      a.handlers_registered = true → a.status = Status.active →
      a.cmd_messages = m :: rest →
      List.Forall₂ (fun p e => matching_accept p e = true) (m :: rest) es →
      (∀ k, k < rest.length + 1 →
          (run n a (es.take k)).sent = a.sent ++ rest.take k
          ∧ (run n a (es.take k)).status = Status.active
          ∧ (run n a (es.take k)).cmd_messages = (m :: rest).drop k)
      ∧ (run n a es).sent = a.sent ++ rest
      ∧ (run n a es).cmd_messages = []
      ∧ (run n a es).status = Status.succeeded := by
  intro rest
  induction rest with
  | nil =>
    intro m a es hreg hact hq hes
    cases hes with
    | cons he htl =>
      cases htl
      refine ⟨?_, ?_⟩
      · intro k hk
        have hk0 : k = 0 := by simpa using hk
        subst hk0
        simp [run, hact, hq]
      · rw [run_cons, step_matching_accept n a m [] _ hreg hq he, Send_next_command_last a m hq,
          run_of_ended n _ _ (ended_Disable_success _)]
        simp [Disable_success, Disable_activity, On_disable, Unregister_status_text, hact]
  | cons m2 rest ih =>
    intro m a es hreg hact hq hes
    cases hes with
    | cons he htl =>
      rename_i e es2
      have hstep : step n a e = Send_next_command a :=
        step_matching_accept n a m (m2 :: rest) e hreg hq he
      have hs := Send_next_command_cons a m m2 rest hq
      have h := ih m2 (Send_next_command a) es2 (by simp [hs, hreg]) (by simp [hs, hact])
        (by simp [hs]) htl
      obtain ⟨hpre, hsent, hqueue, hstat⟩ := h
      refine ⟨?_, ?_, ?_, ?_⟩
      · intro k hk
        cases k with
        | zero => simp [run, hact, hq]
        | succ k =>
          have hk2 : k < rest.length + 1 := by simpa using hk
          have h3 := hpre k hk2
          simp only [List.take_succ_cons, run_cons, hstep, List.drop_succ_cons]
          refine ⟨?_, h3.2.1, h3.2.2⟩
          rw [h3.1, hs]
          simp
      · rw [run_cons, hstep, hsent, hs]
        simp
      · rw [run_cons, hstep, hqueue]
      · rw [run_cons, hstep, hstat]

theorem replicate_snoc {α : Type} (k : Nat) (x : α) :
    List.replicate (k + 1) x = List.replicate k x ++ [x] := by
  induction k with
  | zero => rfl
  | succ k ih =>
    calc List.replicate (k + 1 + 1) x
        = x :: List.replicate (k + 1) x := rfl
      _ = x :: (List.replicate k x ++ [x]) := by rw [ih]
      _ = List.replicate (k + 1) x ++ [x] := rfl

/-- A timer fire with attempts remaining resends the head and re-arms. -/
theorem step_timer_resend (n : Mavlink_names) (a : Vehicle_command_act) (m : Payload)
    (rest : List Payload) (ht : a.timer.isSome = true) (hr : a.remaining_attempts ≠ 0)
    (hq : a.cmd_messages = m :: rest) :
    step n a Event.TIMER =
      { a with
        remaining_attempts := a.remaining_attempts - 1
        timer := some a.current_timeout
        timers_created := a.timers_created + 1
        sent := a.sent ++ [m] } := by
  simp [step, ht, Try, hr, hq, Schedule_timer, Send_message]

/-- A timer fire with no attempt left disables the conversation. -/
theorem step_timer_exhausted (n : Mavlink_names) (a : Vehicle_command_act)
    (ht : a.timer.isSome = true) (hr : a.remaining_attempts = 0) :
    step n a Event.TIMER =
      Disable { a with remaining_attempts := 2 ^ 64 - 1 }
        "Vehicle_command all attempts failed." := by
  simp [step, ht, Try, hr]

/-- Timer fires while attempts remain: each one resends the same head. -/
theorem run_timers (n : Mavlink_names) (m : Payload) (rest : List Payload) :
    ∀ (k : Nat) (a : Vehicle_command_act),
      a.timer.isSome = true → a.cmd_messages = m :: rest → k ≤ a.remaining_attempts →
      (run n a (List.replicate k Event.TIMER)).sent = a.sent ++ List.replicate k m
      ∧ (run n a (List.replicate k Event.TIMER)).remaining_attempts = a.remaining_attempts - k
      ∧ (run n a (List.replicate k Event.TIMER)).status = a.status
      ∧ (run n a (List.replicate k Event.TIMER)).timer.isSome = true
      ∧ (run n a (List.replicate k Event.TIMER)).cmd_messages = m :: rest := by
  intro k
  induction k with
  | zero =>
    intro a ht hq _
    simp [run, ht, hq]
  | succ k ih =>
    intro a ht hq hk
    have hr : a.remaining_attempts ≠ 0 := by omega
    have hs := step_timer_resend n a m rest ht hr hq
    have h := ih (step n a Event.TIMER) (by simp [hs]) (by simp [hs, hq])
      (by simp [hs]; omega)
    rw [List.replicate_succ, run_cons]
    obtain ⟨h1, h2, h3, h4, h5⟩ := h
    refine ⟨?_, ?_, ?_, h4, h5⟩
    · rw [h1, hs]
      simp [List.replicate_succ]
    · rw [h2, hs]
      simp
      omega
    · rw [h3, hs]

/-- Timer fires until the attempts are used up, then one more: the head has
been sent once per remaining attempt and the conversation has failed. -/
theorem run_timers_exhausted (n : Mavlink_names) (m : Payload) (rest : List Payload)
    (a : Vehicle_command_act) (es : List Event)
    (ht : a.timer.isSome = true) (hq : a.cmd_messages = m :: rest)
    (hact : a.status = Status.active) :
    (run n a (List.replicate (a.remaining_attempts + 1) Event.TIMER ++ es)).sent
        = a.sent ++ List.replicate a.remaining_attempts m
    ∧ (run n a (List.replicate (a.remaining_attempts + 1) Event.TIMER ++ es)).status
        = Status.failed "Vehicle_command all attempts failed."
    ∧ (run n a (List.replicate (a.remaining_attempts + 1) Event.TIMER ++ es)).timer = none
    ∧ (run n a (List.replicate (a.remaining_attempts + 1) Event.TIMER ++ es)).cmd_messages
        = m :: rest := by
  obtain ⟨h1, h2, h3, h4, h5⟩ := run_timers n m rest a.remaining_attempts a ht hq (le_refl _)
  have hx := step_timer_exhausted n (run n a (List.replicate a.remaining_attempts Event.TIMER))
    h4 (by rw [h2]; simp)
  have hrun : run n a (List.replicate (a.remaining_attempts + 1) Event.TIMER ++ es)
      = step n (run n a (List.replicate a.remaining_attempts Event.TIMER)) Event.TIMER := by
    rw [replicate_snoc, List.append_assoc, run_append,
      List.singleton_append, run_cons, hx, run_of_ended n _ _ (ended_Disable _ _)]
  rw [hrun, hx]
  simp [Disable, Disable_activity, On_disable, Unregister_status_text, h1, h3, hact, h5]

/-- Behaviour of the code for a later head: after the first message is
accepted, the new head is sent when it becomes head and once more on each
of the next `try_count` timer fires; only the fire after those fails. -/
theorem later_head_sends (n : Mavlink_names) (a : Vehicle_command_act)
    (m m2 : Payload) (rest : List Payload) (st : Bool) (e : Event) (es : List Event)
    (htry : 1 ≤ a.try_count) (hact : a.status = Status.active)
    (he : matching_accept m e = true) :
    ((run n (Enable a (m :: m2 :: rest) st)
        (e :: List.replicate a.try_count Event.TIMER)).sent
      = a.sent ++ [m] ++ List.replicate (a.try_count + 1) m2
    ∧ (run n (Enable a (m :: m2 :: rest) st)
        (e :: List.replicate a.try_count Event.TIMER)).status = Status.active)
    ∧ (run n (Enable a (m :: m2 :: rest) st)
        (e :: (List.replicate (a.try_count + 1) Event.TIMER ++ es))).sent
      = a.sent ++ [m] ++ List.replicate (a.try_count + 1) m2
    ∧ (run n (Enable a (m :: m2 :: rest) st)
        (e :: (List.replicate (a.try_count + 1) Event.TIMER ++ es))).status
      = Status.failed "Vehicle_command all attempts failed." := by
  have hE := Enable_cons a m (m2 :: rest) st htry
  have hstep : step n (Enable a (m :: m2 :: rest) st) e
      = Send_next_command (Enable a (m :: m2 :: rest) st) :=
    step_matching_accept n _ m (m2 :: rest) e (by simp [hE]) (by simp [hE]) he
  have hs := Send_next_command_cons (Enable a (m :: m2 :: rest) st) m m2 rest (by simp [hE])
  have hrem : (Send_next_command (Enable a (m :: m2 :: rest) st)).remaining_attempts
      = a.try_count := by rw [hs]; simp [hE]
  have hsent : (Send_next_command (Enable a (m :: m2 :: rest) st)).sent
      = a.sent ++ [m] ++ [m2] := by rw [hs]; simp [hE]
  have hst : (Send_next_command (Enable a (m :: m2 :: rest) st)).status = Status.active := by
    rw [hs]; simp [hE, hact]
  have h1 := run_timers n m2 rest a.try_count (Send_next_command (Enable a (m :: m2 :: rest) st))
    (by rw [hs]; rfl) (by rw [hs]) (by rw [hrem])
  have h2 := run_timers_exhausted n m2 rest (Send_next_command (Enable a (m :: m2 :: rest) st))
    es (by rw [hs]; rfl) (by rw [hs]) hst
  rw [hrem] at h2
  refine ⟨⟨?_, ?_⟩, ?_, ?_⟩
  · rw [run_cons, hstep, h1.1, hsent, List.replicate_succ]
    simp
  · rw [run_cons, hstep, h1.2.2.1, hst]
  · rw [run_cons, hstep, h2.1, hsent, List.replicate_succ]
    simp
  · rw [run_cons, hstep, h2.2.1]

/-- No handler but `On_status_text` writes `current_timeout`, and none
writes `extended_retry_timeout`: once the timeout has reached the extended
value it stays there for the rest of the conversation. -/
theorem step_keeps_extended (n : Mavlink_names) (a : Vehicle_command_act) (e : Event)
    (h : a.extended_retry_timeout ≤ a.current_timeout) :
    (step n a e).extended_retry_timeout ≤ (step n a e).current_timeout := by
  have hnot : ¬ a.current_timeout < a.extended_retry_timeout := not_lt.mpr h
  cases e <;>
    simp only [step, On_command_ack, On_mission_ack, On_mission_current, On_param_value,
      On_status_text, Try, Send_next_command, Disable, Disable_success, Disable_activity,
      On_disable, Unregister_status_text, Schedule_timer, Send_message] <;>
    (repeat' split) <;> simp_all

theorem run_keeps_extended (n : Mavlink_names) (es : List Event) :
    ∀ a : Vehicle_command_act, a.extended_retry_timeout ≤ a.current_timeout →
      (run n a es).extended_retry_timeout ≤ (run n a es).current_timeout := by
  induction es with
  | nil => intro a h; exact h
  | cons e es ih =>
    intro a h
    rw [run_cons]
    exact ih _ (step_keeps_extended n a e h)

theorem shape_refl (s : Vehicle_command_act) : Step_shape s s :=
  Or.inl ⟨rfl, rfl⟩

theorem shape_Disable (s : Vehicle_command_act) (reason : String) :
    Step_shape s (Disable s reason) :=
  Or.inl ⟨rfl, rfl⟩

theorem shape_Send_next_command (s : Vehicle_command_act) :
    Step_shape s (Send_next_command s) := by
  rcases hq : s.cmd_messages with _ | ⟨m, _ | ⟨m2, rest⟩⟩
  · left
    simp [Send_next_command, hq, Disable_success, Disable_activity, On_disable,
      Unregister_status_text]
  · right; right; right
    refine ⟨m, hq, ?_, ?_, ?_⟩
    · simp [Send_next_command, hq, Disable_success, Disable_activity, On_disable,
        Unregister_status_text]
    · simp [Send_next_command, hq, Disable_success, Disable_activity, On_disable,
        Unregister_status_text]
    · rw [Send_next_command_last s m hq]
      exact ended_Disable_success _
  · right; right; left
    refine ⟨m, m2, rest, hq, ?_, ?_⟩
    · rw [Send_next_command_cons s m m2 rest hq]
    · rw [Send_next_command_cons s m m2 rest hq]

theorem shape_Try (s : Vehicle_command_act) : Step_shape s (Try s).1 := by
  by_cases hr : s.remaining_attempts = 0
  · left
    simp [Try, hr, Disable, Disable_activity, On_disable, Unregister_status_text]
  · rcases hq : s.cmd_messages with _ | ⟨m, rest⟩
    · left
      simp [Try, hr, hq, Disable, Disable_activity, On_disable, Unregister_status_text]
    · right; left
      refine ⟨m, rest, hq, ?_, ?_⟩
      · simp [Try, hr, hq, Schedule_timer, Send_message]
      · simp [Try, hr, hq, Schedule_timer, Send_message]

theorem shape_On_status_text (s : Vehicle_command_act) : Step_shape s (On_status_text s) := by
  left
  unfold On_status_text
  split <;> simp [Schedule_timer]

/-- Every transition has one of the four shapes. -/
theorem shape_step (n : Mavlink_names) (s : Vehicle_command_act) (e : Event) :
    Step_shape s (step n s e) := by
  cases e with
  | COMMAND_ACK command result =>
    simp only [step, On_command_ack]
    repeat' split
    all_goals first
      | exact shape_refl s
      | exact shape_Send_next_command s
      | exact shape_Disable s _
  | MISSION_ACK type =>
    simp only [step, On_mission_ack]
    repeat' split
    all_goals first
      | exact shape_refl s
      | exact shape_Send_next_command s
      | exact shape_Disable s _
  | MISSION_CURRENT seq =>
    simp only [step, On_mission_current]
    repeat' split
    all_goals first
      | exact shape_refl s
      | exact shape_Send_next_command s
  | PARAM_VALUE param_id param_value =>
    simp only [step, On_param_value]
    repeat' split
    all_goals first
      | exact shape_refl s
      | exact shape_Send_next_command s
      | exact shape_Disable s _
  | STATUSTEXT =>
    simp only [step]
    split
    · exact shape_On_status_text s
    · exact shape_refl s
  | TIMER =>
    simp only [step]
    split
    · exact shape_Try s
    · exact shape_refl s

/-- Reading the head of a suffix of the queue. -/
theorem drop_eq_cons {α : Type} :
    ∀ (Q : List α) (p : Nat) (m : α) (rest : List α), Q.drop p = m :: rest →
      p < Q.length ∧ Q[p]? = some m ∧ Q.drop (p + 1) = rest
      ∧ p + (rest.length + 1) = Q.length := by
  intro Q
  induction Q with
  | nil =>
    intro p m rest h
    simp at h
  | cons x xs ih =>
    intro p m rest h
    cases p with
    | zero =>
      simp at h
      obtain ⟨h1, h2⟩ := h
      subst h1
      subst h2
      simp
    | succ p =>
      simp at h
      obtain ⟨h1, h2, h3, h4⟩ := ih p m rest h
      refine ⟨by simpa using h1, by simpa using h2, by simpa using h3, ?_⟩
      simp
      omega

theorem send_trace_of_ended (n : Mavlink_names) (Q : List Payload) (es : List Event) :
    ∀ s : Vehicle_command_act, Ended s → send_trace n Q s es = [] := by
  induction es with
  | nil => intro s _; rfl
  | cons e es ih =>
    intro s h
    simp [send_trace, step_of_ended n s e h, ih s h, sends_between]

theorem sends_between_same (Q : List Payload) (s t : Vehicle_command_act)
    (h : t.sent = s.sent) : sends_between Q s t = [] := by
  simp [sends_between, h]

theorem sends_between_one (Q : List Payload) (s t : Vehicle_command_act) (m : Payload)
    (h : t.sent = s.sent ++ [m]) :
    sends_between Q s t = [(Q.length - t.cmd_messages.length, m)] := by
  simp [sends_between, h]

/-- The sends made from a state whose queue is the suffix of `Q` at `p`. -/
theorem trace_from (n : Mavlink_names) (Q : List Payload) (es : List Event) :
    ∀ (s : Vehicle_command_act) (p : Nat), s.cmd_messages = Q.drop p → p ≤ Q.length →
      (run n s es).sent = s.sent ++ (send_trace n Q s es).map Prod.snd
      ∧ (∀ x ∈ send_trace n Q s es, Q[x.1]? = some x.2)
      ∧ stepwise_from p ((send_trace n Q s es).map Prod.fst) = true
      ∧ ∃ p2, p ≤ p2 ∧ p2 ≤ Q.length ∧ (run n s es).cmd_messages = Q.drop p2
          ∧ ∀ x ∈ send_trace n Q s es, x.1 ≤ p2 := by
  induction es with
  | nil =>
    intro s p hq hp
    refine ⟨by simp [run, send_trace], by simp [send_trace], by simp [send_trace, stepwise_from],
      p, le_refl p, hp, by simpa [run] using hq, by simp [send_trace]⟩
  | cons e es ih =>
    intro s p hq hp
    rcases shape_step n s e with h | h | h | h
    · obtain ⟨hc, hs⟩ := h
      obtain ⟨i1, i2, i3, p2, i4, i5, i6, i7⟩ := ih (step n s e) p (by rw [hc, hq]) hp
      have hb := sends_between_same Q s (step n s e) hs
      simp only [send_trace, hb, List.nil_append, run_cons]
      exact ⟨by rw [i1, hs], i2, i3, p2, i4, i5, i6, i7⟩
    · obtain ⟨m, rest, hc0, hc, hs⟩ := h
      obtain ⟨d1, d2, d3, d4⟩ := drop_eq_cons Q p m rest (by rw [← hq, hc0])
      obtain ⟨i1, i2, i3, p2, i4, i5, i6, i7⟩ := ih (step n s e) p (by rw [hc, ← hc0, hq]) hp
      have hb := sends_between_one Q s (step n s e) m hs
      have d5 : Q.length - (rest.length + 1) = p := by omega
      rw [hc] at hb
      simp only [List.length_cons, d5] at hb
      simp only [send_trace, hb, run_cons]
      refine ⟨by rw [i1, hs]; simp, ?_, ?_, p2, i4, i5, i6, ?_⟩
      · intro x hx
        simp only [List.singleton_append, List.mem_cons] at hx
        rcases hx with hx | hx
        · subst hx
          exact d2
        · exact i2 x hx
      · simpa [stepwise_from] using i3
      · intro x hx
        simp only [List.singleton_append, List.mem_cons] at hx
        rcases hx with hx | hx
        · subst hx
          exact i4
        · exact i7 x hx
    · obtain ⟨m, m2, rest, hc0, hc, hs⟩ := h
      obtain ⟨d1, d2, d3, d4⟩ := drop_eq_cons Q p m (m2 :: rest) (by rw [← hq, hc0])
      obtain ⟨e1, e2, e3, e4⟩ := drop_eq_cons Q (p + 1) m2 rest d3
      obtain ⟨i1, i2, i3, p2, i4, i5, i6, i7⟩ :=
        ih (step n s e) (p + 1) (by rw [hc, d3]) (by omega)
      have hb := sends_between_one Q s (step n s e) m2 hs
      have e5 : Q.length - (rest.length + 1) = p + 1 := by omega
      rw [hc] at hb
      simp only [List.length_cons, e5] at hb
      simp only [send_trace, hb, run_cons]
      refine ⟨by rw [i1, hs]; simp, ?_, ?_, p2, by omega, i5, i6, ?_⟩
      · intro x hx
        simp only [List.singleton_append, List.mem_cons] at hx
        rcases hx with hx | hx
        · subst hx
          exact e2
        · exact i2 x hx
      · simpa [stepwise_from] using i3
      · intro x hx
        simp only [List.singleton_append, List.mem_cons] at hx
        rcases hx with hx | hx
        · subst hx
          exact i4
        · exact i7 x hx
    · obtain ⟨m, hc0, hc, hs, hend⟩ := h
      obtain ⟨d1, d2, d3, d4⟩ := drop_eq_cons Q p m [] (by rw [← hq, hc0])
      have hb := sends_between_same Q s (step n s e) hs
      have ht := send_trace_of_ended n Q es (step n s e) hend
      simp only [send_trace, hb, ht, run_cons, run_of_ended n _ es hend]
      refine ⟨by simp [hs], by simp, by simp [stepwise_from], p + 1, by omega, by omega,
        by rw [hc, d3], by simp⟩

/-- Either `Enable` sends the head of the queue or ends the conversation
without sending. -/
theorem Enable_shape (a : Vehicle_command_act) (Q : List Payload) (st : Bool) :
    (Enable a Q st).cmd_messages = Q
    ∧ ((∃ m, Q[0]? = some m ∧ (Enable a Q st).sent = a.sent ++ [m])
      ∨ ((Enable a Q st).sent = a.sent ∧ Ended (Enable a Q st))) := by
  by_cases hr : a.try_count = 0
  · refine ⟨?_, Or.inr ⟨?_, ?_⟩⟩
    · simp [Enable, Enable_begin, Enable_end, Try, hr, Disable, Disable_activity, On_disable,
        Unregister_status_text]
    · simp [Enable, Enable_begin, Enable_end, Try, hr, Disable, Disable_activity, On_disable,
        Unregister_status_text]
    · simp [Enable, Enable_begin, Enable_end, Try, hr, ended_Disable]
  · cases Q with
    | nil =>
      refine ⟨?_, Or.inr ⟨?_, ?_⟩⟩
      · simp [Enable, Enable_begin, Enable_end, Try, hr, Disable, Disable_activity,
          On_disable, Unregister_status_text]
      · simp [Enable, Enable_begin, Enable_end, Try, hr, Disable, Disable_activity,
          On_disable, Unregister_status_text]
      · simp [Enable, Enable_begin, Enable_end, Try, hr, ended_Disable]
    | cons m rest =>
      have hE := Enable_cons a m rest st (by omega)
      refine ⟨by rw [hE], Or.inl ⟨m, by simp, by rw [hE]⟩⟩

/-! ## General facts about the translation of a request -/

theorem Loop_frame_refl (a : Vehicle_command_act) : Loop_frame a a :=
  ⟨rfl, ⟨[], by simp⟩, fun h => h⟩

theorem Loop_frame_trans (a b c : Vehicle_command_act) (h1 : Loop_frame a b)
    (h2 : Loop_frame b c) : Loop_frame a c := by
  obtain ⟨e1, ⟨l1, q1⟩, s1⟩ := h1
  obtain ⟨e2, ⟨l2, q2⟩, s2⟩ := h2
  refine ⟨?_, ⟨l1 ++ l2, by rw [q2, q1, List.append_assoc]⟩, fun h => s2 (s1 h)⟩
  rw [e2, e1]

theorem Loop_frame_emplace_back (v : Vehicle) (m : Payload) :
    Loop_frame v.vehicle_command (v.emplace_back m).vehicle_command :=
  ⟨rfl, ⟨[m], rfl⟩, fun h => h⟩

theorem Loop_frame_Set_mode (E : Command_arith) (v : Vehicle) (m s : Nat) :
    Loop_frame v.vehicle_command (Vehicle.Set_mode E v m s).vehicle_command :=
  Loop_frame_emplace_back v _

theorem Loop_frame_Do_reposition (E : Command_arith) (v : Vehicle) (a b c d e : F32) :
    Loop_frame v.vehicle_command (Vehicle.Do_reposition E v a b c d e).vehicle_command :=
  Loop_frame_emplace_back v _

theorem vehicle_command_Stop (v : Vehicle) :
    (Vehicle.Stop_direct_vehicle_control v).vehicle_command = v.vehicle_command := by
  rcases v with ⟨vc, _, _, _, _, _, _, _, _, dvc, _, _, _, _, _⟩
  cases dvc <;> rfl

theorem vehicle_command_Start (E : Command_arith) (v : Vehicle) :
    (Vehicle.Start_direct_vehicle_control E v).vehicle_command = v.vehicle_command := by
  rcases v with ⟨vc, _, _, _, _, _, _, _, _, dvc, _, _, _, _, _⟩
  cases dvc <;> rfl

theorem Loop_frame_register (v : Vehicle) (m : Payload) :
    Loop_frame v.vehicle_command
      ((v.emplace_back m).on_command Vehicle_command_act.Register_status_text).vehicle_command :=
  ⟨rfl, ⟨[m], rfl⟩, fun _ => rfl⟩

/-- One command either keeps the dispatcher within the frame or disables
it as it stands. -/
theorem Process_command_frame (E : Command_arith) (v : Vehicle) (c : Command) :
    Loop_frame v.vehicle_command (Vehicle.Process_command E v c).vehicle_command
    ∨ ∃ reason, (Vehicle.Process_command E v c).vehicle_command
        = v.vehicle_command.Disable reason := by
  cases c with
  | emergency_land => exact Or.inl (Loop_frame_register v _)
  | arm =>
    simp only [Vehicle.Process_command]
    unfold Vehicle.Process_arm
    split
    · exact Or.inr ⟨_, rfl⟩
    · exact Or.inl (Loop_frame_register v _)
  | disarm => exact Or.inl (Loop_frame_register v _)
  | takeoff_command => exact Or.inl (Loop_frame_Set_mode E v _ _)
  | resume =>
    left
    simp only [Vehicle.Process_command]
    unfold Vehicle.Process_resume
    have h := Loop_frame_Set_mode E (Vehicle.Stop_direct_vehicle_control v)
      Px4_main_mode_AUTO Px4_auto_sub_mode_AUTO_MISSION
    rw [vehicle_command_Stop] at h
    exact h
  | pause =>
    left
    simp only [Vehicle.Process_command]
    unfold Vehicle.Process_pause
    have h := Loop_frame_Do_reposition E (Vehicle.Stop_direct_vehicle_control v)
      E.Do_reposition_default_latitude E.Do_reposition_default_longitude
      E.Do_reposition_default_altitude E.Do_reposition_default_heading
      E.Do_reposition_default_speed
    rw [vehicle_command_Stop] at h
    exact h
  | auto =>
    left
    simp only [Vehicle.Process_command]
    unfold Vehicle.Process_auto
    refine Loop_frame_trans _ _ _ (Loop_frame_emplace_back v (Payload.MISSION_SET_CURRENT 0)) ?_
    refine Loop_frame_trans _ _ _ ?_ (Loop_frame_Set_mode E _ _ _)
    split
    · exact Loop_frame_Set_mode E _ _ _
    · exact Loop_frame_refl _
  | manual =>
    left
    simp only [Vehicle.Process_command]
    unfold Vehicle.Process_manual
    have h := Loop_frame_Set_mode E (Vehicle.Stop_direct_vehicle_control v)
      Px4_main_mode_POSCTL E.Set_mode_default_sub_mode
    rw [vehicle_command_Stop] at h
    exact h
  | rth => exact Or.inl (Loop_frame_Set_mode E v _ _)
  | land_command => exact Or.inl (Loop_frame_Set_mode E v _ _)
  | waypoint speed lat lon alt ao hdg =>
    simp only [Vehicle.Process_command]
    unfold Vehicle.Process_waypoint
    split
    · left
      refine Loop_frame_trans _ _ _ ?_ (Loop_frame_Do_reposition E _ _ _ _ _ _)
      refine Loop_frame_trans _ _ _ (?_ : Loop_frame v.vehicle_command
        (if (!v.is_airborne) = true then
          Vehicle.Set_mode E v Px4_main_mode_AUTO Px4_auto_sub_mode_AUTO_TAKEOFF
        else v).vehicle_command) ?_
      · split
        · exact Loop_frame_Set_mode E _ _ _
        · exact Loop_frame_refl _
      · generalize (if (!v.is_airborne) = true then
          Vehicle.Set_mode E v Px4_main_mode_AUTO Px4_auto_sub_mode_AUTO_TAKEOFF
        else v) = v1
        refine Loop_frame_trans _ _ _ (?_ : Loop_frame v1.vehicle_command
          (if (!decide (v1.control_mode = some Control_mode.CLICK_GO)) = true then
            Vehicle.Set_mode E v1 Px4_main_mode_AUTO Px4_auto_sub_mode_AUTO_LOITER
          else v1).vehicle_command) ?_
        · split
          · exact Loop_frame_Set_mode E _ _ _
          · exact Loop_frame_refl _
        · generalize (if (!decide (v1.control_mode = some Control_mode.CLICK_GO)) = true then
            Vehicle.Set_mode E v1 Px4_main_mode_AUTO Px4_auto_sub_mode_AUTO_LOITER
          else v1) = v2
          split
          · exact Loop_frame_refl _
          · dsimp only
            split
            · exact Loop_frame_trans _ _ _ (Loop_frame_emplace_back v2 _)
                (Loop_frame_emplace_back _ _)
            · exact Loop_frame_emplace_back v2 _
    · exact Or.inr ⟨_, rfl⟩
  | set_poi active lat lon alt => exact Or.inl (Loop_frame_emplace_back v _)
  | guided =>
    left
    simp only [Vehicle.Process_command]
    unfold Vehicle.Process_guided
    refine Loop_frame_trans _ _ _ ?_ (Loop_frame_Set_mode E _ _ _)
    split
    · exact Loop_frame_Set_mode E _ _ _
    · exact Loop_frame_refl _
  | direct_payload_control pitch yaw =>
    left
    simp only [Vehicle.Process_command]
    unfold Vehicle.Process_direct_payload_control
    dsimp only
    refine Loop_frame_trans _ _ _ ?_ (Loop_frame_emplace_back _ _)
    have hw : ∀ w : Vehicle, w.vehicle_command = v.vehicle_command →
        Loop_frame v.vehicle_command w.vehicle_command := fun w h => h ▸ Loop_frame_refl _
    apply hw
    repeat' split
    all_goals rfl
  | direct_vehicle_control pitch yaw roll throttle =>
    left
    rcases v with ⟨vc, _, _, _, _, _, _, _, _, dvc, _, _, _, _, _⟩
    cases dvc <;> exact Loop_frame_refl _
  | joystick =>
    left
    simp only [Vehicle.Process_command]
    unfold Vehicle.Process_joystick
    rw [vehicle_command_Start]
    exact Loop_frame_Set_mode E _ _ _
  | other => exact Or.inr ⟨_, rfl⟩

theorem status_of_Loop_frame (a b : Vehicle_command_act) (h : Loop_frame a b) :
    b.status = a.status := by
  rw [h.1]

theorem status_Disable_of_active (a : Vehicle_command_act) (reason : String)
    (h : a.status = Status.active) : (a.Disable reason).status = Status.failed reason := by
  simp [Vehicle_command_act.Disable, h]

theorem status_Disable_of_not_active (a : Vehicle_command_act) (reason : String)
    (h : a.status ≠ Status.active) : (a.Disable reason).status = a.status := by
  simp [Vehicle_command_act.Disable, h]

/-- The loop stops at once on a dispatcher whose request is completed. -/
theorem Enable_loop_of_not_active (E : Command_arith) (v : Vehicle) (cmds : List Command)
    (h : v.vehicle_command.status ≠ Status.active) : Vehicle.Enable_loop E v cmds = v := by
  cases cmds with
  | nil => rfl
  | cons c cs => simp [Vehicle.Enable_loop, h]

theorem Enable_loop_append (E : Command_arith) :
    ∀ (xs ys : List Command) (v : Vehicle),
      Vehicle.Enable_loop E v (xs ++ ys)
        = Vehicle.Enable_loop E (Vehicle.Enable_loop E v xs) ys := by
  intro xs
  induction xs with
  | nil => intro ys v; rfl
  | cons c cs ih =>
    intro ys v
    by_cases h : v.vehicle_command.status = Status.active
    · simp only [List.cons_append, Vehicle.Enable_loop, h, if_true]
      exact ih ys _
    · rw [Enable_loop_of_not_active E v _ h, Enable_loop_of_not_active E v _ h,
        Enable_loop_of_not_active E v _ h]

/-- The loop never sends, and touches neither the attempt counter nor the
configuration of the dispatcher. -/
theorem Enable_loop_keeps (E : Command_arith) :
    ∀ (cmds : List Command) (v : Vehicle),
      (Vehicle.Enable_loop E v cmds).vehicle_command.sent = v.vehicle_command.sent
      ∧ (Vehicle.Enable_loop E v cmds).vehicle_command.remaining_attempts
          = v.vehicle_command.remaining_attempts
      ∧ (Vehicle.Enable_loop E v cmds).vehicle_command.try_count
          = v.vehicle_command.try_count := by
  intro cmds
  induction cmds with
  | nil => intro v; exact ⟨rfl, rfl, rfl⟩
  | cons c cs ih =>
    intro v
    by_cases h : v.vehicle_command.status = Status.active
    · simp only [Vehicle.Enable_loop, h, if_true]
      obtain ⟨h1, h2, h3⟩ := ih (Vehicle.Process_command E v c)
      rcases Process_command_frame E v c with hf | ⟨r, hd⟩
      · rw [h1, h2, h3, hf.1]
        exact ⟨rfl, rfl, rfl⟩
      · rw [h1, h2, h3, hd]
        exact ⟨rfl, rfl, rfl⟩
    · rw [Enable_loop_of_not_active E v _ h]
      exact ⟨rfl, rfl, rfl⟩

/-- A loop that ends with the request still pending stayed within the frame. -/
theorem Enable_loop_frame (E : Command_arith) :
    ∀ (cmds : List Command) (v : Vehicle),
      (Vehicle.Enable_loop E v cmds).vehicle_command.status = Status.active →
      Loop_frame v.vehicle_command (Vehicle.Enable_loop E v cmds).vehicle_command := by
  intro cmds
  induction cmds with
  | nil => intro v _; exact Loop_frame_refl _
  | cons c cs ih =>
    intro v hend
    by_cases h : v.vehicle_command.status = Status.active
    · simp only [Vehicle.Enable_loop, h, if_true] at hend ⊢
      rcases Process_command_frame E v c with hf | ⟨r, hd⟩
      · exact Loop_frame_trans _ _ _ hf (ih _ hend)
      · exfalso
        have hs : (Vehicle.Process_command E v c).vehicle_command.status ≠ Status.active := by
          rw [hd, status_Disable_of_active _ _ h]
          simp
        rw [Enable_loop_of_not_active E _ _ hs] at hend
        exact hs hend
    · rw [Enable_loop_of_not_active E v _ h]
      exact Loop_frame_refl _

/-- The queue-level `Enable` used for the dispatcher theorems is what the
request-level `Enable` does whenever no command of the request disables
the conversation: the loop then only leaves a queue behind and possibly the
status text handler. -/
theorem Enable_request_eq_Enable_queue (E : Command_arith) (v : Vehicle)
    (cmds : List Command)
    (h : (Vehicle.Enable_loop E (v.on_command Vehicle_command_act.Enable_begin)
      cmds).vehicle_command.status = Status.active) :
    (Vehicle.Enable E v cmds).vehicle_command
      = Vehicle_command_act.Enable v.vehicle_command
          (Vehicle.Enable_loop E (v.on_command Vehicle_command_act.Enable_begin)
            cmds).vehicle_command.cmd_messages
          (Vehicle.Enable_loop E (v.on_command Vehicle_command_act.Enable_begin)
            cmds).vehicle_command.statustext_handler := by
  obtain ⟨e1, ⟨l, q1⟩, s1⟩ := Enable_loop_frame E cmds _ h
  unfold Vehicle.Enable Vehicle_command_act.Enable
  simp only [Vehicle.on_command] at e1 s1 ⊢
  generalize (Vehicle.Enable_loop E
    { v with vehicle_command := Vehicle_command_act.Enable_begin v.vehicle_command }
    cmds).vehicle_command = b at e1 s1 q1 ⊢
  congr 1
  rw [e1]
  have hs : ((Vehicle_command_act.Enable_begin v.vehicle_command).statustext_handler
      || b.statustext_handler) = b.statustext_handler := by
    cases hb : (Vehicle_command_act.Enable_begin v.vehicle_command).statustext_handler
    · simp
    · simp [s1 hb]
  simp [Vehicle_command_act.Enable_begin, hs]
  simpa [Vehicle_command_act.Enable_begin] using s1

/-- The first try does not revive a completed request. -/
theorem status_Enable_end_of_not_active (a : Vehicle_command_act)
    (h : a.status ≠ Status.active) : (Vehicle_command_act.Enable_end a).status = a.status := by
  unfold Vehicle_command_act.Enable_end Vehicle_command_act.Try
  simp only []
  repeat' split
  all_goals
    simp [Vehicle_command_act.Disable, Vehicle_command_act.Schedule_timer,
      Vehicle_command_act.Send_message, Vehicle_command_act.Disable_activity,
      Vehicle_command_act.On_disable, Vehicle_command_act.Unregister_status_text, h]

/-- The first try on an empty queue: nothing is sent, the timer is off, and
a pending request fails with "Command list empty". -/
theorem Enable_end_of_empty (a : Vehicle_command_act) (hq : a.cmd_messages = [])
    (hr : a.remaining_attempts ≠ 0) :
    (Vehicle_command_act.Enable_end a).sent = a.sent
    ∧ (Vehicle_command_act.Enable_end a).timer = none
    ∧ (Vehicle_command_act.Enable_end a).cmd_messages = []
    ∧ (a.status = Status.active →
        (Vehicle_command_act.Enable_end a).status = Status.failed "Command list empty") := by
  simp [Vehicle_command_act.Enable_end, Vehicle_command_act.Try, hq, hr,
    Vehicle_command_act.Disable, Vehicle_command_act.Disable_activity,
    Vehicle_command_act.On_disable, Vehicle_command_act.Unregister_status_text]
  intro h
  simp [h]

/-- Starting with a pending request, the loop ends with the request still
pending or failed. -/
theorem Enable_loop_status (E : Command_arith) :
    ∀ (cmds : List Command) (v : Vehicle), v.vehicle_command.status = Status.active →
      (Vehicle.Enable_loop E v cmds).vehicle_command.status = Status.active
      ∨ ∃ reason, (Vehicle.Enable_loop E v cmds).vehicle_command.status
          = Status.failed reason := by
  intro cmds
  induction cmds with
  | nil => intro v h; exact Or.inl h
  | cons c cs ih =>
    intro v h
    simp only [Vehicle.Enable_loop, h, if_true]
    rcases Process_command_frame E v c with hf | ⟨r, hd⟩
    · exact ih _ (by rw [status_of_Loop_frame _ _ hf, h])
    · have hs : (Vehicle.Process_command E v c).vehicle_command.status = Status.failed r := by
        rw [hd, status_Disable_of_active _ _ h]
      right
      refine ⟨r, ?_⟩
      rw [Enable_loop_of_not_active E _ _ (by rw [hs]; simp), hs]

theorem cmd_messages_Enable_end (a : Vehicle_command_act) :
    (Vehicle_command_act.Enable_end a).cmd_messages = a.cmd_messages := by
  unfold Vehicle_command_act.Enable_end Vehicle_command_act.Try
  simp only []
  repeat' split
  all_goals
    simp_all [Vehicle_command_act.Disable, Vehicle_command_act.Schedule_timer,
      Vehicle_command_act.Send_message, Vehicle_command_act.Disable_activity,
      Vehicle_command_act.On_disable, Vehicle_command_act.Unregister_status_text]

theorem handlers_Enable_end (a : Vehicle_command_act) (h : a.handlers_registered = false) :
    (Vehicle_command_act.Enable_end a).handlers_registered = false := by
  unfold Vehicle_command_act.Enable_end Vehicle_command_act.Try
  simp only []
  repeat' split
  all_goals
    simp_all [Vehicle_command_act.Disable, Vehicle_command_act.Schedule_timer,
      Vehicle_command_act.Send_message, Vehicle_command_act.Disable_activity,
      Vehicle_command_act.On_disable, Vehicle_command_act.Unregister_status_text]

/-- A zero double is not a NaN. -/
theorem F64_ne_zero_of_isZero (x : F64) (h : x.isZero = true) : x.ne_zero = false := by
  have h0 : x.bits % 9223372036854775808 = 0 := by
    simpa [F64.isZero] using h
  have h1 : ¬ (x.bits / 4503599627370496 % 2048 = 2047) := by omega
  simp [F64.ne_zero, F64.isNaN, F64.isZero, h0, h1]

/-! ## General facts about the mission compiler -/

theorem Seq_ok_nil {F : Type} : Seq_ok ([] : List (Mission_item F)) := by
  intro i item h
  simp at h

/-- Appending through `Add_mission_item` keeps the sequence numbers in
step with the positions. -/
theorem Seq_ok_Add {F : Type} (A : Arith F) (t : Task_upload F) (mi : Mission_item F)
    (h : Seq_ok t.prepared_actions) :
    Seq_ok (Task_upload.Add_mission_item A t mi).prepared_actions := by
  intro i item hi
  simp only [Task_upload.Add_mission_item] at hi
  rcases Nat.lt_or_ge i t.prepared_actions.length with hlt | hge
  · rw [List.getElem?_append_left hlt] at hi
    exact h i item hi
  · rw [List.getElem?_append_right hge] at hi
    rcases Nat.eq_or_lt_of_le hge with heq | hgt
    · rw [← heq] at hi
      simp at hi
      rw [← hi, ← heq]
      rfl
    · have hpos : i - t.prepared_actions.length ≠ 0 := by omega
      obtain ⟨k, hk⟩ := Nat.exists_eq_succ_of_ne_zero hpos
      rw [hk] at hi
      simp at hi

theorem Seq_ok_Prepare_wait {F : Type} (A : Arith F) (cfg : Compiler_config F)
    (t : Task_upload F) (w : F) (h : Seq_ok t.prepared_actions) :
    Seq_ok (Task_upload.Prepare_wait A cfg t w).prepared_actions := by
  unfold Task_upload.Prepare_wait
  split
  · exact Seq_ok_Add A _ _ h
  · exact h

theorem Seq_ok_Prepare_move_series_off {F : Type} (A : Arith F) (cfg : Compiler_config F)
    (t : Task_upload F) (h : Seq_ok t.prepared_actions) :
    Seq_ok (Task_upload.Prepare_move_series_off A cfg t).prepared_actions := by
  unfold Task_upload.Prepare_move_series_off
  have h1 : Seq_ok (if (!t.camera_series_by_dist_active_in_wp) = true then
      if t.camera_series_by_dist_active = true then
        Task_upload.Add_mission_item A { t with camera_series_by_dist_active := false }
          { A.Create with command := MAV_CMD_DO_SET_CAM_TRIGG_DIST }
      else t
    else t).prepared_actions := by
    split
    · split
      · exact Seq_ok_Add A _ _ h
      · exact h
    · exact h
  dsimp only
  generalize (if (!t.camera_series_by_dist_active_in_wp) = true then
      if t.camera_series_by_dist_active = true then
        Task_upload.Add_mission_item A { t with camera_series_by_dist_active := false }
          { A.Create with command := MAV_CMD_DO_SET_CAM_TRIGG_DIST }
      else t
    else t) = t1 at h1 ⊢
  split
  · split
    · exact Seq_ok_Add A _ _ h1
    · exact h1
  · exact h1

theorem Seq_ok_Prepare_move_heading {F : Type} (A : Arith F) (t : Task_upload F)
    (m : Move_action F) (h : Seq_ok t.prepared_actions) :
    Seq_ok (Task_upload.Prepare_move_heading A t m).prepared_actions := by
  unfold Task_upload.Prepare_move_heading
  split
  · dsimp only
    split
    · exact h
    · exact h
  · exact h

theorem Seq_ok_Prepare_move_yaw {F : Type} (A : Arith F) (cfg : Compiler_config F)
    (t : Task_upload F) (m : Move_action F) (h : Seq_ok t.prepared_actions) :
    Seq_ok (Task_upload.Prepare_move_yaw A cfg t m).1.prepared_actions := by
  unfold Task_upload.Prepare_move_yaw
  split
  · split
    · exact Seq_ok_Add A _ _ h
    · exact h
  · dsimp only
    split <;> split <;> (try split) <;> exact h

theorem Seq_ok_Prepare_move {F : Type} (A : Arith F) (cfg : Compiler_config F)
    (t : Task_upload F) (m : Move_action F) (h : Seq_ok t.prepared_actions) :
    Seq_ok (Task_upload.Prepare_move A cfg t m).1.prepared_actions := by
  unfold Task_upload.Prepare_move
  exact Seq_ok_Add A _ _
    (Seq_ok_Prepare_move_yaw A cfg _ m
      (Seq_ok_Prepare_move_heading A _ m (Seq_ok_Prepare_move_series_off A cfg t h)))

theorem Seq_ok_Prepare_camera_mode {F : Type} (A : Arith F) (cfg : Compiler_config F)
    (t : Task_upload F) (mode : Nat) (h : Seq_ok t.prepared_actions) :
    Seq_ok (Task_upload.Prepare_camera_mode A cfg t mode).prepared_actions := by
  unfold Task_upload.Prepare_camera_mode
  split
  · exact Seq_ok_Prepare_wait A cfg _ _ (Seq_ok_Add A _ _ h)
  · exact h

theorem Seq_ok_Prepare_camera_trigger_impl {F : Type} (A : Arith F)
    (cfg : Compiler_config F) (t : Task_upload F) (b : Bool) (x : F)
    (h : Seq_ok t.prepared_actions) :
    Seq_ok (Task_upload.Prepare_camera_trigger_impl A cfg t b x).prepared_actions := by
  unfold Task_upload.Prepare_camera_trigger_impl
  dsimp only
  split
  · exact Seq_ok_Add A _ _ h
  · exact Seq_ok_Add A _ _ (Seq_ok_Prepare_camera_mode A cfg t _ h)

theorem Seq_ok_Prepare_camera_recording_impl {F : Type} (A : Arith F)
    (cfg : Compiler_config F) (t : Task_upload F) (b : Bool)
    (h : Seq_ok t.prepared_actions) :
    Seq_ok (Task_upload.Prepare_camera_recording_impl A cfg t b).prepared_actions := by
  unfold Task_upload.Prepare_camera_recording_impl
  exact Seq_ok_Add A _ _ (Seq_ok_Prepare_camera_mode A cfg t _ h)

theorem Seq_ok_Prepare_camera_trigger {F : Type} (A : Arith F) (cfg : Compiler_config F)
    (t : Task_upload F) (state : Camera_trigger_state) (interval : Int)
    (h : Seq_ok t.prepared_actions) :
    Seq_ok (Task_upload.Prepare_camera_trigger A cfg t state interval).prepared_actions := by
  unfold Task_upload.Prepare_camera_trigger
  cases state
  · exact Seq_ok_Prepare_camera_trigger_impl A cfg t _ _ h
  · exact Seq_ok_Prepare_camera_trigger_impl A cfg t _ _ h
  · dsimp only
    split
    · exact Seq_ok_Prepare_camera_recording_impl A cfg t _ h
    · exact h
  · dsimp only
    split
    · exact Seq_ok_Prepare_camera_recording_impl A cfg t _ h
    · exact h

/-- Every action keeps the sequence numbers in step with the positions. -/
theorem Seq_ok_Prepare_action {F : Type} (A : Arith F) (cfg : Compiler_config F)
    (t : Task_upload F) (action : Action F) (h : Seq_ok t.prepared_actions) :
    Seq_ok (Task_upload.Prepare_action A cfg t action).1.prepared_actions := by
  cases action with
  | MOVE move => exact Seq_ok_Prepare_move A cfg t move h
  | WAIT wait_time => exact Seq_ok_Prepare_wait A cfg t wait_time h
  | PAYLOAD_STEERING => exact h
  | TAKEOFF takeoff => exact Seq_ok_Add A _ _ h
  | LANDING position heading => exact Seq_ok_Add A _ _ h
  | CHANGE_SPEED speed =>
    simp only [Task_upload.Prepare_action, Task_upload.Prepare_change_speed]
    split
    · exact h
    · exact Seq_ok_Add A _ _ h
  | SET_HOME => exact h
  | POI position active =>
    simp only [Task_upload.Prepare_action, Task_upload.Prepare_POI]
    split
    · split
      · exact Seq_ok_Add A _ _ h
      · exact Seq_ok_Add A _ _ h
    · exact h
  | HEADING heading =>
    simp only [Task_upload.Prepare_action, Task_upload.Prepare_heading]
    split
    · exact Seq_ok_Add A _ _ h
    · exact h
  | PANORAMA => exact h
  | CAMERA_CONTROL tilt roll yaw => exact Seq_ok_Add A _ _ h
  | CAMERA_TRIGGER state interval => exact Seq_ok_Prepare_camera_trigger A cfg t state interval h
  | CAMERA_SERIES_BY_TIME interval => exact Seq_ok_Prepare_camera_trigger_impl A cfg t _ _ h
  | CAMERA_SERIES_BY_DISTANCE interval => exact Seq_ok_Add A _ _ h
  | VTOL_TRANSITION mode =>
    simp only [Task_upload.Prepare_action, Task_upload.Prepare_vtol_transition]
    split
    · exact Seq_ok_Add A _ _ h
    · exact h
  | OTHER => exact h

theorem Seq_ok_Prepare_actions {F : Type} (A : Arith F) (cfg : Compiler_config F) :
    ∀ (actions : List (Action F)) (t : Task_upload F), Seq_ok t.prepared_actions →
      Seq_ok (Task_upload.Prepare_actions A cfg t actions).1.prepared_actions := by
  intro actions
  induction actions with
  | nil => intro t h; exact h
  | cons action rest ih =>
    intro t h
    exact ih _ (Seq_ok_Prepare_action A cfg t action h)

theorem Seq_ok_Prepare_task {F : Type} (A : Arith F) (cfg : Compiler_config F)
    (t : Task_upload F) : Seq_ok (Task_upload.Prepare_task A cfg t).prepared_actions := by
  unfold Task_upload.Prepare_task
  exact Seq_ok_Prepare_actions A cfg _ _ Seq_ok_nil

theorem length_Prepare_actions_series {F : Type} (A : Arith F) (cfg : Compiler_config F)
    (d : F) :
    ∀ (n : Nat) (t : Task_upload F),
      (Task_upload.Prepare_actions A cfg t
        (List.replicate n (Action.CAMERA_SERIES_BY_DISTANCE d))).1.prepared_actions.length
        = t.prepared_actions.length + n := by
  intro n
  induction n with
  | zero => intro t; rfl
  | succ n ih =>
    intro t
    rw [List.replicate_succ]
    show (Task_upload.Prepare_actions A cfg
      (Task_upload.Prepare_action A cfg t (Action.CAMERA_SERIES_BY_DISTANCE d)).1
      (List.replicate n (Action.CAMERA_SERIES_BY_DISTANCE d))).1.prepared_actions.length = _
    rw [ih]
    simp [Task_upload.Prepare_action, Task_upload.Prepare_camera_series_by_distance,
      Task_upload.Add_mission_item]
    omega

theorem length_Prepare_task_series {F : Type} (A : Arith F) (cfg : Compiler_config F)
    (d : F) (n : Nat) (t : Task_upload F)
    (h : t.request.actions = List.replicate n (Action.CAMERA_SERIES_BY_DISTANCE d)) :
    (Task_upload.Prepare_task A cfg t).prepared_actions.length = n := by
  have h2 := length_Prepare_actions_series A cfg d n
    { t with prepared_actions := [], last_move_action := none, takeoff_action := none }
  rw [← h] at h2
  simpa [Task_upload.Prepare_task] using h2

theorem Same_but_refs_Filter_copter {F : Type} (A : Arith F) :
    ∀ (actions : List (Action F)) (x y : Task_upload F), Same_but_refs x y →
      Same_but_refs (Task_upload.Filter_copter_actions A x actions).1
        (Task_upload.Filter_copter_actions A y actions).1
      ∧ (Task_upload.Filter_copter_actions A x actions).2
        = (Task_upload.Filter_copter_actions A y actions).2 := by
  intro actions
  induction actions with
  | nil => intro x y h; exact ⟨h, rfl⟩
  | cons action rest ih =>
    intro x y h
    have hm : x.max_mission_speed = y.max_mission_speed := by
      have := congrArg Task_upload.max_mission_speed h
      exact this
    have hstep : Same_but_refs
        (match action with
          | Action.CHANGE_SPEED speed =>
            if A.lt x.max_mission_speed speed = true then { x with max_mission_speed := speed }
            else x
          | _ => x)
        (match action with
          | Action.CHANGE_SPEED speed =>
            if A.lt y.max_mission_speed speed = true then { y with max_mission_speed := speed }
            else y
          | _ => y) := by
      cases action <;> try exact h
      rename_i speed
      dsimp only
      rw [hm]
      split
      · unfold Same_but_refs at h ⊢
        have h2 := congrArg (fun z : Task_upload F => { z with max_mission_speed := speed }) h
        exact h2
      · exact h
    obtain ⟨i1, i2⟩ := ih _ _ hstep
    unfold Task_upload.Filter_copter_actions
    exact ⟨i1, by dsimp only; rw [i2]⟩

theorem Same_but_refs_request {F : Type} (x y : Task_upload F) (h : Same_but_refs x y) :
    x.request = y.request := by
  have h2 := congrArg Task_upload.request h
  exact h2

/-- `Prepare_task` does not look at the back-references it is given. -/
theorem Prepare_task_of_Same_but_refs {F : Type} (A : Arith F) (cfg : Compiler_config F)
    (x y : Task_upload F) (h : Same_but_refs x y) :
    Task_upload.Prepare_task A cfg x = Task_upload.Prepare_task A cfg y := by
  have hr := Same_but_refs_request x y h
  have h0 : ({ x with prepared_actions := [], last_move_action := none, takeoff_action := none }
      : Task_upload F)
      = { y with prepared_actions := [], last_move_action := none, takeoff_action := none } := by
    have h2 := congrArg (fun z : Task_upload F => { z with prepared_actions := [] }) h
    exact h2
  unfold Task_upload.Prepare_task
  dsimp only
  rw [h0, hr]

/-- After `Enable` has run up to the speed ceiling on two states with the
same camera mode, the two states agree except for the back-references, or
the request was refused and both hold no items. -/
theorem Enable_prepare_same {F : Type} (A : Arith F) (cfg : Compiler_config F)
    (t1 t2 : Task_upload F) (req : Task_request F)
    (h : t1.current_camera_mode = t2.current_camera_mode) :
    (Task_upload.Enable_prepare A cfg t1 req).2 = (Task_upload.Enable_prepare A cfg t2 req).2
    ∧ ((Task_upload.Enable_prepare A cfg t1 req).2 = true →
        Same_but_refs (Task_upload.Enable_prepare A cfg t1 req).1
          (Task_upload.Enable_prepare A cfg t2 req).1)
    ∧ ((Task_upload.Enable_prepare A cfg t1 req).2 = false →
        (Task_upload.Enable_prepare A cfg t1 req).1.prepared_actions = []
        ∧ (Task_upload.Enable_prepare A cfg t2 req).1.prepared_actions = []) := by
  unfold Task_upload.Enable_prepare
  dsimp only
  split
  · exact ⟨rfl, fun hc => by simp at hc, fun _ => ⟨rfl, rfl⟩⟩
  · refine ⟨rfl, fun _ => ?_, fun hc => by simp at hc⟩
    generalize (if (!req.return_native_route) = true then
        match cfg.home_altitude_amsl with
        | some hl => { req with takeoff_altitude := hl }
        | none => req
      else req) = req2
    have hbase : Same_but_refs
        ({ Task_upload.Enable_clean_state A t1 with request := req2 } : Task_upload F)
        { Task_upload.Enable_clean_state A t2 with request := req2 } := by
      unfold Same_but_refs Task_upload.Enable_clean_state
      simp only [h]
    have hfilter : Same_but_refs
        (Task_upload.Filter_actions A cfg
          ({ Task_upload.Enable_clean_state A t1 with request := req2 } : Task_upload F))
        (Task_upload.Filter_actions A cfg
          { Task_upload.Enable_clean_state A t2 with request := req2 }) := by
      unfold Task_upload.Filter_actions
      cases cfg.vehicle_type
      · dsimp only
        exact congrArg (fun z : Task_upload F =>
          { z with request := { req2 with actions :=
              Task_upload.Filter_rover_actions req2.actions } }) hbase
      · dsimp only
        exact congrArg (fun z : Task_upload F =>
          { z with request := { req2 with actions :=
              Task_upload.Filter_plane_actions req2.actions } }) hbase
      · dsimp only
        obtain ⟨i1, i2⟩ := Same_but_refs_Filter_copter A req2.actions _ _ hbase
        rw [i2]
        exact congrArg (fun z : Task_upload F =>
          { z with request := { req2 with actions :=
              (Task_upload.Filter_copter_actions A
                { Task_upload.Enable_clean_state A t2 with request := req2 }
                req2.actions).2 } }) i1
      · dsimp only
        obtain ⟨i1, i2⟩ := Same_but_refs_Filter_copter A req2.actions _ _ hbase
        rw [i2]
        exact congrArg (fun z : Task_upload F =>
          { z with request := { req2 with actions :=
              (Task_upload.Filter_copter_actions A
                { Task_upload.Enable_clean_state A t2 with request := req2 }
                req2.actions).2 } }) i1
      · dsimp only
        obtain ⟨i1, i2⟩ := Same_but_refs_Filter_copter A req2.actions _ _ hbase
        rw [i2]
        exact congrArg (fun z : Task_upload F =>
          { z with request := { req2 with actions :=
              (Task_upload.Filter_copter_actions A
                { Task_upload.Enable_clean_state A t2 with request := req2 }
                req2.actions).2 } }) i1
    generalize (Task_upload.Filter_actions A cfg
      ({ Task_upload.Enable_clean_state A t1 with request := req2 } : Task_upload F)) = f1
      at hfilter ⊢
    generalize (Task_upload.Filter_actions A cfg
      ({ Task_upload.Enable_clean_state A t2 with request := req2 } : Task_upload F)) = f2
      at hfilter ⊢
    have hm : f1.max_mission_speed = f2.max_mission_speed := by
      have h2 := congrArg Task_upload.max_mission_speed hfilter
      exact h2
    rw [hm]
    split
    · exact congrArg (fun z : Task_upload F =>
        { z with max_mission_speed := A.MAX_COPTER_SPEED }) hfilter
    · exact hfilter

/-- The items of a compilation depend on the earlier state of the compiler
only through its camera mode. -/
theorem compile_of_same_camera_mode {F : Type} (A : Arith F) (cfg : Compiler_config F)
    (t1 t2 : Task_upload F) (req : Task_request F)
    (h : t1.current_camera_mode = t2.current_camera_mode) :
    (Task_upload.compile A cfg t1 req).prepared_actions
      = (Task_upload.compile A cfg t2 req).prepared_actions := by
  obtain ⟨e1, e2, e3⟩ := Enable_prepare_same A cfg t1 t2 req h
  unfold Task_upload.compile
  rw [← e1]
  cases hflag : (Task_upload.Enable_prepare A cfg t1 req).2
  · simp only [Bool.false_eq_true, if_false]
    obtain ⟨p1, p2⟩ := e3 hflag
    rw [p1, p2]
  · simp only [if_true]
    rw [Prepare_task_of_Same_but_refs A cfg _ _ (e2 hflag)]

/-- The first part of `Prepare_move` touches only the item list and the
camera series flags. -/
theorem Prepare_move_series_off_keeps {F : Type} (A : Arith F) (cfg : Compiler_config F)
    (t : Task_upload F) :
    (Task_upload.Prepare_move_series_off A cfg t).heading_to_this_wp = t.heading_to_this_wp
    ∧ (Task_upload.Prepare_move_series_off A cfg t).current_mission_poi = t.current_mission_poi
    ∧ (Task_upload.Prepare_move_series_off A cfg t).current_mission_heading
        = t.current_mission_heading
    ∧ (Task_upload.Prepare_move_series_off A cfg t).last_move_action = t.last_move_action
    ∧ (Task_upload.Prepare_move_series_off A cfg t).takeoff_action = t.takeoff_action := by
  unfold Task_upload.Prepare_move_series_off
  dsimp only
  split_ifs <;> exact ⟨rfl, rfl, rfl, rfl, rfl⟩

theorem bearing_origin_series_off {F : Type} (A : Arith F) (cfg : Compiler_config F)
    (t : Task_upload F) :
    Task_upload.bearing_origin (Task_upload.Prepare_move_series_off A cfg t)
      = Task_upload.bearing_origin t := by
  obtain ⟨_, _, _, h4, h5⟩ := Prepare_move_series_off_keeps A cfg t
  unfold Task_upload.bearing_origin
  rw [h4, h5]

/-- An undefined bearing leaves the state as it was. -/
theorem Prepare_move_heading_of_nan {F : Type} (A : Arith F) (s : Task_upload F)
    (m : Move_action F) (origin : Geodetic_tuple F)
    (horigin : Task_upload.bearing_origin s = some origin)
    (hnan : A.isnan (A.to_float (A.Bearing origin m.position)) = true) :
    Task_upload.Prepare_move_heading A s m = s := by
  unfold Task_upload.Prepare_move_heading
  rw [horigin]
  simp [hnan]

theorem Prepare_move_yaw_keeps_heading {F : Type} (A : Arith F) (cfg : Compiler_config F)
    (s : Task_upload F) (m : Move_action F) :
    (Task_upload.Prepare_move_yaw A cfg s m).1.heading_to_this_wp = s.heading_to_this_wp := by
  unfold Task_upload.Prepare_move_yaw
  cases s.current_mission_poi <;> cases s.current_mission_heading <;> dsimp only <;>
    split_ifs <;> rfl

theorem refs_of_bearing_origin {F : Type} (s : Task_upload F) (origin : Geodetic_tuple F)
    (h : Task_upload.bearing_origin s = some origin) :
    (s.last_move_action.isSome || s.takeoff_action.isSome) = true := by
  unfold Task_upload.bearing_origin at h
  cases hl : s.last_move_action
  · cases ht : s.takeoff_action
    · rw [hl, ht] at h
      simp at h
    · simp
  · simp

/-- On a copter with autoheading, no POI and no pending heading, a Move that
has a predecessor takes `heading_to_this_wp` as its heading. -/
theorem Prepare_move_yaw_autoheading {F : Type} (A : Arith F) (cfg : Compiler_config F)
    (s : Task_upload F) (m : Move_action F)
    (hrefs : (s.last_move_action.isSome || s.takeoff_action.isSome) = true)
    (hcopter : A.Is_copter cfg.vehicle_type = true) (hauto : cfg.autoheading = true)
    (hpoi : s.current_mission_poi = none) (hheading : s.current_mission_heading = none) :
    Task_upload.Prepare_move_yaw A cfg s m
      = ({ s with current_heading := s.heading_to_this_wp },
          { m with heading := s.heading_to_this_wp }) := by
  unfold Task_upload.Prepare_move_yaw
  rw [hpoi, hheading]
  dsimp only
  rw [hrefs, hcopter, hauto]
  rfl

theorem Prepare_move_heading_shape {F : Type} (A : Arith F) (s : Task_upload F)
    (m : Move_action F) :
    ∃ h : F, Task_upload.Prepare_move_heading A s m = { s with heading_to_this_wp := h } := by
  unfold Task_upload.Prepare_move_heading
  split
  · dsimp only
    split_ifs
    · exact ⟨_, rfl⟩
    · exact ⟨s.heading_to_this_wp, rfl⟩
  · exact ⟨s.heading_to_this_wp, rfl⟩

theorem Prepare_move_yaw_shape {F : Type} (A : Arith F) (cfg : Compiler_config F)
    (s : Task_upload F) (m : Move_action F) (hpoi : s.current_mission_poi = none) :
    ∃ (h : F) (m2 : Move_action F),
      Task_upload.Prepare_move_yaw A cfg s m = ({ s with current_heading := h }, m2) := by
  unfold Task_upload.Prepare_move_yaw
  rw [hpoi]
  cases s.current_mission_heading <;> dsimp only <;> split_ifs <;> exact ⟨_, _, rfl⟩

/-- Without an active POI, `Prepare_move` appends one waypoint item to what
its first part leaves, and leaves the camera series flags as its first
part sets them. -/
theorem Prepare_move_no_poi {F : Type} (A : Arith F) (cfg : Compiler_config F)
    (t : Task_upload F) (m : Move_action F) (hpoi : t.current_mission_poi = none) :
    ∃ item : Mission_item F, item.command = MAV_CMD_NAV_WAYPOINT
      ∧ (Task_upload.Prepare_move A cfg t m).1.prepared_actions
          = (Task_upload.Prepare_move_series_off A cfg t).prepared_actions ++ [item]
      ∧ (Task_upload.Prepare_move A cfg t m).1.camera_series_by_dist_active
          = (Task_upload.Prepare_move_series_off A cfg t).camera_series_by_dist_active
      ∧ (Task_upload.Prepare_move A cfg t m).1.camera_series_by_dist_active_in_wp = false
      ∧ (Task_upload.Prepare_move A cfg t m).1.camera_series_by_time_active
          = (Task_upload.Prepare_move_series_off A cfg t).camera_series_by_time_active
      ∧ (Task_upload.Prepare_move A cfg t m).1.camera_series_by_time_active_in_wp = false
      ∧ (Task_upload.Prepare_move A cfg t m).1.current_mission_poi = none := by
  obtain ⟨_, k2, _, _, _⟩ := Prepare_move_series_off_keeps A cfg t
  obtain ⟨h1, e1⟩ := Prepare_move_heading_shape A (Task_upload.Prepare_move_series_off A cfg t) m
  obtain ⟨h2, m2, e2⟩ := Prepare_move_yaw_shape A cfg
    { Task_upload.Prepare_move_series_off A cfg t with heading_to_this_wp := h1 } m
    (by rw [← hpoi, ← k2])
  have f1 : (Task_upload.Prepare_move_series_off A cfg t).camera_series_by_dist_active_in_wp
      = false := rfl
  have f2 : (Task_upload.Prepare_move_series_off A cfg t).camera_series_by_time_active_in_wp
      = false := rfl
  unfold Task_upload.Prepare_move
  dsimp only
  rw [e1, e2]
  dsimp only [Task_upload.Add_mission_item]
  refine ⟨_, ?_, rfl, rfl, f1, rfl, f2, by rw [k2, hpoi]⟩
  unfold Task_upload.Fill_mavlink_mission_item_common
  dsimp only
  split_ifs <;> rfl

theorem Prepare_move_series_off_in_wp {F : Type} (A : Arith F) (cfg : Compiler_config F)
    (t : Task_upload F) (h1 : t.camera_series_by_dist_active_in_wp = true)
    (h2 : t.camera_series_by_time_active = false) :
    (Task_upload.Prepare_move_series_off A cfg t).prepared_actions = t.prepared_actions
    ∧ (Task_upload.Prepare_move_series_off A cfg t).camera_series_by_dist_active
        = t.camera_series_by_dist_active
    ∧ (Task_upload.Prepare_move_series_off A cfg t).camera_series_by_time_active = false := by
  unfold Task_upload.Prepare_move_series_off
  simp [h1, h2]

theorem Prepare_move_series_off_stop {F : Type} (A : Arith F) (cfg : Compiler_config F)
    (t : Task_upload F) (h1 : t.camera_series_by_dist_active_in_wp = false)
    (h2 : t.camera_series_by_dist_active = true)
    (h3 : t.camera_series_by_time_active = false) :
    ∃ item : Mission_item F, item.command = MAV_CMD_DO_SET_CAM_TRIGG_DIST
      ∧ item.param1 = A.Create.param1
      ∧ (Task_upload.Prepare_move_series_off A cfg t).prepared_actions
          = t.prepared_actions ++ [item]
      ∧ (Task_upload.Prepare_move_series_off A cfg t).camera_series_by_dist_active = false
      ∧ (Task_upload.Prepare_move_series_off A cfg t).camera_series_by_time_active = false := by
  refine ⟨Task_upload.Fill_mavlink_mission_item_common A
    { t with camera_series_by_dist_active := false }
    { A.Create with command := MAV_CMD_DO_SET_CAM_TRIGG_DIST }, rfl, rfl, ?_⟩
  unfold Task_upload.Prepare_move_series_off
  simp [h1, h2, h3, Task_upload.Add_mission_item]

/-- The items of a distance series start followed by two Moves, from a state
with no items, no series and no POI. -/
theorem series_then_two_moves_items {F : Type} (A : Arith F) (cfg : Compiler_config F)
    (t : Task_upload F) (interval : F) (m1 m2 : Move_action F)
    (hitems : t.prepared_actions = []) (hpoi : t.current_mission_poi = none)
    (htime : t.camera_series_by_time_active = false) :
    ∃ i0 i1 i2 i3 : Mission_item F,
      (Task_upload.Prepare_actions A cfg t
        [Action.CAMERA_SERIES_BY_DISTANCE interval, Action.MOVE m1,
          Action.MOVE m2]).1.prepared_actions = [i0, i1, i2, i3]
      ∧ i0.command = MAV_CMD_DO_SET_CAM_TRIGG_DIST ∧ i0.param1 = interval
      ∧ i1.command = MAV_CMD_NAV_WAYPOINT
      ∧ i2.command = MAV_CMD_DO_SET_CAM_TRIGG_DIST ∧ i2.param1 = A.Create.param1
      ∧ i3.command = MAV_CMD_NAV_WAYPOINT := by
  obtain ⟨i1, c1, p1, a1, w1, ta1, tw1, poi1⟩ := Prepare_move_no_poi A cfg
    (Task_upload.Prepare_camera_series_by_distance A t interval) m1 hpoi
  obtain ⟨q1, q2, q3⟩ := Prepare_move_series_off_in_wp A cfg
    (Task_upload.Prepare_camera_series_by_distance A t interval) rfl htime
  obtain ⟨i3, c3, p3, _, _, _, _, _⟩ := Prepare_move_no_poi A cfg
    (Task_upload.Prepare_move A cfg
      (Task_upload.Prepare_camera_series_by_distance A t interval) m1).1 m2 poi1
  obtain ⟨i2, c2, d2, p2, _, _⟩ := Prepare_move_series_off_stop A cfg
    (Task_upload.Prepare_move A cfg
      (Task_upload.Prepare_camera_series_by_distance A t interval) m1).1 w1
    (by rw [a1, q2]; rfl) (by rw [ta1, q3])
  refine ⟨Task_upload.Fill_mavlink_mission_item_common A t
    { A.Create with command := MAV_CMD_DO_SET_CAM_TRIGG_DIST, param1 := interval },
    i1, i2, i3, ?_, rfl, rfl, c1, c2, d2, c3⟩
  show (Task_upload.Prepare_move A cfg (Task_upload.Prepare_move A cfg
      (Task_upload.Prepare_camera_series_by_distance A t interval) m1).1 m2).1.prepared_actions
    = _
  rw [p3, p2, p1, q1]
  show (t.prepared_actions ++ [_]) ++ [i1] ++ [i2] ++ [i3] = _
  rw [hitems]
  rfl

/-- The items `Prepare_camera_mode` appends. -/
theorem Prepare_camera_mode_items {F : Type} (A : Arith F) (cfg : Compiler_config F)
    (t : Task_upload F) (mode : Nat) :
    (Task_upload.Prepare_camera_mode A cfg t mode).last_move_action = t.last_move_action
    ∧ ∃ new : List (Mission_item F),
      (Task_upload.Prepare_camera_mode A cfg t mode).prepared_actions
        = t.prepared_actions ++ new
      ∧ new.map (fun item => item.command) = camera_mode_commands t mode
      ∧ (∀ item ∈ new, item.command = MAV_CMD_NAV_WAYPOINT → item.param1 = A.of_int 3)
      ∧ (∀ item ∈ new, item.command = MAV_CMD_SET_CAMERA_MODE →
          item.param2 = A.of_int mode) := by
  by_cases h : t.current_camera_mode = some mode
  · have he : Task_upload.Prepare_camera_mode A cfg t mode = t := by
      unfold Task_upload.Prepare_camera_mode
      simp [h]
    rw [he]
    exact ⟨rfl, [], by simp, by simp [camera_mode_commands, h], by simp, by simp⟩
  · have hc : (t.current_camera_mode.isNone || t.current_camera_mode != some mode) = true := by
      cases hm : t.current_camera_mode with
      | none => rfl
      | some m =>
        rw [hm] at h
        simpa using h
    cases hl : t.last_move_action with
    | none =>
      refine ⟨?_, [Task_upload.Fill_mavlink_mission_item_common A t
        { A.Create with
          target_system := cfg.real_system_id
          target_component := cfg.camera_component_id
          command := MAV_CMD_SET_CAMERA_MODE
          param1 := A.of_int 0
          param2 := A.of_int mode }], ?_, ?_, ?_, ?_⟩
      · simp [Task_upload.Prepare_camera_mode, hc, Task_upload.Prepare_wait,
          Task_upload.Add_mission_item, hl]
      · simp [Task_upload.Prepare_camera_mode, hc, Task_upload.Prepare_wait,
          Task_upload.Add_mission_item, hl]
      · simp [camera_mode_commands, h, hl, Task_upload.Fill_mavlink_mission_item_common]
      · simp [Task_upload.Fill_mavlink_mission_item_common, MAV_CMD_SET_CAMERA_MODE,
          MAV_CMD_NAV_WAYPOINT]
      · simp [Task_upload.Fill_mavlink_mission_item_common]
    | some m =>
      refine ⟨?_, ?_⟩
      · simp [Task_upload.Prepare_camera_mode, hc, Task_upload.Prepare_wait,
          Task_upload.Add_mission_item, hl]
      · refine ⟨(Task_upload.Prepare_camera_mode A cfg t mode).prepared_actions.drop
          t.prepared_actions.length, ?_, ?_, ?_, ?_⟩
        · simp [Task_upload.Prepare_camera_mode, hc, Task_upload.Prepare_wait,
            Task_upload.Add_mission_item, hl]
        · simp [Task_upload.Prepare_camera_mode, hc, Task_upload.Prepare_wait,
            Task_upload.Add_mission_item, hl, camera_mode_commands, h,
            Task_upload.Fill_mavlink_mission_item_common, Task_upload.Build_wp_mission_item,
            Task_upload.Fill_mavlink_mission_item_coords]
          split_ifs <;> rfl
        · simp [Task_upload.Prepare_camera_mode, hc, Task_upload.Prepare_wait,
            Task_upload.Add_mission_item, hl,
            Task_upload.Fill_mavlink_mission_item_common, Task_upload.Build_wp_mission_item,
            Task_upload.Fill_mavlink_mission_item_coords, MAV_CMD_SET_CAMERA_MODE,
            MAV_CMD_NAV_WAYPOINT]
        · simp [Task_upload.Prepare_camera_mode, hc, Task_upload.Prepare_wait,
            Task_upload.Add_mission_item, hl,
            Task_upload.Fill_mavlink_mission_item_common, Task_upload.Build_wp_mission_item,
            Task_upload.Fill_mavlink_mission_item_coords, MAV_CMD_SET_CAMERA_MODE,
            MAV_CMD_NAV_WAYPOINT]
          split_ifs <;> simp

/-- The copter filtering pass keeps every action and folds the speeds of the
ChangeSpeed actions into `max_mission_speed`. -/
theorem Filter_copter_actions_fold {F : Type} (A : Arith F) :
    ∀ (actions : List (Action F)) (t : Task_upload F),
      (Task_upload.Filter_copter_actions A t actions).1.max_mission_speed
        = actions.foldl
            (fun m action =>
              match action with
              | Action.CHANGE_SPEED speed => if A.lt m speed then speed else m
              | _ => m)
            t.max_mission_speed
      ∧ (Task_upload.Filter_copter_actions A t actions).2 = actions := by
  intro actions
  induction actions with
  | nil => intro t; exact ⟨rfl, rfl⟩
  | cons action rest ih =>
    intro t
    unfold Task_upload.Filter_copter_actions
    dsimp only
    rw [(ih _).1, (ih _).2, List.foldl_cons]
    refine ⟨?_, rfl⟩
    congr 1
    cases action <;> try rfl
    rename_i speed
    dsimp only
    split_ifs <;> rfl

/-- The pass for a fixed wing and for a ground vehicle leaves
`max_mission_speed` alone. -/
theorem Filter_actions_plane_rover_speed {F : Type} (A : Arith F) (cfg : Compiler_config F)
    (t : Task_upload F)
    (hty : cfg.vehicle_type = Vehicle_type.FIXED_WING
      ∨ cfg.vehicle_type = Vehicle_type.GROUND) :
    (Task_upload.Filter_actions A cfg t).max_mission_speed = t.max_mission_speed := by
  unfold Task_upload.Filter_actions
  rcases hty with h | h <;> rw [h]

theorem Filter_actions_copter_speed {F : Type} (A : Arith F) (cfg : Compiler_config F)
    (t : Task_upload F)
    (hty : cfg.vehicle_type = Vehicle_type.HELICOPTER
      ∨ cfg.vehicle_type = Vehicle_type.MULTICOPTER
      ∨ cfg.vehicle_type = Vehicle_type.VTOL) :
    (Task_upload.Filter_actions A cfg t).max_mission_speed
      = (Task_upload.Filter_copter_actions A t t.request.actions).1.max_mission_speed := by
  unfold Task_upload.Filter_actions
  rcases hty with h | h | h <;> rw [h]

/-- What `Enable` leaves in `max_mission_speed` when it does not refuse the
request: the value after the filtering pass on the clean state, clamped. -/
theorem Enable_prepare_speed {F : Type} (A : Arith F) (cfg : Compiler_config F)
    (t : Task_upload F) (request : Task_request F)
    (hok : (Task_upload.Enable_prepare A cfg t request).2 = true) :
    ∃ request2 : Task_request F, request2.actions = request.actions
      ∧ (Task_upload.Enable_prepare A cfg t request).1.max_mission_speed
        = clamp_to_ceiling A
            (Task_upload.Filter_actions A cfg
              { Task_upload.Enable_clean_state A t with request := request2 }
            ).max_mission_speed := by
  unfold Task_upload.Enable_prepare at hok ⊢
  dsimp only at hok ⊢
  split at hok
  · simp at hok
  · rename_i hc
    rw [if_neg hc]
    refine ⟨if (!request.return_native_route) = true then
        match cfg.home_altitude_amsl with
        | some hl => { request with takeoff_altitude := hl }
        | none => request
      else request, ?_, ?_⟩
    · split_ifs
      · cases cfg.home_altitude_amsl <;> rfl
      · rfl
    · dsimp only
      unfold clamp_to_ceiling
      split_ifs <;> rfl

/-- The capability update writes the command flags only. -/
theorem Update_capability_states_vehicle (i : Option Control_mode) (v : Reported_vehicle) :
    (Reported_vehicle.Update_capability_states i v).toVehicle = v.toVehicle
    ∧ (Reported_vehicle.Update_capability_states i v).t_flight_mode = v.t_flight_mode
    ∧ (Reported_vehicle.Update_capability_states i v).current_flight_mode
        = v.current_flight_mode
    ∧ (Reported_vehicle.Update_capability_states i v).native_flight_mode
        = v.native_flight_mode :=
  ⟨rfl, rfl, rfl, rfl⟩

/-- The decoding of a changed custom mode, before the joystick override. -/
theorem Decode_native_flight_mode_modes (v : Reported_vehicle) (new_mode : Nat) :
    ((Reported_vehicle.Decode_native_flight_mode v new_mode).control_mode,
        (Reported_vehicle.Decode_native_flight_mode v new_mode).current_flight_mode)
      = decode_custom_mode (Px4_custom_mode.main_mode new_mode)
          (Px4_custom_mode.sub_mode new_mode) false
    ∧ (Reported_vehicle.Decode_native_flight_mode v new_mode).native_flight_mode = new_mode
    ∧ (Reported_vehicle.Decode_native_flight_mode v new_mode).direct_vehicle_control
        = v.direct_vehicle_control := by
  unfold Reported_vehicle.Decode_native_flight_mode decode_custom_mode
  simp only [Bool.false_eq_true, if_false]
  split_ifs <;> exact ⟨rfl, rfl, rfl⟩

/-- The modes reported after a valid heartbeat, in terms of the state left
by the decoding branch: the joystick override applies to its control mode,
and the flight mode is its stored flight mode. -/
theorem Process_heartbeat_modes (i : Option Control_mode) (v : Reported_vehicle)
    (custom_mode : Nat) :
    ∃ w : Reported_vehicle,
      w = (if v.has_mode_flag MAV_MODE_FLAG_CUSTOM_MODE_ENABLED then
            if v.native_flight_mode != custom_mode % 2 ^ 32 then
              Reported_vehicle.Decode_native_flight_mode v (custom_mode % 2 ^ 32)
            else v
          else if v.has_mode_flag MAV_MODE_FLAG_AUTO_ENABLED then
            if v.is_armed then { v with control_mode := some Control_mode.AUTO }
            else { v with control_mode := some Control_mode.MANUAL }
          else if v.has_mode_flag MAV_MODE_FLAG_MANUAL_INPUT_ENABLED then
            { v with control_mode := some Control_mode.AUTO }
          else if v.has_mode_flag MAV_MODE_FLAG_GUIDED_ENABLED then
            { v with control_mode := some Control_mode.CLICK_GO }
          else { v with control_mode := none })
      ∧ (Reported_vehicle.Process_heartbeat i v true custom_mode).control_mode
          = (if w.control_mode = some Control_mode.MANUAL ∧ w.direct_vehicle_control.isSome
              then some Control_mode.JOYSTICK else w.control_mode)
      ∧ (Reported_vehicle.Process_heartbeat i v true custom_mode).t_flight_mode
          = w.current_flight_mode
      ∧ (Reported_vehicle.Process_heartbeat i v true custom_mode).native_flight_mode
          = w.native_flight_mode := by
  refine ⟨_, rfl, ?_, ?_, ?_⟩
  · unfold Reported_vehicle.Process_heartbeat
    simp only [Bool.not_true, Bool.false_eq_true, if_false]
    rw [(Update_capability_states_vehicle _ _).1]
    dsimp only
    generalize (if v.has_mode_flag MAV_MODE_FLAG_CUSTOM_MODE_ENABLED then _ else _) = w
    simp only [Reported_vehicle.Is_control_mode, Bool.and_eq_true, beq_iff_eq]
    split_ifs <;> rfl
  · unfold Reported_vehicle.Process_heartbeat
    simp only [Bool.not_true, Bool.false_eq_true, if_false]
    rw [(Update_capability_states_vehicle _ _).2.1]
    dsimp only
    generalize (if v.has_mode_flag MAV_MODE_FLAG_CUSTOM_MODE_ENABLED then _ else _) = w
    split_ifs <;> rfl
  · unfold Reported_vehicle.Process_heartbeat
    simp only [Bool.not_true, Bool.false_eq_true, if_false]
    rw [(Update_capability_states_vehicle _ _).2.2.2]
    dsimp only
    generalize (if v.has_mode_flag MAV_MODE_FLAG_CUSTOM_MODE_ENABLED then _ else _) = w
    split_ifs <;> rfl

/-- The items of a camera trigger action with a discovered camera device
(`camera_trigger_type` not the servo fallback 1, and 0 for the recording
states ON and OFF), in this order: a SET_CAMERA_MODE item for the required
mode exactly when that mode is not the current camera mode; after it the
waypoint item of the three second wait (param1 = 3) when moreover the
last-move reference is set; and in every case the capture item.  A time
series action does the same with the image mode and IMAGE_START_CAPTURE. -/
theorem Prepare_camera_trigger_items {F : Type} (A : Arith F) (cfg : Compiler_config F)
    (t : Task_upload F) (state : Camera_trigger_state) (interval : Int)
    (hcam : cfg.camera_trigger_type ≠ 1)
    (hrec : state = Camera_trigger_state.ON ∨ state = Camera_trigger_state.OFF →
      cfg.camera_trigger_type = 0) :
    (∃ new : List (Mission_item F),
      (Task_upload.Prepare_camera_trigger A cfg t state interval).prepared_actions
        = t.prepared_actions ++ new
      ∧ new.map (fun item => item.command)
        = camera_mode_commands t (required_camera_mode state) ++ [capture_command state]
      ∧ (∀ item ∈ new, item.command = MAV_CMD_NAV_WAYPOINT → item.param1 = A.of_int 3)
      ∧ (∀ item ∈ new, item.command = MAV_CMD_SET_CAMERA_MODE →
          item.param2 = A.of_int (required_camera_mode state)))
    ∧ (∃ new : List (Mission_item F),
      (Task_upload.Prepare_camera_series_by_time A cfg t interval).prepared_actions
        = t.prepared_actions ++ new
      ∧ new.map (fun item => item.command)
        = camera_mode_commands t CAMERA_MODE_IMAGE ++ [MAV_CMD_IMAGE_START_CAPTURE]
      ∧ (∀ item ∈ new, item.command = MAV_CMD_NAV_WAYPOINT → item.param1 = A.of_int 3)
      ∧ (∀ item ∈ new, item.command = MAV_CMD_SET_CAMERA_MODE →
          item.param2 = A.of_int CAMERA_MODE_IMAGE)) := by
  have himage : ∀ (multiply_photos : Bool) (seconds : F),
      ∃ new : List (Mission_item F),
        (Task_upload.Prepare_camera_trigger_impl A cfg t multiply_photos seconds
          ).prepared_actions = t.prepared_actions ++ new
        ∧ new.map (fun item => item.command)
          = camera_mode_commands t CAMERA_MODE_IMAGE ++ [MAV_CMD_IMAGE_START_CAPTURE]
        ∧ (∀ item ∈ new, item.command = MAV_CMD_NAV_WAYPOINT → item.param1 = A.of_int 3)
        ∧ (∀ item ∈ new, item.command = MAV_CMD_SET_CAMERA_MODE →
            item.param2 = A.of_int CAMERA_MODE_IMAGE) := by
    intro multiply_photos seconds
    obtain ⟨_, new, e, c, w, m⟩ := Prepare_camera_mode_items A cfg t CAMERA_MODE_IMAGE
    refine ⟨new ++ [Task_upload.Fill_mavlink_mission_item_common A
      (Task_upload.Prepare_camera_mode A cfg t CAMERA_MODE_IMAGE)
      { A.Create with
        target_system := cfg.real_system_id
        target_component := cfg.camera_component_id
        command := MAV_CMD_IMAGE_START_CAPTURE
        param1 := A.of_int 0
        param2 := seconds
        param3 := if multiply_photos then A.of_int 0 else A.of_int 1 }], ?_, ?_, ?_, ?_⟩
    · unfold Task_upload.Prepare_camera_trigger_impl
      rw [if_neg hcam]
      dsimp only [Task_upload.Add_mission_item]
      rw [e, List.append_assoc]
    · rw [List.map_append, c]
      rfl
    · intro item hitem hcmd
      rcases List.mem_append.1 hitem with h | h
      · exact w item h hcmd
      · rw [List.mem_singleton.1 h] at hcmd
        simp [Task_upload.Fill_mavlink_mission_item_common, MAV_CMD_IMAGE_START_CAPTURE,
          MAV_CMD_NAV_WAYPOINT, MAV_CMD_SET_CAMERA_MODE, MAV_CMD_VIDEO_START_CAPTURE,
          MAV_CMD_VIDEO_STOP_CAPTURE] at hcmd
    · intro item hitem hcmd
      rcases List.mem_append.1 hitem with h | h
      · exact m item h hcmd
      · rw [List.mem_singleton.1 h] at hcmd
        simp [Task_upload.Fill_mavlink_mission_item_common, MAV_CMD_IMAGE_START_CAPTURE,
          MAV_CMD_NAV_WAYPOINT, MAV_CMD_SET_CAMERA_MODE, MAV_CMD_VIDEO_START_CAPTURE,
          MAV_CMD_VIDEO_STOP_CAPTURE] at hcmd
  have hvideo : ∀ start_recording : Bool,
      ∃ new : List (Mission_item F),
        (Task_upload.Prepare_camera_recording_impl A cfg t start_recording
          ).prepared_actions = t.prepared_actions ++ new
        ∧ new.map (fun item => item.command)
          = camera_mode_commands t CAMERA_MODE_VIDEO
            ++ [if start_recording then MAV_CMD_VIDEO_START_CAPTURE
                else MAV_CMD_VIDEO_STOP_CAPTURE]
        ∧ (∀ item ∈ new, item.command = MAV_CMD_NAV_WAYPOINT → item.param1 = A.of_int 3)
        ∧ (∀ item ∈ new, item.command = MAV_CMD_SET_CAMERA_MODE →
            item.param2 = A.of_int CAMERA_MODE_VIDEO) := by
    intro start_recording
    obtain ⟨_, new, e, c, w, m⟩ := Prepare_camera_mode_items A cfg t CAMERA_MODE_VIDEO
    refine ⟨(Task_upload.Prepare_camera_recording_impl A cfg t start_recording
      ).prepared_actions.drop t.prepared_actions.length, ?_, ?_, ?_, ?_⟩
    · unfold Task_upload.Prepare_camera_recording_impl
      dsimp only [Task_upload.Add_mission_item]
      rw [e, List.append_assoc, List.drop_left]
    · unfold Task_upload.Prepare_camera_recording_impl
      dsimp only [Task_upload.Add_mission_item]
      rw [e, List.append_assoc, List.drop_left, List.map_append, c]
      cases start_recording <;> rfl
    · unfold Task_upload.Prepare_camera_recording_impl
      dsimp only [Task_upload.Add_mission_item]
      rw [e, List.append_assoc, List.drop_left]
      intro item hitem hcmd
      rcases List.mem_append.1 hitem with h | h
      · exact w item h hcmd
      · rw [List.mem_singleton.1 h] at hcmd
        cases start_recording <;>
        simp [Task_upload.Fill_mavlink_mission_item_common, MAV_CMD_IMAGE_START_CAPTURE,
          MAV_CMD_NAV_WAYPOINT, MAV_CMD_SET_CAMERA_MODE, MAV_CMD_VIDEO_START_CAPTURE,
          MAV_CMD_VIDEO_STOP_CAPTURE] at hcmd
    · unfold Task_upload.Prepare_camera_recording_impl
      dsimp only [Task_upload.Add_mission_item]
      rw [e, List.append_assoc, List.drop_left]
      intro item hitem hcmd
      rcases List.mem_append.1 hitem with h | h
      · exact m item h hcmd
      · rw [List.mem_singleton.1 h] at hcmd
        cases start_recording <;>
        simp [Task_upload.Fill_mavlink_mission_item_common, MAV_CMD_IMAGE_START_CAPTURE,
          MAV_CMD_NAV_WAYPOINT, MAV_CMD_SET_CAMERA_MODE, MAV_CMD_VIDEO_START_CAPTURE,
          MAV_CMD_VIDEO_STOP_CAPTURE] at hcmd
  refine ⟨?_, himage true (A.of_ms interval)⟩
  cases state with
  | SINGLE_PHOTO => exact himage false A.camera_trigger_default_interval
  | SERIAL_PHOTO => exact himage true (A.of_ms interval)
  | OFF =>
    have h0 := hrec (Or.inr rfl)
    simp only [Task_upload.Prepare_camera_trigger, h0, if_true]
    exact hvideo false
  | ON =>
    have h0 := hrec (Or.inl rfl)
    simp only [Task_upload.Prepare_camera_trigger, h0, if_true]
    exact hvideo true

/-- The items and flags the first part of `Prepare_move` leaves: a distance
series stop when the series is active and was not started since the
previous Move, then a time series stop under the same condition on the time
series. -/
theorem Prepare_move_series_off_items {F : Type} (A : Arith F) (cfg : Compiler_config F)
    (t : Task_upload F) :
    (Task_upload.Prepare_move_series_off A cfg t).camera_series_by_dist_active
      = (t.camera_series_by_dist_active && t.camera_series_by_dist_active_in_wp)
    ∧ (Task_upload.Prepare_move_series_off A cfg t).camera_series_by_dist_active_in_wp = false
    ∧ ∃ dist_stop time_stop : List (Mission_item F),
      (Task_upload.Prepare_move_series_off A cfg t).prepared_actions
        = t.prepared_actions ++ dist_stop ++ time_stop
      ∧ (t.camera_series_by_dist_active = true → t.camera_series_by_dist_active_in_wp = false →
          ∃ stop : Mission_item F, dist_stop = [stop]
            ∧ stop.command = MAV_CMD_DO_SET_CAM_TRIGG_DIST
            ∧ stop.param1 = A.Create.param1)
      ∧ (¬ (t.camera_series_by_dist_active = true
            ∧ t.camera_series_by_dist_active_in_wp = false) → dist_stop = [])
      ∧ (∀ item ∈ time_stop, item.command = MAV_CMD_DO_REPEAT_SERVO
          ∨ item.command = MAV_CMD_IMAGE_STOP_CAPTURE)
      ∧ (¬ (t.camera_series_by_time_active = true
            ∧ t.camera_series_by_time_active_in_wp = false) → time_stop = []) := by
  refine ⟨?_, rfl, ?_⟩
  · cases hd : t.camera_series_by_dist_active <;>
      cases hdw : t.camera_series_by_dist_active_in_wp <;>
      cases ht : t.camera_series_by_time_active <;>
      cases htw : t.camera_series_by_time_active_in_wp <;>
      simp [Task_upload.Prepare_move_series_off, hd, hdw, ht, htw,
        Task_upload.Add_mission_item]
  · cases hd : t.camera_series_by_dist_active <;>
      cases hdw : t.camera_series_by_dist_active_in_wp <;>
      cases ht : t.camera_series_by_time_active <;>
      cases htw : t.camera_series_by_time_active_in_wp
    all_goals
      refine ⟨((Task_upload.Prepare_move_series_off A cfg t).prepared_actions.drop
          t.prepared_actions.length).filter
          (fun item => item.command == MAV_CMD_DO_SET_CAM_TRIGG_DIST),
        ((Task_upload.Prepare_move_series_off A cfg t).prepared_actions.drop
          t.prepared_actions.length).filter
          (fun item => item.command != MAV_CMD_DO_SET_CAM_TRIGG_DIST), ?_⟩
      unfold Task_upload.Prepare_move_series_off
      simp [hd, hdw, ht, htw, Task_upload.Add_mission_item,
        Task_upload.Fill_mavlink_mission_item_common, MAV_CMD_DO_SET_CAM_TRIGG_DIST,
        MAV_CMD_DO_REPEAT_SERVO, MAV_CMD_IMAGE_STOP_CAPTURE]
    all_goals try (split_ifs <;> simp)

/-- The third part of `Prepare_move` appends at most an automatic POI item
and leaves the distance series flags alone. -/
theorem Prepare_move_yaw_items {F : Type} (A : Arith F) (cfg : Compiler_config F)
    (s : Task_upload F) (m : Move_action F) :
    ∃ roi : List (Mission_item F),
      (Task_upload.Prepare_move_yaw A cfg s m).1.prepared_actions = s.prepared_actions ++ roi
      ∧ (∀ item ∈ roi, item.command = MAV_CMD_DO_SET_ROI_LOCATION)
      ∧ (s.current_mission_poi = none → roi = [])
      ∧ (Task_upload.Prepare_move_yaw A cfg s m).1.camera_series_by_dist_active
        = s.camera_series_by_dist_active
      ∧ (Task_upload.Prepare_move_yaw A cfg s m).1.camera_series_by_dist_active_in_wp
        = s.camera_series_by_dist_active_in_wp := by
  refine ⟨(Task_upload.Prepare_move_yaw A cfg s m).1.prepared_actions.drop
    s.prepared_actions.length, ?_, ?_, ?_, ?_, ?_⟩
  all_goals
    unfold Task_upload.Prepare_move_yaw
    cases hp : s.current_mission_poi <;> cases hh : s.current_mission_heading <;>
      dsimp only <;> split_ifs <;>
      simp [Task_upload.Add_mission_item, Task_upload.Fill_mavlink_mission_item_common,
        Task_upload.Build_roi_mission_item, Task_upload.Fill_mavlink_mission_item_coords]

/-- The items of a Move: what its first part leaves, then at most an
automatic POI item, then its waypoint item. -/
theorem Prepare_move_items {F : Type} (A : Arith F) (cfg : Compiler_config F)
    (t : Task_upload F) (m : Move_action F) :
    ∃ (roi : List (Mission_item F)) (wp : Mission_item F),
      (Task_upload.Prepare_move A cfg t m).1.prepared_actions
        = (Task_upload.Prepare_move_series_off A cfg t).prepared_actions ++ roi ++ [wp]
      ∧ wp.command = MAV_CMD_NAV_WAYPOINT
      ∧ (∀ item ∈ roi, item.command = MAV_CMD_DO_SET_ROI_LOCATION)
      ∧ (t.current_mission_poi = none → roi = [])
      ∧ (Task_upload.Prepare_move A cfg t m).1.camera_series_by_dist_active
        = (Task_upload.Prepare_move_series_off A cfg t).camera_series_by_dist_active
      ∧ (Task_upload.Prepare_move A cfg t m).1.camera_series_by_dist_active_in_wp = false := by
  obtain ⟨_, k2, _, _, _⟩ := Prepare_move_series_off_keeps A cfg t
  obtain ⟨h1, e1⟩ := Prepare_move_heading_shape A (Task_upload.Prepare_move_series_off A cfg t) m
  obtain ⟨roi, y1, y2, y3, y4, y5⟩ := Prepare_move_yaw_items A cfg
    { Task_upload.Prepare_move_series_off A cfg t with heading_to_this_wp := h1 } m
  have f1 : (Task_upload.Prepare_move_series_off A cfg t).camera_series_by_dist_active_in_wp
      = false := rfl
  unfold Task_upload.Prepare_move
  dsimp only
  rw [e1]
  dsimp only [Task_upload.Add_mission_item]
  rw [y1, y4, y5]
  refine ⟨roi, _, rfl, ?_, y2, fun hp => y3 (by rw [← hp, ← k2]), rfl, f1⟩
  unfold Task_upload.Fill_mavlink_mission_item_common
  dsimp only
  split_ifs <;> rfl

theorem prefix_Add_mission_item {F : Type} (A : Arith F) (t : Task_upload F)
    (mi : Mission_item F) :
    t.prepared_actions <+: (Task_upload.Add_mission_item A t mi).prepared_actions :=
  List.prefix_append _ _

theorem prefix_Prepare_wait {F : Type} (A : Arith F) (cfg : Compiler_config F)
    (t : Task_upload F) (wait_time : F) :
    t.prepared_actions <+: (Task_upload.Prepare_wait A cfg t wait_time).prepared_actions := by
  unfold Task_upload.Prepare_wait
  cases t.last_move_action
  · exact List.prefix_refl _
  · exact List.prefix_append _ _

theorem prefix_Prepare_move {F : Type} (A : Arith F) (cfg : Compiler_config F)
    (t : Task_upload F) (m : Move_action F) :
    t.prepared_actions <+: (Task_upload.Prepare_move A cfg t m).1.prepared_actions := by
  obtain ⟨_, _, dist_stop, time_stop, s3, _⟩ := Prepare_move_series_off_items A cfg t
  obtain ⟨roi, wp, m1, _⟩ := Prepare_move_items A cfg t m
  rw [m1, s3]
  simp only [List.append_assoc]
  exact List.prefix_append _ _

theorem prefix_Prepare_camera_mode {F : Type} (A : Arith F) (cfg : Compiler_config F)
    (t : Task_upload F) (mode : Nat) :
    t.prepared_actions <+: (Task_upload.Prepare_camera_mode A cfg t mode).prepared_actions := by
  obtain ⟨_, new, e, _⟩ := Prepare_camera_mode_items A cfg t mode
  rw [e]
  exact List.prefix_append _ _

theorem prefix_Prepare_camera_trigger_impl {F : Type} (A : Arith F) (cfg : Compiler_config F)
    (t : Task_upload F) (multiply_photos : Bool) (seconds : F) :
    t.prepared_actions
      <+: (Task_upload.Prepare_camera_trigger_impl A cfg t multiply_photos seconds
        ).prepared_actions := by
  unfold Task_upload.Prepare_camera_trigger_impl
  dsimp only
  by_cases h : cfg.camera_trigger_type = 1
  · rw [if_pos h]
    exact List.prefix_append _ _
  · rw [if_neg h]
    exact (prefix_Prepare_camera_mode A cfg t CAMERA_MODE_IMAGE).trans
      (List.prefix_append _ _)

theorem prefix_Prepare_camera_recording_impl {F : Type} (A : Arith F)
    (cfg : Compiler_config F) (t : Task_upload F) (start_recording : Bool) :
    t.prepared_actions
      <+: (Task_upload.Prepare_camera_recording_impl A cfg t start_recording
        ).prepared_actions := by
  unfold Task_upload.Prepare_camera_recording_impl
  exact (prefix_Prepare_camera_mode A cfg t CAMERA_MODE_VIDEO).trans (List.prefix_append _ _)

theorem prefix_Prepare_camera_trigger {F : Type} (A : Arith F) (cfg : Compiler_config F)
    (t : Task_upload F) (state : Camera_trigger_state) (interval : Int) :
    t.prepared_actions
      <+: (Task_upload.Prepare_camera_trigger A cfg t state interval).prepared_actions := by
  unfold Task_upload.Prepare_camera_trigger
  cases state <;> dsimp only
  · exact prefix_Prepare_camera_trigger_impl A cfg t _ _
  · exact prefix_Prepare_camera_trigger_impl A cfg t _ _
  · split_ifs
    · exact prefix_Prepare_camera_recording_impl A cfg t _
    · exact List.prefix_refl _
  · split_ifs
    · exact prefix_Prepare_camera_recording_impl A cfg t _
    · exact List.prefix_refl _

/-- `Prepare_action` only appends: the items emitted before stay, in place
and unchanged. -/
theorem prefix_Prepare_action {F : Type} (A : Arith F) (cfg : Compiler_config F)
    (t : Task_upload F) (action : Action F) :
    t.prepared_actions <+: (Task_upload.Prepare_action A cfg t action).1.prepared_actions := by
  cases action with
  | MOVE move => exact prefix_Prepare_move A cfg t move
  | WAIT wait_time => exact prefix_Prepare_wait A cfg t wait_time
  | PAYLOAD_STEERING => exact List.prefix_refl _
  | TAKEOFF takeoff => exact List.prefix_append _ _
  | LANDING position heading => exact List.prefix_append _ _
  | CHANGE_SPEED speed =>
    show _ <+: (Task_upload.Prepare_change_speed A t speed).prepared_actions
    unfold Task_upload.Prepare_change_speed
    split_ifs
    · exact List.prefix_refl _
    · exact List.prefix_append _ _
  | SET_HOME => exact List.prefix_refl _
  | POI position active =>
    show _ <+: (if cfg.set_poi_supported then Task_upload.Prepare_POI A t position active
      else t).prepared_actions
    unfold Task_upload.Prepare_POI
    split_ifs
    · exact List.prefix_append _ _
    · exact List.prefix_append _ _
    · exact List.prefix_refl _
  | HEADING heading =>
    show _ <+: (Task_upload.Prepare_heading A t heading).prepared_actions
    unfold Task_upload.Prepare_heading
    dsimp only
    cases t.last_move_action
    · exact List.prefix_refl _
    · exact List.prefix_append _ _
  | PANORAMA => exact List.prefix_refl _
  | CAMERA_CONTROL tilt roll yaw => exact List.prefix_append _ _
  | CAMERA_TRIGGER state interval => exact prefix_Prepare_camera_trigger A cfg t state interval
  | CAMERA_SERIES_BY_TIME interval => exact prefix_Prepare_camera_trigger_impl A cfg t _ _
  | CAMERA_SERIES_BY_DISTANCE interval => exact List.prefix_append _ _
  | VTOL_TRANSITION mode =>
    show _ <+: (Task_upload.Prepare_vtol_transition A cfg t mode).prepared_actions
    unfold Task_upload.Prepare_vtol_transition
    split_ifs
    · exact List.prefix_append _ _
    · exact List.prefix_refl _
  | OTHER => exact List.prefix_refl _

/-- The loop of `Prepare_task` is a left fold of `Prepare_action`. -/
theorem Prepare_actions_append {F : Type} (A : Arith F) (cfg : Compiler_config F) :
    ∀ (actions more : List (Action F)) (t : Task_upload F),
      (Task_upload.Prepare_actions A cfg t (actions ++ more)).1
        = (Task_upload.Prepare_actions A cfg
            (Task_upload.Prepare_actions A cfg t actions).1 more).1 := by
  intro actions
  induction actions with
  | nil => intro more t; rfl
  | cons action rest ih =>
    intro more t
    show (Task_upload.Prepare_actions A cfg (Task_upload.Prepare_action A cfg t action).1
      (rest ++ more)).1 = _
    rw [ih]
    rfl

theorem prefix_Prepare_actions {F : Type} (A : Arith F) (cfg : Compiler_config F) :
    ∀ (actions : List (Action F)) (t : Task_upload F),
      t.prepared_actions
        <+: (Task_upload.Prepare_actions A cfg t actions).1.prepared_actions := by
  intro actions
  induction actions with
  | nil => intro t; exact List.prefix_refl _
  | cons action rest ih =>
    intro t
    exact (prefix_Prepare_action A cfg t action).trans (ih _)

theorem F32.le_iff (x y : F32) :
    x.le y = true ↔ x.isNaN = false ∧ y.isNaN = false ∧ x.key ≤ y.key := by
  unfold F32.le
  cases x.isNaN <;> cases y.isNaN <;> simp

theorem F32.lt_iff (x y : F32) :
    x.lt y = true ↔ x.isNaN = false ∧ y.isNaN = false ∧ x.key < y.key := by
  unfold F32.lt
  cases x.isNaN <;> cases y.isNaN <;> simp

/-- A number whose order key is within the finite range is finite. -/
theorem F32.isFinite_of_key (x : F32)
    (hlo : -2139095039 ≤ x.key) (hhi : x.key ≤ 2139095039) : x.isFinite = true := by
  unfold F32.isFinite
  unfold F32.key at hlo hhi
  norm_num at hlo hhi ⊢
  split_ifs at hlo hhi <;> omega

theorem F32.key_consts :
    (F32.of_nat 0).key = 0 ∧ (F32.of_nat 90).neg.key = -1119092736
    ∧ (F32.of_nat 180).key = 1127481344 ∧ (F32.of_nat 180).neg.key = -1127481344
    ∧ (F32.of_nat 360).key = 1135869952 ∧ (F32.of_nat 360).neg.key = -1135869952
    ∧ (F32.of_nat 540).key = 1141309440 ∧ (F32.of_nat 540).neg.key = -1141309440 := by
  decide

theorem F32.nan_consts :
    (F32.of_nat 0).isNaN = false ∧ (F32.of_nat 90).neg.isNaN = false
    ∧ (F32.of_nat 180).isNaN = false ∧ (F32.of_nat 180).neg.isNaN = false
    ∧ (F32.of_nat 360).isNaN = false ∧ (F32.of_nat 360).neg.isNaN = false
    ∧ (F32.of_nat 540).isNaN = false ∧ (F32.of_nat 540).neg.isNaN = false := by
  decide

/-- The pitch and yaw that `Process_direct_payload_control` leaves, and the
command it queues. -/
theorem Process_direct_payload_control_fields (E : Command_arith) (v : Vehicle)
    (pitch yaw sp sy : F32)
    (hsp : sp = E.add v.payload_pitch (E.mul pitch E.DIRECT_PAYLOAD_CONTROLLING_COEF))
    (hsy : sy = E.add v.payload_yaw (E.mul yaw E.DIRECT_PAYLOAD_CONTROLLING_COEF)) :
    (v.Process_direct_payload_control E pitch yaw).payload_pitch
        = (if F32.lt (if F32.lt (F32.of_nat 0) sp then F32.of_nat 0 else sp) (F32.of_nat 90).neg
            then (F32.of_nat 90).neg
            else (if F32.lt (F32.of_nat 0) sp then F32.of_nat 0 else sp))
      ∧ (v.Process_direct_payload_control E pitch yaw).payload_yaw
        = (if F32.lt
              (if F32.lt (F32.of_nat 180) sy then E.sub sy (F32.of_nat 360) else sy)
              (F32.of_nat 180).neg
            then E.add (if F32.lt (F32.of_nat 180) sy then E.sub sy (F32.of_nat 360) else sy)
              (F32.of_nat 360)
            else (if F32.lt (F32.of_nat 180) sy then E.sub sy (F32.of_nat 360) else sy))
      ∧ (v.Process_direct_payload_control E pitch yaw).vehicle_command.cmd_messages
        = v.vehicle_command.cmd_messages
          ++ [Payload.COMMAND_LONG MAV_CMD_DO_MOUNT_CONTROL
            [(v.Process_direct_payload_control E pitch yaw).payload_pitch, F32.of_nat 0,
              (v.Process_direct_payload_control E pitch yaw).payload_yaw,
              E.unset, E.unset, E.unset, F32.of_nat MAV_MOUNT_MODE_MAVLINK_TARGETING]
            E.unset_confirmation] := by
  subst hsp hsy
  unfold Vehicle.Process_direct_payload_control Vehicle.emplace_back
  dsimp only
  refine ⟨?_, ?_, ?_⟩ <;> split_ifs <;> rfl

/-- The clamp of the pitch: a number is brought into the range from -90 to 0. -/
theorem clamp_pitch_range (s : F32) (hs : s.isNaN = false) :
    F32.le (F32.of_nat 90).neg
        (if F32.lt (if F32.lt (F32.of_nat 0) s then F32.of_nat 0 else s) (F32.of_nat 90).neg
          then (F32.of_nat 90).neg
          else (if F32.lt (F32.of_nat 0) s then F32.of_nat 0 else s)) = true
      ∧ F32.le
        (if F32.lt (if F32.lt (F32.of_nat 0) s then F32.of_nat 0 else s) (F32.of_nat 90).neg
          then (F32.of_nat 90).neg
          else (if F32.lt (F32.of_nat 0) s then F32.of_nat 0 else s))
        (F32.of_nat 0) = true := by
  obtain ⟨k0, k90, -⟩ := F32.key_consts
  obtain ⟨n0, n90, -⟩ := F32.nan_consts
  by_cases h1 : F32.lt (F32.of_nat 0) s = true
  · rw [if_pos h1]
    have h2 : ¬ F32.lt (F32.of_nat 0) (F32.of_nat 90).neg = true := by
      rw [F32.lt_iff]
      omega
    rw [if_neg h2]
    constructor <;> rw [F32.le_iff] <;> refine ⟨by assumption, by assumption, by omega⟩
  · rw [if_neg h1]
    have h1k : s.key ≤ 0 := by
      rw [F32.lt_iff] at h1
      by_contra hc
      exact h1 ⟨n0, hs, by omega⟩
    by_cases h2 : F32.lt s (F32.of_nat 90).neg = true
    · rw [if_pos h2]
      constructor <;> rw [F32.le_iff] <;> refine ⟨by assumption, by assumption, by omega⟩
    · rw [if_neg h2]
      have h2k : (F32.of_nat 90).neg.key ≤ s.key := by
        rw [F32.lt_iff] at h2
        by_contra hc
        exact h2 ⟨hs, n90, by omega⟩
      constructor <;> rw [F32.le_iff] <;> refine ⟨by assumption, by assumption, by omega⟩

theorem F32.finite_consts :
    (F32.of_nat 180).isFinite = true ∧ (F32.of_nat 180).neg.isFinite = true
    ∧ (F32.of_nat 360).isFinite = true ∧ (F32.of_nat 360).neg.isFinite = true
    ∧ (F32.of_nat 540).isFinite = true ∧ (F32.of_nat 540).neg.isFinite = true := by
  decide

/-- The wrap of the yaw: with monotone arithmetic that is exact on the
multiples of 180 involved, a yaw between -180 and 180 moved by at most 360
is brought back between -180 and 180. -/
theorem wrap_yaw_range (E : Command_arith) (hE : E.Ieee_order) (y0 dy : F32)
    (h1 : F32.le (F32.of_nat 180).neg y0 = true) (h2 : F32.le y0 (F32.of_nat 180) = true)
    (h3 : F32.le (F32.of_nat 360).neg dy = true) (h4 : F32.le dy (F32.of_nat 360) = true) :
    F32.le (F32.of_nat 180).neg
        (if F32.lt
            (if F32.lt (F32.of_nat 180) (E.add y0 dy) then E.sub (E.add y0 dy) (F32.of_nat 360)
              else E.add y0 dy)
            (F32.of_nat 180).neg
          then E.add
            (if F32.lt (F32.of_nat 180) (E.add y0 dy) then E.sub (E.add y0 dy) (F32.of_nat 360)
              else E.add y0 dy)
            (F32.of_nat 360)
          else (if F32.lt (F32.of_nat 180) (E.add y0 dy)
            then E.sub (E.add y0 dy) (F32.of_nat 360) else E.add y0 dy)) = true
      ∧ F32.le
        (if F32.lt
            (if F32.lt (F32.of_nat 180) (E.add y0 dy) then E.sub (E.add y0 dy) (F32.of_nat 360)
              else E.add y0 dy)
            (F32.of_nat 180).neg
          then E.add
            (if F32.lt (F32.of_nat 180) (E.add y0 dy) then E.sub (E.add y0 dy) (F32.of_nat 360)
              else E.add y0 dy)
            (F32.of_nat 360)
          else (if F32.lt (F32.of_nat 180) (E.add y0 dy)
            then E.sub (E.add y0 dy) (F32.of_nat 360) else E.add y0 dy))
        (F32.of_nat 180) = true := by
  obtain ⟨-, -, k180, km180, k360, km360, k540, km540⟩ := F32.key_consts
  obtain ⟨-, -, n180, nm180, n360, nm360, n540, nm540⟩ := F32.nan_consts
  obtain ⟨f180, fm180, f360, fm360, f540, fm540⟩ := F32.finite_consts
  have h1k := (F32.le_iff _ _).1 h1
  have h2k := (F32.le_iff _ _).1 h2
  have h3k := (F32.le_iff _ _).1 h3
  have h4k := (F32.le_iff _ _).1 h4
  have fy0 : y0.isFinite = true := F32.isFinite_of_key y0 (by omega) (by omega)
  have fdy : dy.isFinite = true := F32.isFinite_of_key dy (by omega) (by omega)
  have hlo : F32.le (F32.of_nat 540).neg (E.add y0 dy) = true := by
    have h := hE.add_le _ _ _ _ fm180 fm360 fy0 fdy h1 h3
    rw [hE.add_m180_m360] at h
    exact h
  have hhi : F32.le (E.add y0 dy) (F32.of_nat 540) = true := by
    have h := hE.add_le _ _ _ _ fy0 fdy f180 f360 h2 h4
    rw [hE.add_180_360] at h
    exact h
  generalize E.add y0 dy = sy at hlo hhi ⊢
  have hlok := (F32.le_iff _ _).1 hlo
  have hhik := (F32.le_iff _ _).1 hhi
  have fsy : sy.isFinite = true := F32.isFinite_of_key sy (by omega) (by omega)
  have r360 : F32.le (F32.of_nat 360) (F32.of_nat 360) = true :=
    (F32.le_iff _ _).2 ⟨n360, n360, le_refl _⟩
  by_cases c1 : F32.lt (F32.of_nat 180) sy = true
  · rw [if_pos c1]
    have c1k := (F32.lt_iff _ _).1 c1
    have hge : F32.le (F32.of_nat 180).neg (E.sub sy (F32.of_nat 360)) = true := by
      have h := hE.sub_le _ _ _ f180 fsy f360
        ((F32.le_iff _ _).2 ⟨c1k.1, c1k.2.1, by omega⟩)
      rw [hE.sub_180_360] at h
      exact h
    have hle : F32.le (E.sub sy (F32.of_nat 360)) (F32.of_nat 180) = true := by
      have h := hE.sub_le _ _ _ fsy f540 f360 hhi
      rw [hE.sub_540_360] at h
      exact h
    have c2 : ¬ F32.lt (E.sub sy (F32.of_nat 360)) (F32.of_nat 180).neg = true := by
      have hgek := (F32.le_iff _ _).1 hge
      rw [F32.lt_iff]
      omega
    rw [if_neg c2]
    exact ⟨hge, hle⟩
  · rw [if_neg c1]
    have c1k : sy.key ≤ (F32.of_nat 180).key := by
      rw [F32.lt_iff] at c1
      by_contra hc
      exact c1 ⟨n180, hlok.2.1, by omega⟩
    by_cases c2 : F32.lt sy (F32.of_nat 180).neg = true
    · rw [if_pos c2]
      have c2k := (F32.lt_iff _ _).1 c2
      constructor
      · have h := hE.add_le _ _ _ _ fm540 f360 fsy f360 hlo r360
        rw [hE.add_m540_360] at h
        exact h
      · have h := hE.add_le _ _ _ _ fsy f360 fm180 f360
          ((F32.le_iff _ _).2 ⟨c2k.1, c2k.2.1, by omega⟩) r360
        rw [hE.add_m180_360] at h
        exact h
    · rw [if_neg c2]
      have c2k : (F32.of_nat 180).neg.key ≤ sy.key := by
        rw [F32.lt_iff] at c2
        by_contra hc
        exact c2 ⟨hlok.2.1, nm180, by omega⟩
      exact ⟨(F32.le_iff _ _).2 ⟨nm180, hlok.2.1, c2k⟩, (F32.le_iff _ _).2 ⟨hlok.2.1, n180, c1k⟩⟩

theorem F32.isNaN_of_isFinite (x : F32) (h : x.isFinite = true) : x.isNaN = false := by
  unfold F32.isFinite at h
  unfold F32.isNaN
  simp only [bne_iff_ne, ne_eq] at h
  have h2 : (x.bits / 2 ^ 23 % 256 == 255) = false := by
    rw [beq_eq_false_iff_ne]
    exact h
  rw [h2]
  rfl

theorem example_grid_index_mono (a c : F32) (h : a.key ≤ c.key) :
    example_grid_index a ≤ example_grid_index c := by
  unfold example_grid_index
  split_ifs <;> omega

theorem example_grid_value_isNaN (j : Int) : (example_grid_value j).isNaN = false := by
  unfold example_grid_value
  split_ifs <;> decide

theorem example_grid_value_key (j : Int) :
    (example_grid_value j).key
      = (if j ≤ -3 then -1141309440
        else if j = -2 then -1135869952
        else if j = -1 then -1127481344
        else if j = 0 then 0
        else if j = 1 then 1127481344
        else if j = 2 then 1135869952
        else 1141309440) := by
  unfold example_grid_value
  split_ifs <;> decide

theorem example_grid_value_mono (i j : Int) (h : i ≤ j) :
    (example_grid_value i).le (example_grid_value j) = true := by
  rw [F32.le_iff]
  refine ⟨example_grid_value_isNaN i, example_grid_value_isNaN j, ?_⟩
  rw [example_grid_value_key, example_grid_value_key]
  split_ifs <;> omega

/-- The example arithmetic has the order properties of binary32 arithmetic. -/
theorem example_grid_arith_order : example_grid_arith.Ieee_order where
  coef_finite := by decide
  mul_finite := fun a _ ha _ => F32.isNaN_of_isFinite a ha
  add_finite := by
    intro a b ha hb
    have hna := F32.isNaN_of_isFinite a ha
    show (if a.isNaN || b.isNaN then (⟨2143289344⟩ : F32)
      else example_grid_value (example_grid_index a + example_grid_index b)).isNaN = false
    rw [hna, hb]
    exact example_grid_value_isNaN _
  add_le := by
    intro a b c d _ _ _ _ hac hbd
    obtain ⟨na, nc, kac⟩ := (F32.le_iff _ _).1 hac
    obtain ⟨nb, nd, kbd⟩ := (F32.le_iff _ _).1 hbd
    show F32.le
      (if a.isNaN || b.isNaN then (⟨2143289344⟩ : F32)
        else example_grid_value (example_grid_index a + example_grid_index b))
      (if c.isNaN || d.isNaN then (⟨2143289344⟩ : F32)
        else example_grid_value (example_grid_index c + example_grid_index d)) = true
    rw [na, nb, nc, nd]
    exact example_grid_value_mono _ _
      (Int.add_le_add (example_grid_index_mono a c kac) (example_grid_index_mono b d kbd))
  sub_le := by
    intro a c b _ _ hb hac
    obtain ⟨na, nc, kac⟩ := (F32.le_iff _ _).1 hac
    have nb := F32.isNaN_of_isFinite b hb
    show F32.le
      (if a.isNaN || b.isNaN then (⟨2143289344⟩ : F32)
        else example_grid_value (example_grid_index a - example_grid_index b))
      (if c.isNaN || b.isNaN then (⟨2143289344⟩ : F32)
        else example_grid_value (example_grid_index c - example_grid_index b)) = true
    rw [na, nb, nc]
    exact example_grid_value_mono _ _
      (Int.sub_le_sub_right (example_grid_index_mono a c kac) _)
  add_m180_m360 := by decide
  add_180_360 := by decide
  sub_180_360 := by decide
  sub_540_360 := by decide
  add_m540_360 := by decide
  add_m180_360 := by decide

theorem set_actions_ite {F : Type} (c : Prop) [Decidable c] (a b : Task_upload F)
    (l : List (Action F)) :
    (if c then a else b).set_actions l = if c then a.set_actions l else b.set_actions l := by
  split_ifs <;> rfl

theorem set_actions_Add_mission_item {F : Type} (A : Arith F) (t : Task_upload F)
    (l : List (Action F)) (mi : Mission_item F) :
    Task_upload.Add_mission_item A (t.set_actions l) mi
      = (Task_upload.Add_mission_item A t mi).set_actions l :=
  rfl

theorem set_actions_Prepare_wait {F : Type} (A : Arith F) (cfg : Compiler_config F)
    (t : Task_upload F) (l : List (Action F)) (wait_time : F) :
    Task_upload.Prepare_wait A cfg (t.set_actions l) wait_time
      = (Task_upload.Prepare_wait A cfg t wait_time).set_actions l := by
  obtain ⟨req, pa, ta, poi, mh, cm, fps, rmp, ch, cs, htw, da, daw, sa, saw, mms, lm, tk⟩ := t
  unfold Task_upload.Prepare_wait Task_upload.set_actions
  cases lm
  · rfl
  · dsimp only
    split_ifs <;> rfl

theorem set_actions_series_off {F : Type} (A : Arith F) (cfg : Compiler_config F)
    (t : Task_upload F) (l : List (Action F)) :
    Task_upload.Prepare_move_series_off A cfg (t.set_actions l)
      = (Task_upload.Prepare_move_series_off A cfg t).set_actions l := by
  cases hd : t.camera_series_by_dist_active <;>
    cases hdw : t.camera_series_by_dist_active_in_wp <;>
    cases ht : t.camera_series_by_time_active <;>
    cases htw : t.camera_series_by_time_active_in_wp <;>
    simp [Task_upload.Prepare_move_series_off, Task_upload.set_actions, hd, hdw, ht, htw,
      Task_upload.Add_mission_item, Task_upload.Fill_mavlink_mission_item_common]

theorem set_actions_heading {F : Type} (A : Arith F)
    (t : Task_upload F) (l : List (Action F)) (m : Move_action F) :
    Task_upload.Prepare_move_heading A (t.set_actions l) m
      = (Task_upload.Prepare_move_heading A t m).set_actions l := by
  obtain ⟨req, pa, ta, poi, mh, cm, fps, rmp, ch, cs, htw, da, daw, sa, saw, mms, lm, tk⟩ := t
  unfold Task_upload.Prepare_move_heading Task_upload.bearing_origin Task_upload.set_actions
  cases lm <;> cases tk <;> dsimp only <;>
    first | rfl | (split_ifs <;> rfl)

theorem set_actions_yaw {F : Type} (A : Arith F) (cfg : Compiler_config F)
    (t : Task_upload F) (l : List (Action F)) (m : Move_action F) :
    Task_upload.Prepare_move_yaw A cfg (t.set_actions l) m
      = ((Task_upload.Prepare_move_yaw A cfg t m).1.set_actions l,
          (Task_upload.Prepare_move_yaw A cfg t m).2) := by
  obtain ⟨req, pa, ta, poi, mh, cm, fps, rmp, ch, cs, htw, da, daw, sa, saw, mms, lm, tk⟩ := t
  unfold Task_upload.Prepare_move_yaw Task_upload.set_actions
  cases poi <;> cases mh <;> dsimp only <;>
    first | rfl | (split_ifs <;> rfl)

theorem set_actions_Prepare_move {F : Type} (A : Arith F) (cfg : Compiler_config F)
    (t : Task_upload F) (l : List (Action F)) (m : Move_action F) :
    Task_upload.Prepare_move A cfg (t.set_actions l) m
      = ((Task_upload.Prepare_move A cfg t m).1.set_actions l,
          (Task_upload.Prepare_move A cfg t m).2) := by
  unfold Task_upload.Prepare_move
  dsimp only
  rw [set_actions_series_off, set_actions_heading, set_actions_yaw]
  dsimp only
  generalize Task_upload.Prepare_move_yaw A cfg
    (Task_upload.Prepare_move_heading A (Task_upload.Prepare_move_series_off A cfg t) m) m = r
  unfold Task_upload.set_actions Task_upload.Add_mission_item
    Task_upload.Fill_mavlink_mission_item_common Task_upload.Build_wp_mission_item
    Task_upload.Fill_mavlink_mission_item_coords
  dsimp only

theorem set_actions_Prepare_camera_mode {F : Type} (A : Arith F) (cfg : Compiler_config F)
    (t : Task_upload F) (l : List (Action F)) (mode : Nat) :
    Task_upload.Prepare_camera_mode A cfg (t.set_actions l) mode
      = (Task_upload.Prepare_camera_mode A cfg t mode).set_actions l := by
  unfold Task_upload.Prepare_camera_mode
  rw [set_actions_ite]
  dsimp only
  rw [← set_actions_Prepare_wait]
  rfl

theorem set_actions_Prepare_camera_trigger_impl {F : Type} (A : Arith F)
    (cfg : Compiler_config F) (t : Task_upload F) (l : List (Action F))
    (multiply_photos : Bool) (seconds : F) :
    Task_upload.Prepare_camera_trigger_impl A cfg (t.set_actions l) multiply_photos seconds
      = (Task_upload.Prepare_camera_trigger_impl A cfg t multiply_photos seconds
        ).set_actions l := by
  unfold Task_upload.Prepare_camera_trigger_impl
  dsimp only
  by_cases h : cfg.camera_trigger_type = 1
  · rw [if_pos h, if_pos h]
    rfl
  · rw [if_neg h, if_neg h, set_actions_Prepare_camera_mode]
    rfl

theorem set_actions_Prepare_camera_recording_impl {F : Type} (A : Arith F)
    (cfg : Compiler_config F) (t : Task_upload F) (l : List (Action F))
    (start_recording : Bool) :
    Task_upload.Prepare_camera_recording_impl A cfg (t.set_actions l) start_recording
      = (Task_upload.Prepare_camera_recording_impl A cfg t start_recording).set_actions l := by
  unfold Task_upload.Prepare_camera_recording_impl
  dsimp only
  rw [set_actions_Prepare_camera_mode]
  rfl

theorem set_actions_Prepare_change_speed {F : Type} (A : Arith F) (t : Task_upload F)
    (l : List (Action F)) (speed : F) :
    Task_upload.Prepare_change_speed A (t.set_actions l) speed
      = (Task_upload.Prepare_change_speed A t speed).set_actions l := by
  unfold Task_upload.Prepare_change_speed
  rw [set_actions_ite]
  rfl

theorem set_actions_Prepare_POI {F : Type} (A : Arith F) (t : Task_upload F)
    (l : List (Action F)) (position : Geodetic_tuple F) (active : Bool) :
    Task_upload.Prepare_POI A (t.set_actions l) position active
      = (Task_upload.Prepare_POI A t position active).set_actions l := by
  unfold Task_upload.Prepare_POI
  rw [set_actions_ite]
  rfl

theorem set_actions_Prepare_heading {F : Type} (A : Arith F) (t : Task_upload F)
    (l : List (Action F)) (heading : F) :
    Task_upload.Prepare_heading A (t.set_actions l) heading
      = (Task_upload.Prepare_heading A t heading).set_actions l := by
  obtain ⟨req, pa, ta, poi, mh, cm, fps, rmp, ch, cs, htw, da, daw, sa, saw, mms, lm, tk⟩ := t
  unfold Task_upload.Prepare_heading Task_upload.set_actions
  cases lm
  · rfl
  · dsimp only
    rfl

theorem set_actions_Prepare_vtol_transition {F : Type} (A : Arith F)
    (cfg : Compiler_config F) (t : Task_upload F) (l : List (Action F))
    (mode : Vtol_transition_mode) :
    Task_upload.Prepare_vtol_transition A cfg (t.set_actions l) mode
      = (Task_upload.Prepare_vtol_transition A cfg t mode).set_actions l := by
  unfold Task_upload.Prepare_vtol_transition
  rw [set_actions_ite]
  rfl

theorem set_actions_Prepare_camera_trigger {F : Type} (A : Arith F)
    (cfg : Compiler_config F) (t : Task_upload F) (l : List (Action F))
    (state : Camera_trigger_state) (interval : Int) :
    Task_upload.Prepare_camera_trigger A cfg (t.set_actions l) state interval
      = (Task_upload.Prepare_camera_trigger A cfg t state interval).set_actions l := by
  unfold Task_upload.Prepare_camera_trigger
  cases state <;> dsimp only
  · rw [set_actions_Prepare_camera_trigger_impl]
  · rw [set_actions_Prepare_camera_trigger_impl]
  · rw [set_actions_ite, set_actions_Prepare_camera_recording_impl]
  · rw [set_actions_ite, set_actions_Prepare_camera_recording_impl]

/-- `Prepare_action` does not read the action list of the request. -/
theorem set_actions_Prepare_action {F : Type} (A : Arith F) (cfg : Compiler_config F)
    (t : Task_upload F) (l : List (Action F)) (action : Action F) :
    Task_upload.Prepare_action A cfg (t.set_actions l) action
      = ((Task_upload.Prepare_action A cfg t action).1.set_actions l,
          (Task_upload.Prepare_action A cfg t action).2) := by
  cases action with
  | MOVE move =>
    show ((Task_upload.Prepare_move A cfg (t.set_actions l) move).1,
      Action.MOVE (Task_upload.Prepare_move A cfg (t.set_actions l) move).2) = _
    rw [set_actions_Prepare_move]
    rfl
  | WAIT wait_time =>
    show (Task_upload.Prepare_wait A cfg (t.set_actions l) wait_time, _) = _
    rw [set_actions_Prepare_wait]
    rfl
  | PAYLOAD_STEERING => rfl
  | TAKEOFF takeoff => rfl
  | LANDING position heading => rfl
  | CHANGE_SPEED speed =>
    show (Task_upload.Prepare_change_speed A (t.set_actions l) speed, _) = _
    rw [set_actions_Prepare_change_speed]
    rfl
  | SET_HOME => rfl
  | POI position active =>
    show ((if cfg.set_poi_supported then Task_upload.Prepare_POI A (t.set_actions l) position
      active else t.set_actions l), _) = _
    rw [set_actions_Prepare_POI, ← set_actions_ite]
    rfl
  | HEADING heading =>
    show (Task_upload.Prepare_heading A (t.set_actions l) heading, _) = _
    rw [set_actions_Prepare_heading]
    rfl
  | PANORAMA => rfl
  | CAMERA_CONTROL tilt roll yaw => rfl
  | CAMERA_TRIGGER state interval =>
    show (Task_upload.Prepare_camera_trigger A cfg (t.set_actions l) state interval, _) = _
    rw [set_actions_Prepare_camera_trigger]
    rfl
  | CAMERA_SERIES_BY_TIME interval =>
    show (Task_upload.Prepare_camera_trigger_impl A cfg (t.set_actions l) true _, _) = _
    rw [set_actions_Prepare_camera_trigger_impl]
    rfl
  | CAMERA_SERIES_BY_DISTANCE interval => rfl
  | VTOL_TRANSITION mode =>
    show (Task_upload.Prepare_vtol_transition A cfg (t.set_actions l) mode, _) = _
    rw [set_actions_Prepare_vtol_transition]
    rfl
  | OTHER => rfl

theorem set_actions_Prepare_actions {F : Type} (A : Arith F) (cfg : Compiler_config F)
    (l : List (Action F)) :
    ∀ (actions : List (Action F)) (t : Task_upload F),
      Task_upload.Prepare_actions A cfg (t.set_actions l) actions
        = ((Task_upload.Prepare_actions A cfg t actions).1.set_actions l,
            (Task_upload.Prepare_actions A cfg t actions).2) := by
  intro actions
  induction actions with
  | nil => intro t; rfl
  | cons action rest ih =>
    intro t
    unfold Task_upload.Prepare_actions
    rw [set_actions_Prepare_action]
    dsimp only
    rw [ih]

/-- The items `Prepare_task` compiles for a request with the action list
`actions` are those of the loop `Prepare_actions` over that list, run from
the context with the item list and the two action references reset. -/
theorem Prepare_task_items {F : Type} (A : Arith F) (cfg : Compiler_config F)
    (t : Task_upload F) (actions : List (Action F)) :
    (Task_upload.Prepare_task A cfg (t.set_actions actions)).prepared_actions
      = (Task_upload.Prepare_actions A cfg
          { t with prepared_actions := [], last_move_action := none, takeoff_action := none }
          actions).1.prepared_actions := by
  have h := set_actions_Prepare_actions A cfg actions actions
    { t with prepared_actions := [], last_move_action := none, takeoff_action := none }
  have h2 := congrArg (fun r => r.1.prepared_actions) h
  exact h2

/-- On a vehicle that is not a copter `Prepare_move_yaw` leaves the Move as
it came. -/
theorem Prepare_move_yaw_not_copter {F : Type} (A : Arith F) (cfg : Compiler_config F)
    (s : Task_upload F) (m : Move_action F) (hcopter : A.Is_copter cfg.vehicle_type = false) :
    (Task_upload.Prepare_move_yaw A cfg s m).2 = m := by
  unfold Task_upload.Prepare_move_yaw
  cases s.current_mission_poi <;> cases s.current_mission_heading <;> dsimp only <;>
    (try rw [hcopter, Bool.and_false]) <;> split_ifs <;> first | rfl | contradiction

/-- On a vehicle that is not a copter `Prepare_move` leaves the Move as it
came, and the yaw of the waypoint item is the heading of the Move converted
to degrees. -/
theorem Prepare_move_not_copter {F : Type} (A : Arith F) (cfg : Compiler_config F)
    (t : Task_upload F) (m : Move_action F) (hcopter : A.Is_copter cfg.vehicle_type = false) :
    (Task_upload.Prepare_move A cfg t m).2 = m
      ∧ ∃ item : Mission_item F,
          (Task_upload.Prepare_move A cfg t m).1.prepared_actions.getLast? = some item
          ∧ item.command = MAV_CMD_NAV_WAYPOINT
          ∧ item.param4 = Task_upload.deg A m.heading := by
  have hy := Prepare_move_yaw_not_copter A cfg
    (Task_upload.Prepare_move_heading A (Task_upload.Prepare_move_series_off A cfg t) m) m
    hcopter
  unfold Task_upload.Prepare_move
  dsimp only
  rw [hy]
  refine ⟨rfl, ?_⟩
  simp only [Task_upload.Add_mission_item, List.getLast?_append, List.getLast?_singleton,
    Option.or_some]
  refine ⟨_, rfl, ?_, ?_⟩
  · split_ifs <;> rfl
  · split_ifs <;> rfl

/-- With a control mode that has a value, `Update_capability_states` does not
use what its local compares as when uninitialised: two vehicles with the
same armed flag, airborne flag, control mode and flight mode get the same
table, whatever the tables before and the uninitialised values, and a
second call changes nothing. -/
theorem Update_capability_states_known_mode (i1 i2 : Option Control_mode)
    (v1 v2 : Reported_vehicle) (mode : Control_mode)
    (hmode : v1.control_mode = some mode)
    (harmed : v1.is_armed = v2.is_armed) (hairborne : v1.is_airborne = v2.is_airborne)
    (hcontrol : v1.control_mode = v2.control_mode)
    (hflight : v1.t_flight_mode = v2.t_flight_mode) :
    (Reported_vehicle.Update_capability_states i1 v1).commands
      = (Reported_vehicle.Update_capability_states i2 v2).commands
    ∧ Reported_vehicle.Update_capability_states i2
        (Reported_vehicle.Update_capability_states i1 v1)
      = Reported_vehicle.Update_capability_states i1 v1 := by
  have hmode2 : v2.control_mode = some mode := by rw [← hcontrol, hmode]
  refine ⟨?_, ?_⟩
  · unfold Reported_vehicle.Update_capability_states Reported_vehicle.Is_control_mode
      Reported_vehicle.Is_flight_mode
    rw [← harmed, ← hairborne, ← hflight, hmode, hmode2]
  · unfold Reported_vehicle.Update_capability_states Reported_vehicle.Is_control_mode
      Reported_vehicle.Is_flight_mode
    dsimp only
    rw [hmode]

/-! ## Claims -/

/-- C1: for every non-empty command queue `Q` and `try_count >= 1`, when
every message sent is answered by its matching accept acknowledgment (one
per queue element, no timer fire in between), the dispatcher sends exactly
the elements of `Q` in their original order, the message sent after `k`
acknowledgments being `Q[k]` with `Q[k..]` still queued, and it ends with
success and an empty queue. -/
theorem C1_all_accepted_sends_queue_in_order (n : Mavlink_names) (a : Vehicle_command_act)
    (Q : List Payload) (st : Bool) (es : List Event)
    (hQ : Q ≠ []) (htry : 1 ≤ a.try_count) (hact : a.status = Status.active)
    (hes : List.Forall₂ (fun p e => matching_accept p e = true) Q es) :
    (∀ k, k < Q.length →
        (run n (Enable a Q st) (es.take k)).sent = a.sent ++ Q.take (k + 1)
        ∧ (run n (Enable a Q st) (es.take k)).status = Status.active
        ∧ (run n (Enable a Q st) (es.take k)).cmd_messages = Q.drop k)
    ∧ (run n (Enable a Q st) es).sent = a.sent ++ Q
    ∧ (run n (Enable a Q st) es).cmd_messages = []
    ∧ (run n (Enable a Q st) es).status = Status.succeeded := by
  cases Q with
  | nil => exact absurd rfl hQ
  | cons m rest =>
    have hE := Enable_cons a m rest st htry
    have h := run_all_accepted n rest m (Enable a (m :: rest) st) es
      (by simp [hE]) (by simp [hE, hact]) (by simp [hE]) hes
    obtain ⟨hpre, hsent, hqueue, hstat⟩ := h
    refine ⟨?_, ?_, hqueue, hstat⟩
    · intro k hk
      have h3 := hpre k (by simpa using hk)
      refine ⟨?_, h3.2.1, h3.2.2⟩
      rw [h3.1, hE]
      simp
    · rw [hsent, hE]
      simp

/-- C1 at a concrete queue of three messages of three different kinds. -/
theorem C1_all_accepted_witness :
    (run example_names
        (Enable (example_act 3 Px4_vendor.PX4)
          [example_arm, example_set_current, example_param_set] true)
        [Event.COMMAND_ACK 400 0, Event.MISSION_CURRENT 0,
          Event.PARAM_VALUE "MPC_XY_CRUISE" ⟨1084227584⟩]).sent
      = (example_act 3 Px4_vendor.PX4).sent
          ++ [example_arm, example_set_current, example_param_set] :=
  (C1_all_accepted_sends_queue_in_order example_names (example_act 3 Px4_vendor.PX4)
    [example_arm, example_set_current, example_param_set] true
    [Event.COMMAND_ACK 400 0, Event.MISSION_CURRENT 0,
      Event.PARAM_VALUE "MPC_XY_CRUISE" ⟨1084227584⟩]
    (by decide) (by decide) (by decide)
    (List.Forall₂.cons (by decide) (List.Forall₂.cons (by decide)
      (List.Forall₂.cons (by decide) List.Forall₂.nil)))).2.1

/-- C2: with `try_count = N >= 1`, a non-empty queue and no acknowledgment
ever received, `Enable` followed by timer fires sends the first queue
message exactly `N` times and nothing else: after `k < N` fires it has been
sent `k + 1` times and the conversation is still pending; the `N`-th fire
sends nothing and disables the conversation as a failure with the text
"Vehicle_command all attempts failed.", after which nothing is sent any
more whatever arrives. -/
theorem C2_first_message_sent_try_count_times (n : Mavlink_names)
    (a : Vehicle_command_act) (m : Payload) (rest : List Payload) (st : Bool) (N : Nat)
    (hN : 1 ≤ N) (htry : a.try_count = N) (hact : a.status = Status.active) :
    (∀ k, k < N →
        (run n (Enable a (m :: rest) st) (List.replicate k Event.TIMER)).sent
          = a.sent ++ List.replicate (k + 1) m
        ∧ (run n (Enable a (m :: rest) st) (List.replicate k Event.TIMER)).status
          = Status.active)
    ∧ ∀ es : List Event,
        (run n (Enable a (m :: rest) st) (List.replicate N Event.TIMER ++ es)).sent
          = a.sent ++ List.replicate N m
        ∧ (run n (Enable a (m :: rest) st) (List.replicate N Event.TIMER ++ es)).status
          = Status.failed "Vehicle_command all attempts failed."
        ∧ (run n (Enable a (m :: rest) st) (List.replicate N Event.TIMER ++ es)).timer
          = none := by
  subst htry
  have hE := Enable_cons a m rest st hN
  have hrem : (Enable a (m :: rest) st).remaining_attempts = a.try_count - 1 := by simp [hE]
  have hsent : (Enable a (m :: rest) st).sent = a.sent ++ [m] := by simp [hE]
  have hst : (Enable a (m :: rest) st).status = Status.active := by simp [hE, hact]
  refine ⟨?_, ?_⟩
  · intro k hk
    have h := run_timers n m rest k (Enable a (m :: rest) st) (by simp [hE]) (by simp [hE])
      (by rw [hrem]; omega)
    refine ⟨?_, ?_⟩
    · rw [h.1, hsent, List.replicate_succ]
      simp
    · rw [h.2.2.1, hst]
  · intro es
    have h := run_timers_exhausted n m rest (Enable a (m :: rest) st) es (by simp [hE])
      (by simp [hE]) hst
    have hN2 : a.try_count - 1 + 1 = a.try_count := by omega
    rw [hrem, hN2] at h
    refine ⟨?_, h.2.1, h.2.2.1⟩
    rw [h.1, hsent]
    have hrep : List.replicate a.try_count m = m :: List.replicate (a.try_count - 1) m := by
      rw [← List.replicate_succ, hN2]
    rw [hrep]
    simp

/-- C2 at `try_count = 2` with a three-element queue: two sends of the arm
command, then failure. -/
theorem C2_first_message_witness :
    (run example_names
        (Enable (example_act 2 Px4_vendor.PX4)
          [example_arm, example_set_current, example_param_set] true)
        (List.replicate 2 Event.TIMER ++ [])).sent
      = (example_act 2 Px4_vendor.PX4).sent ++ List.replicate 2 example_arm
    ∧ (run example_names
        (Enable (example_act 2 Px4_vendor.PX4)
          [example_arm, example_set_current, example_param_set] true)
        (List.replicate 2 Event.TIMER ++ [])).status
      = Status.failed "Vehicle_command all attempts failed." :=
  have h := (C2_first_message_sent_try_count_times example_names
    (example_act 2 Px4_vendor.PX4) example_arm [example_set_current, example_param_set]
    true 2 (by decide) (by decide) (by decide)).2 []
  ⟨h.1, h.2.1⟩

/-- C3 (the code at `try_count = 1`, queue of two): once the arm command is
accepted, the new head is sent when it becomes head and again on the first
timer fire, the conversation still pending after these two sends; it only
fails on the second fire.  The claim bounds the sends of the new head by
`try_count = 1`. -/
theorem C3_later_head_sent_once_more :
    (run example_names
        (Enable (example_act 1 Px4_vendor.PX4) [example_arm, example_set_current] false)
        [Event.COMMAND_ACK 400 0, Event.TIMER]).sent
      = [example_arm, example_set_current, example_set_current]
    ∧ (run example_names
        (Enable (example_act 1 Px4_vendor.PX4) [example_arm, example_set_current] false)
        [Event.COMMAND_ACK 400 0, Event.TIMER]).status = Status.active
    ∧ (run example_names
        (Enable (example_act 1 Px4_vendor.PX4) [example_arm, example_set_current] false)
        [Event.COMMAND_ACK 400 0, Event.TIMER, Event.TIMER]).sent
      = [example_arm, example_set_current, example_set_current]
    ∧ (run example_names
        (Enable (example_act 1 Px4_vendor.PX4) [example_arm, example_set_current] false)
        [Event.COMMAND_ACK 400 0, Event.TIMER, Event.TIMER]).status
      = Status.failed "Vehicle_command all attempts failed." := by
  decide

/-- C4: for every queue `Q` and every sequence of incoming events
(acknowledgments, timer fires, status texts), the sent log consists of the
traced sends; each message sent is the element of `Q` at the head position
of the moment (the number of elements removed so far), so `Q[k]` is only
sent once `Q[0..k-1]` have all been removed; the queue indices of the sent
messages start at 0, never decrease and advance by at most one at a time;
and the queue is always a suffix of `Q`, no message before its start being
still queued, none after the last sent index having been sent. -/
theorem C4_sends_are_heads_in_queue_order (n : Mavlink_names) (a : Vehicle_command_act)
    (Q : List Payload) (st : Bool) (es : List Event) :
    (run n (Enable a Q st) es).sent
        = a.sent ++ (conversation_trace n a Q st es).map Prod.snd
    ∧ (∀ x ∈ conversation_trace n a Q st es, Q[x.1]? = some x.2)
    ∧ ordered_indices ((conversation_trace n a Q st es).map Prod.fst) = true
    ∧ ∃ p, p ≤ Q.length ∧ (run n (Enable a Q st) es).cmd_messages = Q.drop p
        ∧ ∀ x ∈ conversation_trace n a Q st es, x.1 ≤ p := by
  obtain ⟨hq, hsend⟩ := Enable_shape a Q st
  rcases hsend with ⟨m, hm, hs⟩ | ⟨hs, hend⟩
  · obtain ⟨i1, i2, i3, p2, i4, i5, i6, i7⟩ :=
      trace_from n Q es (Enable a Q st) 0 (by simp [hq]) (Nat.zero_le _)
    have hb := sends_between_one Q a (Enable a Q st) m hs
    rw [hq, Nat.sub_self] at hb
    simp only [conversation_trace, hb]
    refine ⟨by rw [i1, hs]; simp, ?_, ?_, p2, i5, i6, ?_⟩
    · intro x hx
      simp only [List.singleton_append, List.mem_cons] at hx
      rcases hx with hx | hx
      · subst hx
        exact hm
      · exact i2 x hx
    · simpa [ordered_indices] using i3
    · intro x hx
      simp only [List.singleton_append, List.mem_cons] at hx
      rcases hx with hx | hx
      · subst hx
        exact i4
      · exact i7 x hx
  · have hb := sends_between_same Q a (Enable a Q st) hs
    have ht := send_trace_of_ended n Q es (Enable a Q st) hend
    simp only [conversation_trace, hb, ht, run_of_ended n _ es hend]
    exact ⟨by simp [hs], by simp, by simp [ordered_indices], 0, Nat.zero_le _, by simp [hq],
      by simp⟩

/-- C5: when the head of the queue is a COMMAND_LONG, a COMMAND_ACK for its
command-kind whose result is a rejection (not ACCEPTED, and not the Yuneec
SET_CAMERA_MODE in-progress case) disables the conversation as a failure
whose text is "Result: ", the numeric result code and its decoded reason
in parentheses; nothing is sent then or on any later event, and the queue
is left as it was. -/
theorem C5_rejected_command_ack_fails (n : Mavlink_names) (a : Vehicle_command_act)
    (c : Nat) (params : List F32) (conf : Nat) (rest : List Payload) (result : Nat)
    (es : List Event)
    (hreg : a.handlers_registered = true) (hact : a.status = Status.active)
    (hq : a.cmd_messages = Payload.COMMAND_LONG c params conf :: rest)
    (hrej : result ≠ MAV_RESULT_ACCEPTED)
    (hy : ¬ (a.vendor = Px4_vendor.YUNEEC ∧ c = MAV_CMD_SET_CAMERA_MODE
      ∧ result = MAV_RESULT_IN_PROGRESS)) :
    (run n a (Event.COMMAND_ACK c result :: es)).status
        = Status.failed ("Result: " ++ toString result ++ " ("
            ++ n.Mav_result_to_string result ++ ")")
    ∧ (run n a (Event.COMMAND_ACK c result :: es)).sent = a.sent
    ∧ (run n a (Event.COMMAND_ACK c result :: es)).cmd_messages = a.cmd_messages
    ∧ (run n a (Event.COMMAND_ACK c result :: es)).timer = none := by
  have hstep : step n a (Event.COMMAND_ACK c result)
      = Disable a ("Result: " ++ toString result ++ " ("
          ++ n.Mav_result_to_string result ++ ")") := by
    simp only [step, hreg, On_command_ack, hq, Payload.Get_id, Payload.command]
    simp [hrej, hy]
  rw [run_cons, hstep, run_of_ended n _ _ (ended_Disable _ _)]
  simp [Disable, Disable_activity, On_disable, Unregister_status_text, hact]

/-- C5 for the arm command answered with result 4 (FAILED). -/
theorem C5_rejected_command_ack_witness :
    (run example_names
        (Enable (example_act 3 Px4_vendor.PX4) [example_arm, example_set_current] false)
        (Event.COMMAND_ACK 400 4 :: [Event.TIMER])).status
      = Status.failed ("Result: " ++ toString 4 ++ " ("
          ++ example_names.Mav_result_to_string 4 ++ ")")
    ∧ (run example_names
        (Enable (example_act 3 Px4_vendor.PX4) [example_arm, example_set_current] false)
        (Event.COMMAND_ACK 400 4 :: [Event.TIMER])).sent = [example_arm] :=
  have h := C5_rejected_command_ack_fails example_names
    (Enable (example_act 3 Px4_vendor.PX4) [example_arm, example_set_current] false)
    400 [⟨1065353216⟩] 0 [example_set_current] 4 [Event.TIMER]
    (by decide) (by decide) (by decide) (by decide) (by decide)
  ⟨h.1, h.2.1⟩

/-- C6 (the code at a PARAM_SET head): a COMMAND_ACK whose command number
equals the message id of PARAM_SET is taken as the answer to the queued
parameter write.  With result ACCEPTED the head is removed and the next
message is sent; with result 4 the conversation fails.  The claim has every
COMMAND_ACK ignored while the head is not a COMMAND_LONG. -/
theorem C6_command_ack_matches_message_id :
    (Enable (example_act 3 Px4_vendor.PX4)
        [example_param_set, example_set_current] false).cmd_messages
      = [example_param_set, example_set_current]
    ∧ (step example_names
        (Enable (example_act 3 Px4_vendor.PX4) [example_param_set, example_set_current] false)
        (Event.COMMAND_ACK MESSAGE_ID_PARAM_SET MAV_RESULT_ACCEPTED)).cmd_messages
      = [example_set_current]
    ∧ (step example_names
        (Enable (example_act 3 Px4_vendor.PX4) [example_param_set, example_set_current] false)
        (Event.COMMAND_ACK MESSAGE_ID_PARAM_SET MAV_RESULT_ACCEPTED)).sent
      = [example_param_set, example_set_current]
    ∧ (step example_names
        (Enable (example_act 3 Px4_vendor.PX4) [example_param_set, example_set_current] false)
        (Event.COMMAND_ACK MESSAGE_ID_PARAM_SET 4)).status
      = Status.failed "Result: 4 (reason)" := by
  decide

/-- C7 (the code at a COMMAND_LONG head): a MISSION_ACK is applied to the
head whatever its kind.  With the arm command at the head, an accepted
MISSION_ACK removes it and sends the next message, and a MISSION_ACK with
result 1 fails the conversation.  The claim has the MISSION_ACK ignored. -/
theorem C7_mission_ack_applied_to_any_head :
    (Enable (example_act 3 Px4_vendor.PX4)
        [example_arm, example_set_current] false).cmd_messages
      = [example_arm, example_set_current]
    ∧ (step example_names
        (Enable (example_act 3 Px4_vendor.PX4) [example_arm, example_set_current] false)
        (Event.MISSION_ACK MAV_MISSION_ACCEPTED)).cmd_messages = [example_set_current]
    ∧ (step example_names
        (Enable (example_act 3 Px4_vendor.PX4) [example_arm, example_set_current] false)
        (Event.MISSION_ACK MAV_MISSION_ACCEPTED)).remaining_attempts = 3
    ∧ (step example_names
        (Enable (example_act 3 Px4_vendor.PX4) [example_arm, example_set_current] false)
        (Event.MISSION_ACK MAV_MISSION_ACCEPTED)).sent = [example_arm, example_set_current]
    ∧ (step example_names
        (Enable (example_act 3 Px4_vendor.PX4) [example_arm, example_set_current] false)
        (Event.MISSION_ACK 1)).status
      = Status.failed "MISSION_ACK result: 1 (mission reason)" := by
  decide

/-- C8 as stated fails: with a write of 5.0 to MPC_XY_CRUISE at the head, a
PARAM_VALUE for MPC_XY_CRUISE carrying 4.0 changes the state: the pending
conversation is disabled as a failure with the text "PARAM_SET failed". -/
theorem C8_param_value_mismatch_counterexample :
    (Enable (example_act 3 Px4_vendor.PX4)
        [example_param_set, example_set_current] false).status = Status.active
    ∧ step example_names
        (Enable (example_act 3 Px4_vendor.PX4) [example_param_set, example_set_current] false)
        (Event.PARAM_VALUE "MPC_XY_CRUISE" ⟨1082130432⟩)
      ≠ Enable (example_act 3 Px4_vendor.PX4) [example_param_set, example_set_current] false
    ∧ (step example_names
        (Enable (example_act 3 Px4_vendor.PX4) [example_param_set, example_set_current] false)
        (Event.PARAM_VALUE "MPC_XY_CRUISE" ⟨1082130432⟩)).status
      = Status.failed "PARAM_SET failed" := by
  decide

/-- C8 (amended): when the head of the queue is a PARAM_SET, a PARAM_VALUE
event advances the queue exactly when its name equals the queued name and
its value compares equal to the queued value; a PARAM_VALUE with another
name causes no state change; a PARAM_VALUE carrying the queued name but a
value that does not compare equal disables the conversation with the text
"PARAM_SET failed", leaving the queue as it was. -/
theorem C8_param_value_on_param_set_head (a : Vehicle_command_act) (name : String)
    (value : F32) (rest : List Payload) (param_id : String) (v : F32)
    (hq : a.cmd_messages = Payload.PARAM_SET name value :: rest) :
    ((On_param_value a param_id v).cmd_messages = rest
        ↔ (param_id = name ∧ F32.eq v value = true))
    ∧ (param_id = name → F32.eq v value = true →
        On_param_value a param_id v = Send_next_command a)
    ∧ (param_id ≠ name → On_param_value a param_id v = a)
    ∧ (param_id = name → F32.eq v value = false →
        On_param_value a param_id v = Disable a "PARAM_SET failed"
        ∧ (On_param_value a param_id v).cmd_messages = a.cmd_messages) := by
  have hne : Payload.PARAM_SET name value :: rest ≠ rest := by
    intro h
    have := congrArg List.length h
    simp at this
  have htail : (Send_next_command a).cmd_messages = rest := by
    cases rest with
    | nil =>
      simp [Send_next_command, hq, Disable_success, Disable_activity, On_disable,
        Unregister_status_text]
    | cons m2 rest2 => simp [Send_next_command, hq, Schedule_timer, Send_message]
  by_cases h1 : param_id = name
  · cases h2 : F32.eq v value
    · have hd : On_param_value a param_id v = Disable a "PARAM_SET failed" := by
        simp [On_param_value, hq, h1, h2]
      have hc : (Disable a "PARAM_SET failed").cmd_messages = a.cmd_messages := by
        simp [Disable, Disable_activity, On_disable, Unregister_status_text]
      refine ⟨?_, ?_, ?_, ?_⟩
      · rw [hd, hc, hq]
        simp [hne]
      · intro _ h
        simp at h
      · intro h
        exact absurd h1 h
      · intro _ _
        exact ⟨hd, by rw [hd, hc]⟩
    · have hs : On_param_value a param_id v = Send_next_command a := by
        simp [On_param_value, hq, h1, h2]
      refine ⟨?_, ?_, ?_, ?_⟩
      · rw [hs, htail]
        simp [h1]
      · intro _ _
        exact hs
      · intro h
        exact absurd h1 h
      · intro _ h
        simp at h
  · have hi : On_param_value a param_id v = a := by
      simp [On_param_value, hq, h1]
    refine ⟨?_, ?_, ?_, ?_⟩
    · rw [hi, hq]
      simp [hne, h1]
    · intro h
      exact absurd h h1
    · intro _
      exact hi
    · intro h
      exact absurd h h1

/-- C8 (amended) at a write of 5.0 to MPC_XY_CRUISE answered with 4.0. -/
theorem C8_param_value_on_param_set_head_witness :
    On_param_value
        (Enable (example_act 3 Px4_vendor.PX4) [example_param_set, example_set_current] false)
        "MPC_XY_CRUISE" ⟨1082130432⟩
      = Disable
        (Enable (example_act 3 Px4_vendor.PX4) [example_param_set, example_set_current] false)
        "PARAM_SET failed" :=
  ((C8_param_value_on_param_set_head
    (Enable (example_act 3 Px4_vendor.PX4) [example_param_set, example_set_current] false)
    "MPC_XY_CRUISE" ⟨1084227584⟩ [example_set_current] "MPC_XY_CRUISE" ⟨1082130432⟩
    (by decide)).2.2.2 (by decide) (by decide)).1

/-- C9: `On_status_text` changes the state only when `current_timeout` is
below `extended_retry_timeout`; it then raises the current timeout to the
extended value and re-arms the timer with it.  It never changes
`remaining_attempts`, the queue, the conversation status or the messages
sent.  After one status text every later status text of the same
conversation (after any acknowledgments and timer fires, no `Enable` in
between) is a no-op, so the timeout is extended at most once per
conversation. -/
theorem C9_status_text_extends_timeout_once (n : Mavlink_names) (a : Vehicle_command_act)
    (es : List Event) :
    (¬ a.current_timeout < a.extended_retry_timeout → On_status_text a = a)
    ∧ (a.current_timeout < a.extended_retry_timeout →
        (On_status_text a).current_timeout = a.extended_retry_timeout
        ∧ (On_status_text a).timer = some a.extended_retry_timeout
        ∧ (On_status_text a).timers_created = a.timers_created + 1)
    ∧ (On_status_text a).remaining_attempts = a.remaining_attempts
    ∧ (On_status_text a).cmd_messages = a.cmd_messages
    ∧ (On_status_text a).status = a.status
    ∧ (On_status_text a).sent = a.sent
    ∧ On_status_text (run n (On_status_text a) es) = run n (On_status_text a) es := by
  have hfirst : (On_status_text a).extended_retry_timeout ≤ (On_status_text a).current_timeout := by
    unfold On_status_text
    split
    · simp [Schedule_timer]
    · omega
  have hlater := run_keeps_extended n es (On_status_text a) hfirst
  refine ⟨?_, ?_, ?_, ?_, ?_, ?_, ?_⟩
  · intro h
    simp [On_status_text, h]
  · intro h
    simp [On_status_text, h, Schedule_timer]
  · unfold On_status_text
    split <;> simp [Schedule_timer]
  · unfold On_status_text
    split <;> simp [Schedule_timer]
  · unfold On_status_text
    split <;> simp [Schedule_timer]
  · unfold On_status_text
    split <;> simp [Schedule_timer]
  · have hnot : ¬ (run n (On_status_text a) es).current_timeout
        < (run n (On_status_text a) es).extended_retry_timeout := not_lt.mpr hlater
    generalize run n (On_status_text a) es = s at hnot
    simp [On_status_text, hnot]

/-- C9 on an arm conversation (retry timeout 1000, extended 5000): the first
status text re-arms the timer at 5000, and a status text that follows a
timer fire changes nothing. -/
theorem C9_status_text_witness :
    (On_status_text
        (Enable (example_act 3 Px4_vendor.PX4) [example_arm] true)).timer = some 5000
    ∧ On_status_text
        (run example_names
          (On_status_text (Enable (example_act 3 Px4_vendor.PX4) [example_arm] true))
          [Event.TIMER])
      = run example_names
          (On_status_text (Enable (example_act 3 Px4_vendor.PX4) [example_arm] true))
          [Event.TIMER] :=
  have h := C9_status_text_extends_timeout_once example_names
    (Enable (example_act 3 Px4_vendor.PX4) [example_arm] true) [Event.TIMER]
  ⟨(h.2.1 (by decide)).2.1, h.2.2.2.2.2.2⟩

/-- C10: on a Yuneec vehicle, a COMMAND_ACK for SET_CAMERA_MODE with result
IN_PROGRESS, received while that command is the head of the queue, leaves
the whole state of the dispatcher as it was: queue, attempt counter, timer,
conversation status and messages sent. -/
theorem C10_yuneec_camera_mode_in_progress_ignored (n : Mavlink_names)
    (a : Vehicle_command_act) (params : List F32) (conf : Nat) (rest : List Payload)
    (hv : a.vendor = Px4_vendor.YUNEEC)
    (hq : a.cmd_messages = Payload.COMMAND_LONG MAV_CMD_SET_CAMERA_MODE params conf :: rest) :
    On_command_ack n a MAV_CMD_SET_CAMERA_MODE MAV_RESULT_IN_PROGRESS = a
    ∧ step n a (Event.COMMAND_ACK MAV_CMD_SET_CAMERA_MODE MAV_RESULT_IN_PROGRESS) = a := by
  have h : On_command_ack n a MAV_CMD_SET_CAMERA_MODE MAV_RESULT_IN_PROGRESS = a := by
    simp only [On_command_ack, hq, Payload.Get_id, Payload.command]
    simp [hv, MAV_RESULT_IN_PROGRESS, MAV_RESULT_ACCEPTED]
  refine ⟨h, ?_⟩
  simp only [step]
  split
  · exact h
  · rfl

/-- C10 on a Yuneec vehicle with SET_CAMERA_MODE at the head of the queue. -/
theorem C10_yuneec_camera_mode_witness :
    step example_names
        (Enable (example_act 3 Px4_vendor.YUNEEC)
          [Payload.COMMAND_LONG MAV_CMD_SET_CAMERA_MODE [] 0, example_set_current] false)
        (Event.COMMAND_ACK MAV_CMD_SET_CAMERA_MODE MAV_RESULT_IN_PROGRESS)
      = Enable (example_act 3 Px4_vendor.YUNEEC)
          [Payload.COMMAND_LONG MAV_CMD_SET_CAMERA_MODE [] 0, example_set_current] false :=
  (C10_yuneec_camera_mode_in_progress_ignored example_names
    (Enable (example_act 3 Px4_vendor.YUNEEC)
      [Payload.COMMAND_LONG MAV_CMD_SET_CAMERA_MODE [] 0, example_set_current] false)
    [] 0 [example_set_current] (by decide) (by decide)).2

/-- C11 as stated fails: the request holding the single command arm, on a
vehicle that is not armed and in AUTO mode, produces an empty command queue
and sends nothing, but the conversation ends with the text "Arming disabled
while in AUTO mode", not "Command list empty". -/
theorem C11_disabled_request_counterexample :
    (Vehicle.Enable example_command_arith
        (example_vehicle false (some Control_mode.AUTO) example_home)
        [Command.arm]).vehicle_command.cmd_messages = []
    ∧ (Vehicle.Enable example_command_arith
        (example_vehicle false (some Control_mode.AUTO) example_home)
        [Command.arm]).vehicle_command.sent = []
    ∧ (Vehicle.Enable example_command_arith
        (example_vehicle false (some Control_mode.AUTO) example_home)
        [Command.arm]).vehicle_command.status
      = Status.failed "Arming disabled while in AUTO mode"
    ∧ (Vehicle.Enable example_command_arith
        (example_vehicle false (some Control_mode.AUTO) example_home)
        [Command.arm]).vehicle_command.status
      ≠ Status.failed "Command list empty" := by
  decide

/-- C11 (amended): `Enable` on a pending request whose commands produce an
empty command queue (with `try_count >= 1`) sends no message, leaves no
timer armed and ends the conversation as a failure.  The text is "Command
list empty" when no command of the request has itself disabled the
conversation; otherwise the failure reported by that command stands. -/
theorem C11_empty_queue_request (E : Command_arith) (v : Vehicle) (cmds : List Command)
    (htry : 1 ≤ v.vehicle_command.try_count)
    (hact : v.vehicle_command.status = Status.active)
    (hq : (Vehicle.Enable_loop E (v.on_command Vehicle_command_act.Enable_begin)
      cmds).vehicle_command.cmd_messages = []) :
    (Vehicle.Enable E v cmds).vehicle_command.sent = v.vehicle_command.sent
    ∧ (Vehicle.Enable E v cmds).vehicle_command.timer = none
    ∧ (∃ reason, (Vehicle.Enable E v cmds).vehicle_command.status = Status.failed reason)
    ∧ ((Vehicle.Enable_loop E (v.on_command Vehicle_command_act.Enable_begin)
          cmds).vehicle_command.status = Status.active →
        (Vehicle.Enable E v cmds).vehicle_command.status
          = Status.failed "Command list empty")
    ∧ ((Vehicle.Enable_loop E (v.on_command Vehicle_command_act.Enable_begin)
          cmds).vehicle_command.status ≠ Status.active →
        (Vehicle.Enable E v cmds).vehicle_command.status
          = (Vehicle.Enable_loop E (v.on_command Vehicle_command_act.Enable_begin)
              cmds).vehicle_command.status) := by
  obtain ⟨k1, k2, k3⟩ := Enable_loop_keeps E cmds (v.on_command Vehicle_command_act.Enable_begin)
  have hr : (Vehicle.Enable_loop E (v.on_command Vehicle_command_act.Enable_begin)
      cmds).vehicle_command.remaining_attempts ≠ 0 := by
    rw [k2]
    simp only [Vehicle.on_command, Vehicle_command_act.Enable_begin]
    omega
  obtain ⟨e1, e2, e3, e4⟩ := Enable_end_of_empty _ hq hr
  have hst := Enable_loop_status E cmds (v.on_command Vehicle_command_act.Enable_begin)
    (by simpa [Vehicle.on_command, Vehicle_command_act.Enable_begin] using hact)
  have hother : (Vehicle.Enable_loop E (v.on_command Vehicle_command_act.Enable_begin)
        cmds).vehicle_command.status ≠ Status.active →
      (Vehicle.Enable E v cmds).vehicle_command.status
        = (Vehicle.Enable_loop E (v.on_command Vehicle_command_act.Enable_begin)
            cmds).vehicle_command.status :=
    fun h => status_Enable_end_of_not_active _ h
  refine ⟨?_, e2, ?_, e4, hother⟩
  · show (Vehicle_command_act.Enable_end _).sent = _
    rw [e1, k1]
    rfl
  · rcases hst with h | ⟨r, h⟩
    · exact ⟨_, e4 h⟩
    · exact ⟨r, by rw [hother (by rw [h]; simp), h]⟩

/-- C11 (amended) on a request holding only direct vehicle control input:
nothing is queued, nothing is sent, and the text is "Command list empty". -/
theorem C11_empty_queue_request_witness :
    (Vehicle.Enable example_command_arith
        (example_vehicle false (some Control_mode.MANUAL) example_home)
        [Command.direct_vehicle_control ⟨0⟩ ⟨0⟩ ⟨0⟩ ⟨0⟩]).vehicle_command.status
      = Status.failed "Command list empty" :=
  (C11_empty_queue_request example_command_arith
    (example_vehicle false (some Control_mode.MANUAL) example_home)
    [Command.direct_vehicle_control ⟨0⟩ ⟨0⟩ ⟨0⟩ ⟨0⟩]
    (by decide) (by decide) (by decide)).2.2.2.1 (by decide)

/-- C12 as stated fails: in the request holding an unsupported command
followed by arm, the unsupported command fails the request with the text
"Unsupported command" and the arm command is never translated: the queue
stays empty, whereas the request holding arm alone queues one message. -/
theorem C12_unsupported_command_counterexample :
    (Vehicle.Enable example_command_arith
        (example_vehicle false (some Control_mode.MANUAL) example_home)
        [Command.other, Command.arm]).vehicle_command.status
      = Status.failed "Unsupported command"
    ∧ (Vehicle.Enable example_command_arith
        (example_vehicle false (some Control_mode.MANUAL) example_home)
        [Command.other, Command.arm]).vehicle_command.cmd_messages = []
    ∧ (Vehicle.Enable example_command_arith
        (example_vehicle false (some Control_mode.MANUAL) example_home)
        [Command.arm]).vehicle_command.cmd_messages.length = 1 := by
  decide

/-- C12 (amended): when a request contains a command the dispatcher does not
support, and the commands before it have left the request pending, the
request is completed as a failure with the text "Unsupported command", the
message handlers are unregistered, and the commands that follow it are not
translated: the queue holds only what the commands before it produced. -/
theorem C12_unsupported_command_fails_request (E : Command_arith) (v : Vehicle)
    (pre post : List Command)
    (h : (Vehicle.Enable_loop E (v.on_command Vehicle_command_act.Enable_begin)
      pre).vehicle_command.status = Status.active) :
    (Vehicle.Enable E v (pre ++ Command.other :: post)).vehicle_command.status
        = Status.failed "Unsupported command"
    ∧ (Vehicle.Enable E v (pre ++ Command.other :: post)).vehicle_command.cmd_messages
        = (Vehicle.Enable_loop E (v.on_command Vehicle_command_act.Enable_begin)
            pre).vehicle_command.cmd_messages
    ∧ (Vehicle.Enable E v (pre ++ Command.other :: post)).vehicle_command.handlers_registered
        = false := by
  have key : ∀ w : Vehicle, w.vehicle_command.status = Status.active →
      Vehicle.Enable_loop E w (Command.other :: post)
        = w.on_command (fun a => a.Disable "Unsupported command") := by
    intro w hw
    simp only [Vehicle.Enable_loop, hw, if_true, Vehicle.Process_command]
    apply Enable_loop_of_not_active
    show (w.vehicle_command.Disable "Unsupported command").status ≠ Status.active
    rw [status_Disable_of_active _ _ hw]
    simp
  unfold Vehicle.Enable
  rw [Enable_loop_append, key _ h]
  generalize Vehicle.Enable_loop E (v.on_command Vehicle_command_act.Enable_begin) pre = w
    at h ⊢
  refine ⟨?_, ?_, ?_⟩
  · show (Vehicle_command_act.Enable_end
        (w.vehicle_command.Disable "Unsupported command")).status = _
    rw [status_Enable_end_of_not_active _ (by rw [status_Disable_of_active _ _ h]; simp),
      status_Disable_of_active _ _ h]
  · show (Vehicle_command_act.Enable_end
        (w.vehicle_command.Disable "Unsupported command")).cmd_messages = _
    rw [cmd_messages_Enable_end]
    rfl
  · exact handlers_Enable_end _ rfl

/-- C12 (amended) on the request arm, unsupported, disarm: failure with
"Unsupported command", and only the arm command is in the queue. -/
theorem C12_unsupported_command_witness :
    (Vehicle.Enable example_command_arith
        (example_vehicle false (some Control_mode.MANUAL) example_home)
        ([Command.arm] ++ Command.other :: [Command.disarm])).vehicle_command.status
      = Status.failed "Unsupported command" :=
  (C12_unsupported_command_fails_request example_command_arith
    (example_vehicle false (some Control_mode.MANUAL) example_home)
    [Command.arm] [Command.disarm] (by decide)).1

/-- C13: `Process_arm` on a vehicle that is not armed and whose control mode
is AUTO appends no message to the command queue and disables the pending
conversation with "Arming disabled while in AUTO mode"; in every other
state it appends exactly one COMPONENT_ARM_DISARM command with param1 = 1
(the float 1.0, confirmation 0, the other parameters never assigned) and
leaves the conversation pending. -/
theorem C13_Process_arm (E : Command_arith) (v : Vehicle)
    (hact : v.vehicle_command.status = Status.active) :
    ((v.is_armed = false ∧ v.control_mode = some Control_mode.AUTO) →
        (Vehicle.Process_arm E v).vehicle_command.cmd_messages
            = v.vehicle_command.cmd_messages
        ∧ (Vehicle.Process_arm E v).vehicle_command.status
            = Status.failed "Arming disabled while in AUTO mode"
        ∧ (Vehicle.Process_arm E v).vehicle_command.sent = v.vehicle_command.sent)
    ∧ (¬ (v.is_armed = false ∧ v.control_mode = some Control_mode.AUTO) →
        (Vehicle.Process_arm E v).vehicle_command.cmd_messages
            = v.vehicle_command.cmd_messages
              ++ [Payload.COMMAND_LONG MAV_CMD_COMPONENT_ARM_DISARM
                    [⟨1065353216⟩, E.unset, E.unset, E.unset, E.unset, E.unset, E.unset] 0]
        ∧ (Vehicle.Process_arm E v).vehicle_command.status = Status.active
        ∧ (Vehicle.Process_arm E v).vehicle_command.sent = v.vehicle_command.sent) := by
  refine ⟨?_, ?_⟩
  · rintro ⟨h1, h2⟩
    simp [Vehicle.Process_arm, h1, h2, Vehicle.on_command, Vehicle_command_act.Disable,
      Vehicle_command_act.Disable_activity, Vehicle_command_act.On_disable,
      Vehicle_command_act.Unregister_status_text, hact]
  · intro h
    have hc : ((!v.is_armed && decide (v.control_mode = some Control_mode.AUTO)) = true)
        = False := by
      simp only [Bool.and_eq_true, Bool.not_eq_true', decide_eq_true_eq, eq_iff_iff,
        iff_false]
      exact h
    have h1 : F32.of_nat 1 = ⟨1065353216⟩ := by decide
    have he : Vehicle.Process_arm E v
        = (v.emplace_back (Payload.COMMAND_LONG MAV_CMD_COMPONENT_ARM_DISARM
            [F32.of_nat 1, E.unset, E.unset, E.unset, E.unset, E.unset, E.unset] 0)).on_command
            Vehicle_command_act.Register_status_text := by
      simp only [Vehicle.Process_arm, hc, if_false]
    rw [he, h1]
    exact ⟨rfl, hact, rfl⟩

/-- C13 on an unarmed vehicle in AUTO mode and on an unarmed vehicle in
MANUAL mode. -/
theorem C13_Process_arm_witness :
    (Vehicle.Process_arm example_command_arith
        (example_vehicle false (some Control_mode.AUTO) example_home)).vehicle_command.status
      = Status.failed "Arming disabled while in AUTO mode"
    ∧ (Vehicle.Process_arm example_command_arith
        (example_vehicle false (some Control_mode.MANUAL)
          example_home)).vehicle_command.cmd_messages.length = 1 :=
  ⟨((C13_Process_arm example_command_arith
      (example_vehicle false (some Control_mode.AUTO) example_home) (by decide)).1
      ⟨by decide, by decide⟩).2.1,
    by decide⟩

/-- C14: `Process_waypoint` with an invalid home position (stored home
latitude and longitude both zero) appends no message at all to the command
queue and disables the pending conversation with "Invalid home position";
nothing else of the vehicle changes. -/
theorem C14_Process_waypoint_invalid_home (E : Command_arith) (v : Vehicle) (speed : F32)
    (lat lon : F64) (alt ao hdg : F32)
    (hact : v.vehicle_command.status = Status.active)
    (hlat : v.home_location.latitude.isZero = true)
    (hlon : v.home_location.longitude.isZero = true) :
    Vehicle.Process_waypoint E v speed lat lon alt ao hdg
        = v.on_command (fun a => a.Disable "Invalid home position")
    ∧ (Vehicle.Process_waypoint E v speed lat lon alt ao hdg).vehicle_command.cmd_messages
        = v.vehicle_command.cmd_messages
    ∧ (Vehicle.Process_waypoint E v speed lat lon alt ao hdg).vehicle_command.status
        = Status.failed "Invalid home position"
    ∧ (Vehicle.Process_waypoint E v speed lat lon alt ao hdg).vehicle_command.sent
        = v.vehicle_command.sent := by
  have hv : v.Is_home_position_valid = false := by
    simp [Vehicle.Is_home_position_valid, F64_ne_zero_of_isZero _ hlat,
      F64_ne_zero_of_isZero _ hlon]
  have he : Vehicle.Process_waypoint E v speed lat lon alt ao hdg
      = v.on_command (fun a => a.Disable "Invalid home position") := by
    simp [Vehicle.Process_waypoint, hv]
  rw [he]
  refine ⟨rfl, rfl, ?_, rfl⟩
  simp only [Vehicle.on_command]
  exact status_Disable_of_active _ _ hact

/-- C14 on a vehicle whose home location was never reported. -/
theorem C14_Process_waypoint_witness :
    (Vehicle.Process_waypoint example_command_arith
        (example_vehicle true (some Control_mode.CLICK_GO) example_home_unset)
        ⟨1084227584⟩ ⟨4605563867864061676⟩ ⟨4594198589358644537⟩ ⟨1120403456⟩ ⟨0⟩
        ⟨0⟩).vehicle_command.status
      = Status.failed "Invalid home position" :=
  (C14_Process_waypoint_invalid_home example_command_arith
    (example_vehicle true (some Control_mode.CLICK_GO) example_home_unset)
    ⟨1084227584⟩ ⟨4605563867864061676⟩ ⟨4594198589358644537⟩ ⟨1120403456⟩ ⟨0⟩ ⟨0⟩
    (by decide) (by decide) (by decide)).2.2.1

/-- C15 as stated fails: the `seq` field has 16 bits.  For the action list
of 65537 CameraSeriesByDistance actions, the item at index 65536 carries
the sequence number 0. -/
theorem C15_sequence_number_wraps_counterexample :
    ∃ item : Mission_item Xnum,
      (Task_upload.Prepare_task example_arith (example_config Vehicle_type.MULTICOPTER 0)
          { example_task_upload with
            request := example_request
              (List.replicate 65537 (Action.CAMERA_SERIES_BY_DISTANCE (Xnum.val 50 1))) }
        ).prepared_actions[65536]? = some item
      ∧ item.seq = 0 ∧ item.seq ≠ 65536 := by
  have hlen := length_Prepare_task_series example_arith
    (example_config Vehicle_type.MULTICOPTER 0) (Xnum.val 50 1) 65537
    { example_task_upload with
      request := example_request
        (List.replicate 65537 (Action.CAMERA_SERIES_BY_DISTANCE (Xnum.val 50 1))) } rfl
  have hsome := List.getElem?_eq_getElem
    (show 65536 < (Task_upload.Prepare_task example_arith
      (example_config Vehicle_type.MULTICOPTER 0)
      { example_task_upload with
        request := example_request
          (List.replicate 65537 (Action.CAMERA_SERIES_BY_DISTANCE (Xnum.val 50 1))) }
      ).prepared_actions.length by rw [hlen]; exact Nat.lt_succ_self 65536)
  refine ⟨_, hsome, ?_⟩
  have hseq := Seq_ok_Prepare_task example_arith (example_config Vehicle_type.MULTICOPTER 0)
    { example_task_upload with
      request := example_request
        (List.replicate 65537 (Action.CAMERA_SERIES_BY_DISTANCE (Xnum.val 50 1))) }
    65536 _ hsome
  rw [hseq]
  decide

/-- C15 (amended): for every action list, vehicle class and option set, the
mission items produced by `Prepare_task` carry their index reduced to the
16 bits of the `seq` field: `item[i].seq = i mod 65536`.  Hence the sequence
numbers start at 0 and `item[i].seq = i` for each of the first 65536 items,
implicitly emitted items included. -/
theorem C15_sequence_numbers {F : Type} (A : Arith F) (cfg : Compiler_config F)
    (t : Task_upload F) (i : Nat) (item : Mission_item F)
    (h : (Task_upload.Prepare_task A cfg t).prepared_actions[i]? = some item) :
    item.seq = i % 2 ^ 16 ∧ (i < 2 ^ 16 → item.seq = i) := by
  have hs := Seq_ok_Prepare_task A cfg t i item h
  exact ⟨hs, fun hi => by rw [hs, Nat.mod_eq_of_lt hi]⟩

/-- C15 (amended) on a series start followed by two Moves: the fourth item,
the waypoint after the implicit series stop, has sequence number 3. -/
theorem C15_sequence_numbers_witness :
    ((Task_upload.Prepare_task example_arith (example_config Vehicle_type.MULTICOPTER 0)
        { example_task_upload with
          request := example_request
            [Action.CAMERA_SERIES_BY_DISTANCE (Xnum.val 50 1),
              Action.MOVE (example_move 100 (Xnum.val 0 1)),
              Action.MOVE (example_move 200 (Xnum.val 0 1))] }).prepared_actions.map
        (fun item => item.command))[3]? = some MAV_CMD_NAV_WAYPOINT
    ∧ ∀ item : Mission_item Xnum,
        (Task_upload.Prepare_task example_arith (example_config Vehicle_type.MULTICOPTER 0)
          { example_task_upload with
            request := example_request
              [Action.CAMERA_SERIES_BY_DISTANCE (Xnum.val 50 1),
                Action.MOVE (example_move 100 (Xnum.val 0 1)),
                Action.MOVE (example_move 200 (Xnum.val 0 1))] }).prepared_actions[3]?
          = some item → item.seq = 3 :=
  ⟨by decide, fun item h =>
    (C15_sequence_numbers example_arith (example_config Vehicle_type.MULTICOPTER 0) _ 3 item
      h).2 (by decide)⟩

/-- C16 as stated fails: `Enable` and `Prepare_task` do not reset the camera
mode.  Compiling the single action CameraTrigger(single photo) with a
discovered camera gives a SET_CAMERA_MODE item followed by the capture
item; compiling the same request again on the state left behind gives the
capture item alone. -/
theorem C16_camera_mode_survives_counterexample :
    (Task_upload.compile example_arith (example_config Vehicle_type.MULTICOPTER 0)
        example_task_upload
        (example_request [Action.CAMERA_TRIGGER Camera_trigger_state.SINGLE_PHOTO 0])
      ).prepared_actions.map (fun item => item.command)
      = [MAV_CMD_SET_CAMERA_MODE, MAV_CMD_IMAGE_START_CAPTURE]
    ∧ (Task_upload.compile example_arith (example_config Vehicle_type.MULTICOPTER 0)
        (Task_upload.compile example_arith (example_config Vehicle_type.MULTICOPTER 0)
          example_task_upload
          (example_request [Action.CAMERA_TRIGGER Camera_trigger_state.SINGLE_PHOTO 0]))
        (example_request [Action.CAMERA_TRIGGER Camera_trigger_state.SINGLE_PHOTO 0])
      ).prepared_actions.map (fun item => item.command)
      = [MAV_CMD_IMAGE_START_CAPTURE] := by
  decide

/-- C16 (amended): the mission items of a compilation (`Enable` followed by
`Prepare_task`) depend on the request, the vehicle configuration and the
camera mode the compiler starts with, and on nothing else left behind by
an earlier compilation: `Enable` and `Prepare_task` reset every other
context field.  The camera mode is reset by `On_disable`, so compiling the
same request twice with the activity disabled in between yields identical
mission item sequences. -/
theorem C16_compilation_independent_of_history {F : Type} (A : Arith F)
    (cfg : Compiler_config F) (t1 t2 : Task_upload F) (req : Task_request F)
    (h : t1.current_camera_mode = t2.current_camera_mode) :
    (Task_upload.compile A cfg t1 req).prepared_actions
        = (Task_upload.compile A cfg t2 req).prepared_actions
    ∧ (Task_upload.compile A cfg (Task_upload.On_disable A t1) req).prepared_actions
        = (Task_upload.compile A cfg (Task_upload.On_disable A t2) req).prepared_actions
    ∧ (Task_upload.compile A cfg
          (Task_upload.On_disable A (Task_upload.compile A cfg (Task_upload.On_disable A t1) req))
          req).prepared_actions
        = (Task_upload.compile A cfg (Task_upload.On_disable A t1) req).prepared_actions :=
  ⟨compile_of_same_camera_mode A cfg t1 t2 req h,
    compile_of_same_camera_mode A cfg _ _ req rfl,
    compile_of_same_camera_mode A cfg _ _ req rfl⟩

/-- C16 (amended) on the state left by a compilation of two Moves, which
holds no camera mode, against a freshly disabled state. -/
theorem C16_compilation_independent_witness :
    (Task_upload.compile example_arith (example_config Vehicle_type.MULTICOPTER 0)
        (Task_upload.compile example_arith (example_config Vehicle_type.MULTICOPTER 0)
          example_task_upload
          (example_request [Action.MOVE (example_move 100 (Xnum.val 0 1)),
            Action.MOVE (example_move 200 (Xnum.val 0 1))]))
        (example_request [Action.CAMERA_TRIGGER Camera_trigger_state.SINGLE_PHOTO 0])
      ).prepared_actions
      = (Task_upload.compile example_arith (example_config Vehicle_type.MULTICOPTER 0)
        example_task_upload
        (example_request [Action.CAMERA_TRIGGER Camera_trigger_state.SINGLE_PHOTO 0])
      ).prepared_actions :=
  (C16_compilation_independent_of_history example_arith
    (example_config Vehicle_type.MULTICOPTER 0)
    (Task_upload.compile example_arith (example_config Vehicle_type.MULTICOPTER 0)
      example_task_upload
      (example_request [Action.MOVE (example_move 100 (Xnum.val 0 1)),
        Action.MOVE (example_move 200 (Xnum.val 0 1))]))
    example_task_upload
    (example_request [Action.CAMERA_TRIGGER Camera_trigger_state.SINGLE_PHOTO 0])
    (by decide)).1

/-- C17 as stated fails for a vehicle that is not a copter: the yaw is taken
from `heading_to_this_wp` only by the copter-specific autoheading branch.
On a fixed wing with autoheading on, no POI and no pending heading, a Move
to the position of the previous Move, itself carrying an undefined heading,
gives a waypoint whose yaw is undefined, while the heading computed
before is 0. -/
theorem C17_fixed_wing_yaw_counterexample :
    (example_config Vehicle_type.FIXED_WING 0).autoheading = true
    ∧ (Task_upload.Prepare_move example_arith (example_config Vehicle_type.FIXED_WING 0)
        example_task_upload (example_move 100 (Xnum.val 0 1))).1.current_mission_poi = none
    ∧ (Task_upload.Prepare_move example_arith (example_config Vehicle_type.FIXED_WING 0)
        example_task_upload (example_move 100 (Xnum.val 0 1))).1.current_mission_heading = none
    ∧ (Task_upload.Prepare_move example_arith (example_config Vehicle_type.FIXED_WING 0)
        example_task_upload (example_move 100 (Xnum.val 0 1))).1.heading_to_this_wp
        = Xnum.val 0 1
    ∧ example_arith.isnan (example_arith.Bearing (example_move 100 (Xnum.val 0 1)).position
        (example_move 100 Xnum.nan).position) = true
    ∧ ((Task_upload.Prepare_move example_arith (example_config Vehicle_type.FIXED_WING 0)
        (Task_upload.Prepare_move example_arith (example_config Vehicle_type.FIXED_WING 0)
          example_task_upload (example_move 100 (Xnum.val 0 1))).1
        (example_move 100 Xnum.nan)).1.prepared_actions.map (fun item => item.param4))
        = [Xnum.val 0 1, Xnum.nan] := by
  decide

/-- C17 (amended): in `Prepare_move`, when the bearing from the previous Move
(or, without one, the Takeoff) to the new Move is undefined,
`heading_to_this_wp` keeps the value it had before the call.  If moreover
the vehicle is a copter, autoheading is on, no POI is active and no heading
is pending, the heading of the Move is that kept heading and the yaw of the
waypoint item is its conversion to degrees, which is defined whenever the
conversion of the kept heading is.  If the vehicle is not a copter, the Move
is left as it came and the yaw of the waypoint item is the conversion of the
Move's own heading, whatever it is. -/
theorem C17_heading_fallback {F : Type} (A : Arith F) (cfg : Compiler_config F)
    (t : Task_upload F) (m : Move_action F) (origin : Geodetic_tuple F)
    (horigin : Task_upload.bearing_origin t = some origin)
    (hnan : A.isnan (A.to_float (A.Bearing origin m.position)) = true) :
    (Task_upload.Prepare_move A cfg t m).1.heading_to_this_wp = t.heading_to_this_wp
    ∧ (A.Is_copter cfg.vehicle_type = true → cfg.autoheading = true →
        t.current_mission_poi = none → t.current_mission_heading = none →
        (Task_upload.Prepare_move A cfg t m).2.heading = t.heading_to_this_wp
        ∧ ∃ item : Mission_item F,
            (Task_upload.Prepare_move A cfg t m).1.prepared_actions.getLast? = some item
            ∧ item.command = MAV_CMD_NAV_WAYPOINT
            ∧ item.param4 = Task_upload.deg A t.heading_to_this_wp
            ∧ (A.isnan (Task_upload.deg A t.heading_to_this_wp) = false →
                A.isnan item.param4 = false))
    ∧ (A.Is_copter cfg.vehicle_type = false →
        (Task_upload.Prepare_move A cfg t m).2 = m
        ∧ ∃ item : Mission_item F,
            (Task_upload.Prepare_move A cfg t m).1.prepared_actions.getLast? = some item
            ∧ item.command = MAV_CMD_NAV_WAYPOINT
            ∧ item.param4 = Task_upload.deg A m.heading) := by
  obtain ⟨k1, k2, k3, k4, k5⟩ := Prepare_move_series_off_keeps A cfg t
  have ho : Task_upload.bearing_origin (Task_upload.Prepare_move_series_off A cfg t)
      = some origin := by
    rw [bearing_origin_series_off]
    exact horigin
  have hh := Prepare_move_heading_of_nan A _ m origin ho hnan
  refine ⟨?_, ?_, Prepare_move_not_copter A cfg t m⟩
  · unfold Task_upload.Prepare_move
    dsimp only
    rw [hh]
    show (Task_upload.Prepare_move_yaw A cfg (Task_upload.Prepare_move_series_off A cfg t)
      m).1.heading_to_this_wp = _
    rw [Prepare_move_yaw_keeps_heading, k1]
  · intro hcopter hauto hpoi hheading
    have hy := Prepare_move_yaw_autoheading A cfg (Task_upload.Prepare_move_series_off A cfg t)
      m (refs_of_bearing_origin _ origin ho) hcopter hauto (by rw [k2, hpoi])
      (by rw [k3, hheading])
    unfold Task_upload.Prepare_move
    dsimp only
    rw [hh, hy]
    dsimp only
    rw [k1]
    refine ⟨rfl, ?_⟩
    simp only [Task_upload.Add_mission_item, List.getLast?_append, List.getLast?_singleton,
      Option.or_some]
    refine ⟨_, rfl, ?_, ?_, ?_⟩
    · split_ifs <;> rfl
    · split_ifs <;> rfl
    · intro hd
      split_ifs <;> exact hd

/-- C17 (amended) on a multicopter: a second Move to the position of the
first keeps the heading 0 computed before and gives the yaw 0.  On a fixed
wing the same second Move is left as it came. -/
theorem C17_heading_fallback_witness :
    (Task_upload.Prepare_move example_arith (example_config Vehicle_type.MULTICOPTER 0)
        (Task_upload.Prepare_move example_arith (example_config Vehicle_type.MULTICOPTER 0)
          example_task_upload (example_move 100 (Xnum.val 0 1))).1
        (example_move 100 Xnum.nan)).1.heading_to_this_wp = Xnum.val 0 1
    ∧ (Task_upload.Prepare_move example_arith (example_config Vehicle_type.MULTICOPTER 0)
        (Task_upload.Prepare_move example_arith (example_config Vehicle_type.MULTICOPTER 0)
          example_task_upload (example_move 100 (Xnum.val 0 1))).1
        (example_move 100 Xnum.nan)).2.heading = Xnum.val 0 1
    ∧ (Task_upload.Prepare_move example_arith (example_config Vehicle_type.FIXED_WING 0)
        (Task_upload.Prepare_move example_arith (example_config Vehicle_type.FIXED_WING 0)
          example_task_upload (example_move 100 (Xnum.val 0 1))).1
        (example_move 100 Xnum.nan)).2 = example_move 100 Xnum.nan :=
  ⟨(C17_heading_fallback example_arith (example_config Vehicle_type.MULTICOPTER 0)
      (Task_upload.Prepare_move example_arith (example_config Vehicle_type.MULTICOPTER 0)
        example_task_upload (example_move 100 (Xnum.val 0 1))).1
      (example_move 100 Xnum.nan) (example_move 100 (Xnum.val 0 1)).position
      (by decide) (by decide)).1,
    ((C17_heading_fallback example_arith (example_config Vehicle_type.MULTICOPTER 0)
      (Task_upload.Prepare_move example_arith (example_config Vehicle_type.MULTICOPTER 0)
        example_task_upload (example_move 100 (Xnum.val 0 1))).1
      (example_move 100 Xnum.nan) (example_move 100 (Xnum.val 0 1)).position
      (by decide) (by decide)).2.1 (by decide) (by decide) (by decide) (by decide)).1,
    ((C17_heading_fallback example_arith (example_config Vehicle_type.FIXED_WING 0)
      (Task_upload.Prepare_move example_arith (example_config Vehicle_type.FIXED_WING 0)
        example_task_upload (example_move 100 (Xnum.val 0 1))).1
      (example_move 100 Xnum.nan) (example_move 100 (Xnum.val 0 1)).position
      (by decide) (by decide)).2.2 (by decide)).1⟩

/-- C18 as stated fails: the yaw of a waypoint is the bearing from the
previous point to it, and the first Move keeps the heading it came with.
For three Moves along the equator at longitudes 0.1, 0.2 and 0.4, each
with heading 0, on a multicopter with autoheading, the yaws are 0, 90 and
90 degrees, while the bearing from the first point to the second is 90
degrees. -/
theorem C18_first_yaw_counterexample :
    ((Task_upload.Prepare_task example_arith (example_config Vehicle_type.MULTICOPTER 0)
        { Task_upload.Enable_clean_state example_arith example_task_upload with
          request := example_request
            [Action.MOVE (example_move 100 (Xnum.val 0 1)),
              Action.MOVE (example_move 200 (Xnum.val 0 1)),
              Action.MOVE (example_move 400 (Xnum.val 0 1))] }).prepared_actions.map
        (fun item => item.param4)) = [Xnum.val 0 1, Xnum.val 90 1, Xnum.val 90 1]
    ∧ Task_upload.deg example_arith
        (example_arith.Bearing (example_move 100 (Xnum.val 0 1)).position
          (example_move 200 (Xnum.val 0 1)).position) = Xnum.val 90 1 := by
  decide

/-- C18 (amended): for three Move actions with defined bearings between
consecutive points (as for strictly increasing longitude at equal latitude
and altitude), compiled from a clean state for a copter with autoheading
enabled (no POI active, no Takeoff), the items are three waypoints, only
the first is marked current, the yaw of the first is the heading the Move
came with, and the yaw of the second and of the third is the normalised
bearing from the previous point to that waypoint, in degrees. -/
theorem C18_three_moves_yaw {F : Type} (A : Arith F) (cfg : Compiler_config F)
    (t0 : Task_upload F) (req0 : Task_request F) (m0 m1 m2 : Move_action F)
    (hcopter : A.Is_copter cfg.vehicle_type = true) (hauto : cfg.autoheading = true)
    (h1 : A.isnan (A.to_float (A.Bearing m0.position m1.position)) = false)
    (h2 : A.isnan (A.to_float (A.Bearing m1.position m2.position)) = false) :
    (Task_upload.Prepare_task A cfg
        { Task_upload.Enable_clean_state A t0 with
          request := { req0 with
            actions := [Action.MOVE m0, Action.MOVE m1, Action.MOVE m2] } }
      ).prepared_actions.map (fun item => (item.command, item.current, item.param4))
      = [(MAV_CMD_NAV_WAYPOINT, 1, Task_upload.deg A m0.heading),
          (MAV_CMD_NAV_WAYPOINT, 0, Task_upload.deg A (A.to_float (A.Normalize_angle_0_2pi
            (A.to_float (A.Bearing m0.position m1.position))))),
          (MAV_CMD_NAV_WAYPOINT, 0, Task_upload.deg A (A.to_float (A.Normalize_angle_0_2pi
            (A.to_float (A.Bearing m1.position m2.position)))))] := by
  simp [Task_upload.Prepare_task, Task_upload.Prepare_actions, Task_upload.Prepare_action,
    Task_upload.Prepare_move, Task_upload.Prepare_move_series_off,
    Task_upload.Prepare_move_heading, Task_upload.Prepare_move_yaw,
    Task_upload.bearing_origin, Task_upload.Add_mission_item,
    Task_upload.Build_wp_mission_item, Task_upload.Fill_mavlink_mission_item_coords,
    Task_upload.Fill_mavlink_mission_item_common, Task_upload.Enable_clean_state,
    hcopter, hauto, h1, h2]

/-- C18 (amended) on three Moves along the equator at longitudes 0.1, 0.2
and 0.4 for a multicopter. -/
theorem C18_three_moves_yaw_witness :
    (Task_upload.Prepare_task example_arith (example_config Vehicle_type.MULTICOPTER 0)
        { Task_upload.Enable_clean_state example_arith example_task_upload with
          request := { example_request [] with
            actions := [Action.MOVE (example_move 100 (Xnum.val 0 1)),
              Action.MOVE (example_move 200 (Xnum.val 0 1)),
              Action.MOVE (example_move 400 (Xnum.val 0 1))] } }
      ).prepared_actions.map (fun item => (item.command, item.current, item.param4))
      = [(MAV_CMD_NAV_WAYPOINT, 1, Xnum.val 0 1), (MAV_CMD_NAV_WAYPOINT, 0, Xnum.val 90 1),
          (MAV_CMD_NAV_WAYPOINT, 0, Xnum.val 90 1)] :=
  C18_three_moves_yaw example_arith (example_config Vehicle_type.MULTICOPTER 0)
    example_task_upload (example_request []) (example_move 100 (Xnum.val 0 1))
    (example_move 200 (Xnum.val 0 1)) (example_move 400 (Xnum.val 0 1))
    (by decide) (by decide) (by decide) (by decide)

/-- C19 as stated fails at the boundary: a speed that differs from the last
commanded speed by exactly the threshold, not by more, still produces an
item.  With threshold 0.01, ChangeSpeed(0) followed by ChangeSpeed(0.01)
emits two speed-change items. -/
theorem C19_threshold_boundary_counterexample :
    example_arith.lt example_arith.CHANGE_SPEED_TRESHOLD
        (example_arith.fabs (example_arith.sub (Xnum.val 0 1) (Xnum.val 1 100))) = false
    ∧ ((Task_upload.Prepare_task example_arith (example_config Vehicle_type.MULTICOPTER 0)
        { Task_upload.Enable_clean_state example_arith example_task_upload with
          request := example_request
            [Action.CHANGE_SPEED (Xnum.val 0 1),
              Action.CHANGE_SPEED (Xnum.val 1 100)] }).prepared_actions.map
        (fun item => (item.command, item.param2)))
        = [(MAV_CMD_DO_CHANGE_SPEED, Xnum.val 0 1), (MAV_CMD_DO_CHANGE_SPEED, Xnum.val 1 100)] := by
  decide

/-- C19 (amended): `Prepare_change_speed` emits nothing and leaves the
context unchanged exactly when the absolute difference between the last
commanded speed and the requested speed compares less than
`CHANGE_SPEED_TRESHOLD`; in every other case (a difference equal to the
threshold or above it, or an undefined one) it appends one DO_CHANGE_SPEED
item with param1 = 1, param2 = requested speed and param3 = -1, and sets
the current commanded speed to the requested speed. -/
theorem C19_change_speed_threshold {F : Type} (A : Arith F) (t : Task_upload F) (speed : F) :
    (A.lt (A.fabs (A.sub t.current_speed speed)) A.CHANGE_SPEED_TRESHOLD = true →
        Task_upload.Prepare_change_speed A t speed = t)
    ∧ (A.lt (A.fabs (A.sub t.current_speed speed)) A.CHANGE_SPEED_TRESHOLD = false →
        (Task_upload.Prepare_change_speed A t speed).current_speed = speed
        ∧ ∃ item : Mission_item F,
            (Task_upload.Prepare_change_speed A t speed).prepared_actions
              = t.prepared_actions ++ [item]
            ∧ item.command = MAV_CMD_DO_CHANGE_SPEED
            ∧ item.param1 = A.of_int 1 ∧ item.param2 = speed ∧ item.param3 = A.of_int (-1)
            ∧ item.frame = MAV_FRAME_MISSION) := by
  refine ⟨fun h => ?_, fun h => ?_⟩
  · unfold Task_upload.Prepare_change_speed
    rw [if_pos h]
  · unfold Task_upload.Prepare_change_speed
    rw [if_neg (by rw [h]; exact Bool.false_ne_true)]
    exact ⟨rfl, _, rfl, rfl, rfl, rfl, rfl, rfl⟩

/-- C19 (amended) on the scenario: after ChangeSpeed(5.0), ChangeSpeed(5.0001)
with threshold 0.01 leaves the compiler state as it was, so the two
actions emit exactly one speed-change item. -/
theorem C19_change_speed_witness :
    Task_upload.Prepare_change_speed example_arith
        (Task_upload.Prepare_change_speed example_arith example_task_upload (Xnum.val 5 1))
        (Xnum.val 50001 10000)
      = Task_upload.Prepare_change_speed example_arith example_task_upload (Xnum.val 5 1)
    ∧ ((Task_upload.Prepare_task example_arith (example_config Vehicle_type.MULTICOPTER 0)
        { Task_upload.Enable_clean_state example_arith example_task_upload with
          request := example_request
            [Action.CHANGE_SPEED (Xnum.val 5 1),
              Action.CHANGE_SPEED (Xnum.val 50001 10000)] }).prepared_actions.map
        (fun item => (item.command, item.param2)))
        = [(MAV_CMD_DO_CHANGE_SPEED, Xnum.val 5 1)] :=
  ⟨(C19_change_speed_threshold example_arith
      (Task_upload.Prepare_change_speed example_arith example_task_upload (Xnum.val 5 1))
      (Xnum.val 50001 10000)).1 (by decide), by decide⟩

/-- C20 as stated fails: the second Move does emit an implicit stop.  For
CameraSeriesByDistance(50) followed by two Moves the items are the start
item, the first waypoint, a second DO_SET_CAM_TRIGG_DIST item, which is
not a start item, and the second waypoint. -/
theorem C20_implicit_stop_counterexample :
    ((Task_upload.Prepare_task example_arith (example_config Vehicle_type.MULTICOPTER 0)
        { Task_upload.Enable_clean_state example_arith example_task_upload with
          request := example_request
            [Action.CAMERA_SERIES_BY_DISTANCE (Xnum.val 50 1),
              Action.MOVE (example_move 100 (Xnum.val 0 1)),
              Action.MOVE (example_move 200 (Xnum.val 0 1))] }).prepared_actions.map
        (fun item => item.command))
        = [MAV_CMD_DO_SET_CAM_TRIGG_DIST, MAV_CMD_NAV_WAYPOINT,
            MAV_CMD_DO_SET_CAM_TRIGG_DIST, MAV_CMD_NAV_WAYPOINT]
    ∧ ((Task_upload.Prepare_task example_arith (example_config Vehicle_type.MULTICOPTER 0)
        { Task_upload.Enable_clean_state example_arith example_task_upload with
          request := example_request
            [Action.CAMERA_SERIES_BY_DISTANCE (Xnum.val 50 1),
              Action.MOVE (example_move 100 (Xnum.val 0 1)),
              Action.MOVE (example_move 200 (Xnum.val 0 1))] }).prepared_actions.map
        (fun item => decide (item.param1 = Xnum.val 50 1)))
        = [true, false, false, false] := by
  decide

/-- C20 (amended): for the action list CameraSeriesByDistance(interval)
followed by two Move actions, compiled from a clean state, the items are:
the distance-trigger start item (DO_SET_CAM_TRIGG_DIST with param1 =
interval), the waypoint of the first Move with no implicit stop before it,
one implicit stop item emitted by the second Move (DO_SET_CAM_TRIGG_DIST
whose param1 is left as `Create` initialises it), and the waypoint of the
second Move. -/
theorem C20_series_then_two_moves {F : Type} (A : Arith F) (cfg : Compiler_config F)
    (t0 : Task_upload F) (req0 : Task_request F) (interval : F) (m1 m2 : Move_action F) :
    (Task_upload.Prepare_task A cfg
        { Task_upload.Enable_clean_state A t0 with
          request := { req0 with
            actions := [Action.CAMERA_SERIES_BY_DISTANCE interval, Action.MOVE m1,
              Action.MOVE m2] } }
      ).prepared_actions.map (fun item => item.command)
      = [MAV_CMD_DO_SET_CAM_TRIGG_DIST, MAV_CMD_NAV_WAYPOINT,
          MAV_CMD_DO_SET_CAM_TRIGG_DIST, MAV_CMD_NAV_WAYPOINT]
    ∧ (Task_upload.Prepare_task A cfg
        { Task_upload.Enable_clean_state A t0 with
          request := { req0 with
            actions := [Action.CAMERA_SERIES_BY_DISTANCE interval, Action.MOVE m1,
              Action.MOVE m2] } }
      ).prepared_actions[0]?.map (fun item => item.param1) = some interval
    ∧ (Task_upload.Prepare_task A cfg
        { Task_upload.Enable_clean_state A t0 with
          request := { req0 with
            actions := [Action.CAMERA_SERIES_BY_DISTANCE interval, Action.MOVE m1,
              Action.MOVE m2] } }
      ).prepared_actions[2]?.map (fun item => item.param1) = some A.Create.param1 := by
  obtain ⟨i0, i1, i2, i3, e, c0, p0, c1, c2, p2, c3⟩ := series_then_two_moves_items A cfg
    { ({ Task_upload.Enable_clean_state A t0 with
          request := { req0 with
            actions := [Action.CAMERA_SERIES_BY_DISTANCE interval, Action.MOVE m1,
              Action.MOVE m2] } } : Task_upload F) with
      prepared_actions := [], last_move_action := none, takeoff_action := none }
    interval m1 m2 rfl rfl rfl
  have hp : (Task_upload.Prepare_task A cfg
      { Task_upload.Enable_clean_state A t0 with
        request := { req0 with
          actions := [Action.CAMERA_SERIES_BY_DISTANCE interval, Action.MOVE m1,
            Action.MOVE m2] } }).prepared_actions = [i0, i1, i2, i3] := e
  rw [hp]
  simp [c0, c1, c2, c3, p0, p2]

/-- C21 at the failing input: with the servo fallback configured
(`camera_trigger_type` 1), the single action CameraTrigger(single photo)
compiles to one DO_REPEAT_SERVO item, and its frame is GLOBAL_RELATIVE_ALT,
not MISSION.  The list of commands given the mission frame holds the
sibling DO_SET_SERVO but not DO_REPEAT_SERVO. -/
theorem C21_repeat_servo_frame :
    (Task_upload.compile example_arith (example_config Vehicle_type.MULTICOPTER 1)
        example_task_upload
        (example_request [Action.CAMERA_TRIGGER Camera_trigger_state.SINGLE_PHOTO 0])
      ).prepared_actions.map (fun item => (item.command, item.frame))
      = [(MAV_CMD_DO_REPEAT_SERVO, MAV_FRAME_GLOBAL_RELATIVE_ALT)]
    ∧ Task_upload.mission_frame_commands.contains MAV_CMD_DO_SET_SERVO = true
    ∧ Task_upload.mission_frame_commands.contains MAV_CMD_DO_REPEAT_SERVO = false := by
  decide

/-- C22: `Prepare_wait` with the last-move reference unset returns the
compiler state unchanged, so no item is emitted and no context field
changes; that is the situation after `Prepare_landing`, which clears the
reference.  With the reference set it appends exactly one NAV_WAYPOINT item
at the position of that Move (latitude and longitude in degrees, altitude
relative to the takeoff altitude) whose param1 is the wait duration. -/
theorem C22_Prepare_wait {F : Type} (A : Arith F) (cfg : Compiler_config F)
    (t : Task_upload F) (wait_time : F) :
    (t.last_move_action = none → Task_upload.Prepare_wait A cfg t wait_time = t)
    ∧ (∀ (position : Geodetic_tuple F) (heading : F),
        Task_upload.Prepare_wait A cfg (Task_upload.Prepare_landing A cfg t position heading)
            wait_time
          = Task_upload.Prepare_landing A cfg t position heading)
    ∧ (∀ move : Move_action F, t.last_move_action = some move →
        ∃ item : Mission_item F,
          (Task_upload.Prepare_wait A cfg t wait_time).prepared_actions
            = t.prepared_actions ++ [item]
          ∧ item.command = MAV_CMD_NAV_WAYPOINT
          ∧ item.param1 = wait_time
          ∧ item.x = Task_upload.deg A move.position.latitude
          ∧ item.y = Task_upload.deg A move.position.longitude
          ∧ item.z = A.sub move.position.altitude t.request.takeoff_altitude) := by
  refine ⟨fun h => ?_, fun position heading => ?_, fun move h => ?_⟩
  · unfold Task_upload.Prepare_wait
    rw [h]
  · unfold Task_upload.Prepare_wait
    rfl
  · unfold Task_upload.Prepare_wait
    rw [h]
    dsimp only [Task_upload.Add_mission_item]
    refine ⟨_, rfl, ?_, ?_, ?_, ?_, ?_⟩ <;> split_ifs <;> rfl

/-- C22 on a Wait of 5 seconds after a Move to longitude 0.1: one waypoint
item with param1 = 5 is appended to the item of the Move. -/
theorem C22_Prepare_wait_witness :
    ((Task_upload.Prepare_wait example_arith (example_config Vehicle_type.MULTICOPTER 0)
        (Task_upload.Prepare_move example_arith (example_config Vehicle_type.MULTICOPTER 0)
          example_task_upload (example_move 100 (Xnum.val 0 1))).1
        (Xnum.val 5 1)).prepared_actions.map
        (fun item => (item.command, item.param1)))
      = [(MAV_CMD_NAV_WAYPOINT, Xnum.val 0 1), (MAV_CMD_NAV_WAYPOINT, Xnum.val 5 1)]
    ∧ Task_upload.Prepare_wait example_arith (example_config Vehicle_type.MULTICOPTER 0)
        example_task_upload (Xnum.val 5 1) = example_task_upload :=
  ⟨by decide,
    (C22_Prepare_wait example_arith (example_config Vehicle_type.MULTICOPTER 0)
      example_task_upload (Xnum.val 5 1)).1 (by decide)⟩

/-- C23 at the failing inputs: with a discovered camera and no camera mode
set yet, the three second wait after SET_CAMERA_MODE is a Wait action,
which `Prepare_wait` drops when the last-move reference is unset.  The
single action CameraTrigger(single photo) compiles to SET_CAMERA_MODE
followed directly by IMAGE_START_CAPTURE, and so does the trigger after a
Takeoff; after a Move the wait waypoint with param1 = 3 stands between
them. -/
theorem C23_wait_dropped_without_move :
    (Task_upload.compile example_arith (example_config Vehicle_type.MULTICOPTER 0)
        example_task_upload
        (example_request [Action.CAMERA_TRIGGER Camera_trigger_state.SINGLE_PHOTO 0])
      ).prepared_actions.map (fun item => item.command)
      = [MAV_CMD_SET_CAMERA_MODE, MAV_CMD_IMAGE_START_CAPTURE]
    ∧ (Task_upload.compile example_arith (example_config Vehicle_type.MULTICOPTER 0)
        example_task_upload
        (example_request
          [Action.TAKEOFF ⟨(example_move 100 (Xnum.val 0 1)).position, Xnum.val 0 1⟩,
            Action.CAMERA_TRIGGER Camera_trigger_state.SINGLE_PHOTO 0])
      ).prepared_actions.map (fun item => item.command)
      = [MAV_CMD_NAV_TAKEOFF, MAV_CMD_SET_CAMERA_MODE, MAV_CMD_IMAGE_START_CAPTURE]
    ∧ (Task_upload.compile example_arith (example_config Vehicle_type.MULTICOPTER 0)
        example_task_upload
        (example_request
          [Action.MOVE (example_move 100 (Xnum.val 0 1)),
            Action.CAMERA_TRIGGER Camera_trigger_state.SINGLE_PHOTO 0])
      ).prepared_actions.map (fun item => (item.command, item.param1))
      = [(MAV_CMD_NAV_WAYPOINT, Xnum.val 0 1), (MAV_CMD_SET_CAMERA_MODE, Xnum.val 0 1),
          (MAV_CMD_NAV_WAYPOINT, Xnum.val 3 1),
          (MAV_CMD_IMAGE_START_CAPTURE, Xnum.val 0 1)] := by
  decide

/-- C24 as stated fails: the filtering pass for a fixed wing keeps the two
camera series actions.  The list CameraSeriesByDistance, CameraSeriesByTime,
CameraTrigger, Move comes out as CameraSeriesByDistance, CameraSeriesByTime,
Move. -/
theorem C24_series_kept_counterexample :
    (Task_upload.Filter_actions example_arith (example_config Vehicle_type.FIXED_WING 0)
        { example_task_upload with
          request := example_request
            [Action.CAMERA_SERIES_BY_DISTANCE (Xnum.val 50 1),
              Action.CAMERA_SERIES_BY_TIME 1000,
              Action.CAMERA_TRIGGER Camera_trigger_state.SINGLE_PHOTO 0,
              Action.MOVE (example_move 100 (Xnum.val 0 1))] }).request.actions
      = [Action.CAMERA_SERIES_BY_DISTANCE (Xnum.val 50 1),
          Action.CAMERA_SERIES_BY_TIME 1000,
          Action.MOVE (example_move 100 (Xnum.val 0 1))] := by
  decide

/-- C24 (amended): after the filtering pass for a fixed wing or a ground
vehicle the action list contains no CameraControl, no CameraTrigger, no
POI, no Heading and no Panorama action; every other action, the camera
series actions CameraSeriesByTime and CameraSeriesByDistance included, is
kept, and the kept actions are in their original relative order. -/
theorem C24_filter_plane_rover {F : Type} (A : Arith F) (cfg : Compiler_config F)
    (t : Task_upload F)
    (hty : cfg.vehicle_type = Vehicle_type.FIXED_WING
      ∨ cfg.vehicle_type = Vehicle_type.GROUND) :
    (Task_upload.Filter_actions A cfg t).request.actions
        = t.request.actions.filter
            (fun action => !Task_upload.erased_for_plane_or_rover action)
    ∧ (Task_upload.Filter_actions A cfg t).request.actions.Sublist t.request.actions
    ∧ (∀ action ∈ (Task_upload.Filter_actions A cfg t).request.actions,
        (∀ tilt roll yaw, action ≠ Action.CAMERA_CONTROL tilt roll yaw)
        ∧ (∀ state interval, action ≠ Action.CAMERA_TRIGGER state interval)
        ∧ (∀ position active, action ≠ Action.POI position active)
        ∧ (∀ heading, action ≠ Action.HEADING heading)
        ∧ action ≠ Action.PANORAMA)
    ∧ (∀ action ∈ t.request.actions,
        (∀ tilt roll yaw, action ≠ Action.CAMERA_CONTROL tilt roll yaw) →
        (∀ state interval, action ≠ Action.CAMERA_TRIGGER state interval) →
        (∀ position active, action ≠ Action.POI position active) →
        (∀ heading, action ≠ Action.HEADING heading) →
        action ≠ Action.PANORAMA →
        action ∈ (Task_upload.Filter_actions A cfg t).request.actions) := by
  have he : (Task_upload.Filter_actions A cfg t).request.actions
      = t.request.actions.filter
          (fun action => !Task_upload.erased_for_plane_or_rover action) := by
    unfold Task_upload.Filter_actions
    rcases hty with h | h <;> rw [h] <;> rfl
  rw [he]
  refine ⟨rfl, List.filter_sublist _, ?_, ?_⟩
  · intro action hmem
    have hk := (List.mem_filter.1 hmem).2
    refine ⟨?_, ?_, ?_, ?_, ?_⟩
    · intro tilt roll yaw h
      rw [h] at hk
      simp [Task_upload.erased_for_plane_or_rover] at hk
    · intro state interval h
      rw [h] at hk
      simp [Task_upload.erased_for_plane_or_rover] at hk
    · intro position active h
      rw [h] at hk
      simp [Task_upload.erased_for_plane_or_rover] at hk
    · intro heading h
      rw [h] at hk
      simp [Task_upload.erased_for_plane_or_rover] at hk
    · intro h
      rw [h] at hk
      simp [Task_upload.erased_for_plane_or_rover] at hk
  · intro action hmem h1 h2 h3 h4 h5
    refine List.mem_filter.2 ⟨hmem, ?_⟩
    cases action <;> simp [Task_upload.erased_for_plane_or_rover] <;>
      first
      | exact absurd rfl (h1 _ _ _)
      | exact absurd rfl (h2 _ _)
      | exact absurd rfl (h3 _ _)
      | exact absurd rfl (h4 _)
      | exact absurd rfl h5

/-- C24 (amended) on a ground vehicle: Heading and POI are erased, the Move
and the camera series stay, in order. -/
theorem C24_filter_plane_rover_witness :
    (Task_upload.Filter_actions example_arith (example_config Vehicle_type.GROUND 0)
        { example_task_upload with
          request := example_request
            [Action.HEADING (Xnum.val 1 1),
              Action.MOVE (example_move 100 (Xnum.val 0 1)),
              Action.POI ⟨Xnum.val 0 1, Xnum.val 0 1, Xnum.val 0 1⟩ true,
              Action.CAMERA_SERIES_BY_TIME 1000] }).request.actions
      = [Action.MOVE (example_move 100 (Xnum.val 0 1)), Action.CAMERA_SERIES_BY_TIME 1000] :=
  (C24_filter_plane_rover example_arith (example_config Vehicle_type.GROUND 0)
    { example_task_upload with
      request := example_request
        [Action.HEADING (Xnum.val 1 1),
          Action.MOVE (example_move 100 (Xnum.val 0 1)),
          Action.POI ⟨Xnum.val 0 1, Xnum.val 0 1, Xnum.val 0 1⟩ true,
          Action.CAMERA_SERIES_BY_TIME 1000] }
    (Or.inr rfl)).1.trans (by decide)

/-- C25 as stated fails for a fixed wing: the filtering pass for a fixed
wing (and for a ground vehicle) does not look at the speeds.  For the
request holding ChangeSpeed(5), with ceiling 20, `max_mission_speed` is 0
after the pass, while the largest requested speed is 5. -/
theorem C25_fixed_wing_speed_counterexample :
    (Task_upload.Enable_prepare example_arith (example_config Vehicle_type.FIXED_WING 0)
        example_task_upload (example_request [Action.CHANGE_SPEED (Xnum.val 5 1)])).2 = true
    ∧ (Task_upload.Enable_prepare example_arith (example_config Vehicle_type.FIXED_WING 0)
        example_task_upload
        (example_request [Action.CHANGE_SPEED (Xnum.val 5 1)])).1.max_mission_speed
      = Xnum.val 0 1
    ∧ clamp_to_ceiling example_arith
        (max_change_speed example_arith [Action.CHANGE_SPEED (Xnum.val 5 1)]) = Xnum.val 5 1 := by
  decide

/-- C25 (amended): when `Enable` does not refuse the request, after its
filtering pass and speed ceiling the accumulated `max_mission_speed` is, for
the copter classes (helicopter, multicopter, VTOL), the running maximum of
the speeds of the ChangeSpeed actions of the request starting from 0
(0 when there is none), clamped to MAX_COPTER_SPEED; for a fixed wing and
for a ground vehicle the speeds are not tracked and the value is 0
(clamped), whatever the request holds. -/
theorem C25_max_mission_speed {F : Type} (A : Arith F) (cfg : Compiler_config F)
    (t : Task_upload F) (request : Task_request F)
    (hok : (Task_upload.Enable_prepare A cfg t request).2 = true) :
    (cfg.vehicle_type = Vehicle_type.HELICOPTER ∨ cfg.vehicle_type = Vehicle_type.MULTICOPTER
        ∨ cfg.vehicle_type = Vehicle_type.VTOL →
      (Task_upload.Enable_prepare A cfg t request).1.max_mission_speed
        = clamp_to_ceiling A (max_change_speed A request.actions))
    ∧ (cfg.vehicle_type = Vehicle_type.FIXED_WING ∨ cfg.vehicle_type = Vehicle_type.GROUND →
      (Task_upload.Enable_prepare A cfg t request).1.max_mission_speed
        = clamp_to_ceiling A (A.of_int 0)) := by
  obtain ⟨request2, hactions, hspeed⟩ := Enable_prepare_speed A cfg t request hok
  refine ⟨fun hty => ?_, fun hty => ?_⟩
  · rw [hspeed, Filter_actions_copter_speed A cfg _ hty,
      (Filter_copter_actions_fold A _ _).1]
    show clamp_to_ceiling A (request2.actions.foldl _ (A.of_int 0)) = _
    rw [hactions]
    rfl
  · rw [hspeed, Filter_actions_plane_rover_speed A cfg _ hty]
    rfl

/-- C25 (amended) on a multicopter with ceiling 20: the speeds 5, 30 and 7
give 20, the speeds 5 and 7 give 7. -/
theorem C25_max_mission_speed_witness :
    (Task_upload.Enable_prepare example_arith (example_config Vehicle_type.MULTICOPTER 0)
        example_task_upload
        (example_request [Action.CHANGE_SPEED (Xnum.val 5 1),
          Action.CHANGE_SPEED (Xnum.val 30 1),
          Action.CHANGE_SPEED (Xnum.val 7 1)])).1.max_mission_speed = Xnum.val 20 1
    ∧ (Task_upload.Enable_prepare example_arith (example_config Vehicle_type.MULTICOPTER 0)
        example_task_upload
        (example_request [Action.CHANGE_SPEED (Xnum.val 5 1),
          Action.MOVE (example_move 100 (Xnum.val 0 1)),
          Action.CHANGE_SPEED (Xnum.val 7 1)])).1.max_mission_speed = Xnum.val 7 1 :=
  ⟨((C25_max_mission_speed example_arith (example_config Vehicle_type.MULTICOPTER 0)
      example_task_upload
      (example_request [Action.CHANGE_SPEED (Xnum.val 5 1),
        Action.CHANGE_SPEED (Xnum.val 30 1),
        Action.CHANGE_SPEED (Xnum.val 7 1)]) (by decide)).1 (Or.inr (Or.inl rfl))).trans
      (by decide),
    by decide⟩

/-- C27 as stated fails: a heartbeat whose custom mode equals the stored
native flight mode is not decoded again, so the control mode reported
before stays.  Two vehicles that differ only in the control mode reported
before (JOYSTICK and MANUAL), both with the stored main mode POSCTL and no
direct control engaged, receive the same valid heartbeat in main mode POSCTL
and report JOYSTICK and MANUAL. -/
theorem C27_prior_state_counterexample :
    example_reported MAV_MODE_FLAG_CUSTOM_MODE_ENABLED false none
        (example_custom_mode Px4_main_mode_POSCTL 0) (some Control_mode.MANUAL) none
      = { example_reported MAV_MODE_FLAG_CUSTOM_MODE_ENABLED false none
            (example_custom_mode Px4_main_mode_POSCTL 0) (some Control_mode.JOYSTICK) none with
          control_mode := some Control_mode.MANUAL }
    ∧ (Reported_vehicle.Process_heartbeat none
        (example_reported MAV_MODE_FLAG_CUSTOM_MODE_ENABLED false none
          (example_custom_mode Px4_main_mode_POSCTL 0) (some Control_mode.JOYSTICK) none)
        true (example_custom_mode Px4_main_mode_POSCTL 0)).reported_modes
      = (some Control_mode.JOYSTICK, none)
    ∧ (Reported_vehicle.Process_heartbeat none
        (example_reported MAV_MODE_FLAG_CUSTOM_MODE_ENABLED false none
          (example_custom_mode Px4_main_mode_POSCTL 0) (some Control_mode.MANUAL) none)
        true (example_custom_mode Px4_main_mode_POSCTL 0)).reported_modes
      = (some Control_mode.MANUAL, none) := by
  decide

/-- C27 (amended): the (control mode, flight mode) pair reported after a
valid heartbeat is a function of the heartbeat's raw mode bits (base mode
and custom mode), the armed flag, the direct-control-engaged flag and the
prior decoder state (stored native flight mode, control mode reported
before, stored flight mode): two vehicles that agree on all of these report
the same pair.  The prior state drops out only when the custom-mode flag is
set and the custom mode differs from the stored native flight mode of both
vehicles; with the custom-mode flag clear the control mode does not depend
on the prior state, and the flight mode reported is the stored one. -/
theorem C27_reported_modes (i1 i2 : Option Control_mode) (v1 v2 : Reported_vehicle)
    (custom_mode : Nat)
    (hbase : v1.base_mode = v2.base_mode) (harmed : v1.is_armed = v2.is_armed)
    (hdirect : v1.direct_vehicle_control.isSome = v2.direct_vehicle_control.isSome) :
    (v1.native_flight_mode = v2.native_flight_mode → v1.control_mode = v2.control_mode →
        v1.current_flight_mode = v2.current_flight_mode →
        (Reported_vehicle.Process_heartbeat i1 v1 true custom_mode).reported_modes
          = (Reported_vehicle.Process_heartbeat i2 v2 true custom_mode).reported_modes)
    ∧ (v1.has_mode_flag MAV_MODE_FLAG_CUSTOM_MODE_ENABLED = true →
        v1.native_flight_mode ≠ custom_mode % 2 ^ 32 →
        v2.native_flight_mode ≠ custom_mode % 2 ^ 32 →
        (Reported_vehicle.Process_heartbeat i1 v1 true custom_mode).reported_modes
          = (Reported_vehicle.Process_heartbeat i2 v2 true custom_mode).reported_modes)
    ∧ (v1.has_mode_flag MAV_MODE_FLAG_CUSTOM_MODE_ENABLED = false →
        (Reported_vehicle.Process_heartbeat i1 v1 true custom_mode).control_mode
          = (Reported_vehicle.Process_heartbeat i2 v2 true custom_mode).control_mode
        ∧ (Reported_vehicle.Process_heartbeat i1 v1 true custom_mode).t_flight_mode
          = v1.current_flight_mode
        ∧ (Reported_vehicle.Process_heartbeat i2 v2 true custom_mode).t_flight_mode
          = v2.current_flight_mode) := by
  obtain ⟨w1, e1, c1, f1, _⟩ := Process_heartbeat_modes i1 v1 custom_mode
  obtain ⟨w2, e2, c2, f2, _⟩ := Process_heartbeat_modes i2 v2 custom_mode
  have hflag : ∀ flag, v1.has_mode_flag flag = v2.has_mode_flag flag := by
    intro flag
    unfold Reported_vehicle.has_mode_flag
    rw [hbase]
  have hd1 := (Decode_native_flight_mode_modes v1 (custom_mode % 2 ^ 32))
  have hd2 := (Decode_native_flight_mode_modes v2 (custom_mode % 2 ^ 32))
  have hpair : w1.control_mode = w2.control_mode →
      w1.direct_vehicle_control.isSome = w2.direct_vehicle_control.isSome →
      (Reported_vehicle.Process_heartbeat i1 v1 true custom_mode).control_mode
        = (Reported_vehicle.Process_heartbeat i2 v2 true custom_mode).control_mode := by
    intro hc hd
    rw [c1, c2, hc, hd]
  unfold Reported_vehicle.reported_modes
  refine ⟨fun hn hc hf => ?_, fun hcustom hn1 hn2 => ?_, fun hcustom => ?_⟩
  · have hw : w1.control_mode = w2.control_mode
        ∧ w1.direct_vehicle_control.isSome = w2.direct_vehicle_control.isSome
        ∧ w1.current_flight_mode = w2.current_flight_mode := by
      rw [e1, e2]
      simp only [hflag, hn, ← harmed]
      split_ifs
      · have p1 := congrArg Prod.fst hd1.1
        have p2 := congrArg Prod.fst hd2.1
        have q1 := congrArg Prod.snd hd1.1
        have q2 := congrArg Prod.snd hd2.1
        dsimp only at p1 p2 q1 q2
        exact ⟨by rw [p1, p2], by rw [hd1.2.2, hd2.2.2, hdirect], by rw [q1, q2]⟩
      all_goals exact ⟨by first | exact hc | rfl, hdirect, hf⟩
    rw [hpair hw.1 hw.2.1, f1, f2, hw.2.2]
  · have hcustom2 : v2.has_mode_flag MAV_MODE_FLAG_CUSTOM_MODE_ENABLED = true := by
      rw [← hflag]
      exact hcustom
    have k1 : w1 = Reported_vehicle.Decode_native_flight_mode v1 (custom_mode % 2 ^ 32) := by
      rw [e1, if_pos hcustom, if_pos (by simpa using hn1)]
    have k2 : w2 = Reported_vehicle.Decode_native_flight_mode v2 (custom_mode % 2 ^ 32) := by
      rw [e2, if_pos hcustom2, if_pos (by simpa using hn2)]
    have p1 := congrArg Prod.fst hd1.1
    have p2 := congrArg Prod.fst hd2.1
    have q1 := congrArg Prod.snd hd1.1
    have q2 := congrArg Prod.snd hd2.1
    dsimp only at p1 p2 q1 q2
    rw [hpair (by rw [k1, k2, p1, p2]) (by rw [k1, k2, hd1.2.2, hd2.2.2, hdirect]), f1, f2,
      k1, k2, q1, q2]
  · have hcustom2 : v2.has_mode_flag MAV_MODE_FLAG_CUSTOM_MODE_ENABLED = false := by
      rw [← hflag]
      exact hcustom
    have hw : w1.control_mode = w2.control_mode
        ∧ w1.direct_vehicle_control.isSome = w2.direct_vehicle_control.isSome
        ∧ w1.current_flight_mode = v1.current_flight_mode
        ∧ w2.current_flight_mode = v2.current_flight_mode := by
      rw [e1, e2]
      simp only [hcustom, hcustom2, Bool.false_eq_true, if_false, ← hflag, ← harmed]
      split_ifs <;> exact ⟨rfl, hdirect, rfl, rfl⟩
    exact ⟨hpair hw.1 hw.2.1, by rw [f1, hw.2.2.1], by rw [f2, hw.2.2.2]⟩

/-- C27 (amended) on two vehicles with different prior state receiving a
heartbeat whose custom mode (AUTO, mission) differs from both stored modes:
both report (AUTO, WAYPOINTS). -/
theorem C27_reported_modes_witness :
    (Reported_vehicle.Process_heartbeat none
        (example_reported MAV_MODE_FLAG_CUSTOM_MODE_ENABLED true none
          (example_custom_mode Px4_main_mode_POSCTL 0) (some Control_mode.JOYSTICK) none)
        true (example_custom_mode Px4_main_mode_AUTO Px4_auto_sub_mode_AUTO_MISSION)
      ).reported_modes
      = (Reported_vehicle.Process_heartbeat none
        (example_reported MAV_MODE_FLAG_CUSTOM_MODE_ENABLED true none 0 none
          (some Flight_mode.HOLD))
        true (example_custom_mode Px4_main_mode_AUTO Px4_auto_sub_mode_AUTO_MISSION)
      ).reported_modes :=
  (C27_reported_modes none none
    (example_reported MAV_MODE_FLAG_CUSTOM_MODE_ENABLED true none
      (example_custom_mode Px4_main_mode_POSCTL 0) (some Control_mode.JOYSTICK) none)
    (example_reported MAV_MODE_FLAG_CUSTOM_MODE_ENABLED true none 0 none
      (some Flight_mode.HOLD))
    (example_custom_mode Px4_main_mode_AUTO Px4_auto_sub_mode_AUTO_MISSION)
    rfl rfl rfl).2.1 (by decide) (by decide) (by decide)

/-- C28 at the failing input: a valid heartbeat without any of the mode
flags leaves the control mode without a value, and `Update_capability_states`
then compares its uninitialised local.  On the same vehicle state, a call
whose local compares as MANUAL and one whose local compares as AUTO give
different tables (manual off and arm on, against manual on and arm off),
and a second call changes the table the first one left.  With a control
mode that has a value the claim holds: the table depends only on the armed
flag, airborne flag, control mode and flight mode, and a second call changes
nothing, whatever the uninitialised locals. -/
theorem C28_uninitialised_control_mode :
    (Reported_vehicle.Process_heartbeat (some Control_mode.MANUAL)
        (example_reported 0 false none 0 (some Control_mode.AUTO) none) true 0).control_mode
      = none
    ∧ (Reported_vehicle.Process_heartbeat (some Control_mode.MANUAL)
        (example_reported 0 false none 0 (some Control_mode.AUTO) none) true 0
      ).commands.c_manual = false
    ∧ (Reported_vehicle.Process_heartbeat (some Control_mode.AUTO)
        (example_reported 0 false none 0 (some Control_mode.AUTO) none) true 0
      ).commands.c_manual = true
    ∧ (Reported_vehicle.Process_heartbeat (some Control_mode.MANUAL)
        (example_reported 0 false none 0 (some Control_mode.AUTO) none) true 0
      ).commands.c_arm = true
    ∧ (Reported_vehicle.Process_heartbeat (some Control_mode.AUTO)
        (example_reported 0 false none 0 (some Control_mode.AUTO) none) true 0
      ).commands.c_arm = false
    ∧ Reported_vehicle.Update_capability_states (some Control_mode.AUTO)
        (Reported_vehicle.Process_heartbeat (some Control_mode.MANUAL)
          (example_reported 0 false none 0 (some Control_mode.AUTO) none) true 0)
      ≠ Reported_vehicle.Process_heartbeat (some Control_mode.MANUAL)
          (example_reported 0 false none 0 (some Control_mode.AUTO) none) true 0
    ∧ ∀ (i1 i2 : Option Control_mode) (v1 v2 : Reported_vehicle) (mode : Control_mode),
        v1.control_mode = some mode → v1.is_armed = v2.is_armed →
        v1.is_airborne = v2.is_airborne → v1.control_mode = v2.control_mode →
        v1.t_flight_mode = v2.t_flight_mode →
        (Reported_vehicle.Update_capability_states i1 v1).commands
          = (Reported_vehicle.Update_capability_states i2 v2).commands
        ∧ Reported_vehicle.Update_capability_states i2
            (Reported_vehicle.Update_capability_states i1 v1)
          = Reported_vehicle.Update_capability_states i1 v1 :=
  ⟨by decide, by decide, by decide, by decide, by decide, by decide,
    fun i1 i2 v1 v2 mode h1 h2 h3 h4 h5 =>
      Update_capability_states_known_mode i1 i2 v1 v2 mode h1 h2 h3 h4 h5⟩

/-- C29: on a valid heartbeat with the custom-mode flag clear in the base
mode and no direct control channel engaged, `Process_heartbeat` sets the
control mode by fixed priority: auto-enabled gives AUTO if armed and MANUAL
otherwise; else manual-input-enabled gives AUTO; else guided-enabled gives
CLICK_GO; else the control mode has no value. -/
theorem C29_control_mode_without_custom_flag (indeterminate : Option Control_mode)
    (v : Reported_vehicle) (custom_mode : Nat)
    (hcustom : v.has_mode_flag MAV_MODE_FLAG_CUSTOM_MODE_ENABLED = false)
    (hdirect : v.direct_vehicle_control = none) :
    (v.has_mode_flag MAV_MODE_FLAG_AUTO_ENABLED = true → v.is_armed = true →
      (Reported_vehicle.Process_heartbeat indeterminate v true custom_mode).control_mode
        = some Control_mode.AUTO)
    ∧ (v.has_mode_flag MAV_MODE_FLAG_AUTO_ENABLED = true → v.is_armed = false →
      (Reported_vehicle.Process_heartbeat indeterminate v true custom_mode).control_mode
        = some Control_mode.MANUAL)
    ∧ (v.has_mode_flag MAV_MODE_FLAG_AUTO_ENABLED = false →
      v.has_mode_flag MAV_MODE_FLAG_MANUAL_INPUT_ENABLED = true →
      (Reported_vehicle.Process_heartbeat indeterminate v true custom_mode).control_mode
        = some Control_mode.AUTO)
    ∧ (v.has_mode_flag MAV_MODE_FLAG_AUTO_ENABLED = false →
      v.has_mode_flag MAV_MODE_FLAG_MANUAL_INPUT_ENABLED = false →
      v.has_mode_flag MAV_MODE_FLAG_GUIDED_ENABLED = true →
      (Reported_vehicle.Process_heartbeat indeterminate v true custom_mode).control_mode
        = some Control_mode.CLICK_GO)
    ∧ (v.has_mode_flag MAV_MODE_FLAG_AUTO_ENABLED = false →
      v.has_mode_flag MAV_MODE_FLAG_MANUAL_INPUT_ENABLED = false →
      v.has_mode_flag MAV_MODE_FLAG_GUIDED_ENABLED = false →
      (Reported_vehicle.Process_heartbeat indeterminate v true custom_mode).control_mode
        = none) := by
  obtain ⟨w, e, c, _, _⟩ := Process_heartbeat_modes indeterminate v custom_mode
  rw [c, e]
  refine ⟨fun ha harm => ?_, fun ha harm => ?_, fun ha hm => ?_, fun ha hm hg => ?_,
    fun ha hm hg => ?_⟩
  · simp [hcustom, ha, harm, hdirect]
  · simp [hcustom, ha, harm, hdirect]
  · simp [hcustom, ha, hm, hdirect]
  · simp [hcustom, ha, hm, hg, hdirect]
  · simp [hcustom, ha, hm, hg, hdirect]

/-- C29 on a disarmed vehicle whose base mode has the auto-enabled flag
only: the control mode is MANUAL. -/
theorem C29_control_mode_witness :
    (Reported_vehicle.Process_heartbeat none
        (example_reported MAV_MODE_FLAG_AUTO_ENABLED false none 0 none none) true 0
      ).control_mode = some Control_mode.MANUAL :=
  (C29_control_mode_without_custom_flag none
    (example_reported MAV_MODE_FLAG_AUTO_ENABLED false none 0 none none) 0
    (by decide) (by decide)).2.1 (by decide) (by decide)

/-- C30 as stated fails: a heartbeat whose custom mode equals the stored
native flight mode is not decoded.  A vehicle with direct control engaged
receives a heartbeat in main mode POSCTL and reports JOYSTICK; direct
control is then stopped; the next heartbeat, again in main mode POSCTL
and with no direct control engaged, still reports JOYSTICK where the
decoding of POSCTL gives MANUAL. -/
theorem C30_unchanged_mode_counterexample :
    (Reported_vehicle.Process_heartbeat none example_joystick_start true
        (example_custom_mode Px4_main_mode_POSCTL 0)).reported_modes
      = (some Control_mode.JOYSTICK, none)
    ∧ example_joystick_stopped.direct_vehicle_control = none
    ∧ example_joystick_stopped.has_mode_flag MAV_MODE_FLAG_CUSTOM_MODE_ENABLED = true
    ∧ (Reported_vehicle.Process_heartbeat none example_joystick_stopped true
        (example_custom_mode Px4_main_mode_POSCTL 0)).reported_modes
      = (some Control_mode.JOYSTICK, none)
    ∧ decode_custom_mode
        (Px4_custom_mode.main_mode (example_custom_mode Px4_main_mode_POSCTL 0))
        (Px4_custom_mode.sub_mode (example_custom_mode Px4_main_mode_POSCTL 0)) false
      = (some Control_mode.MANUAL, none) := by
  decide

/-- C30 (amended): when the custom-mode flag is set, a valid heartbeat whose
custom mode differs from the stored native flight mode is decoded from its
{main_mode, sub_mode}: main mode AUTO with sub-mode loiter gives
(CLICK_GO, HOLD), land gives (AUTO, LAND), mission gives (AUTO, WAYPOINTS),
return-to-launch gives (AUTO, RTH), takeoff gives (AUTO, TAKEOFF), any
other sub-mode gives (AUTO, no flight mode); any non-AUTO main mode gives
control mode MANUAL (JOYSTICK when direct control is engaged) with no
flight mode; and the custom mode becomes the stored native flight mode.  A
heartbeat whose custom mode equals the stored one is not decoded: the
control mode reported before stays (MANUAL turning into JOYSTICK when direct
control is engaged) and the stored flight mode is reported. -/
theorem C30_custom_mode_decoding (indeterminate : Option Control_mode)
    (v : Reported_vehicle) (custom_mode : Nat)
    (hcustom : v.has_mode_flag MAV_MODE_FLAG_CUSTOM_MODE_ENABLED = true) :
    (v.native_flight_mode ≠ custom_mode % 2 ^ 32 →
      (Reported_vehicle.Process_heartbeat indeterminate v true custom_mode).reported_modes
        = decode_custom_mode (Px4_custom_mode.main_mode (custom_mode % 2 ^ 32))
            (Px4_custom_mode.sub_mode (custom_mode % 2 ^ 32))
            v.direct_vehicle_control.isSome
      ∧ (Reported_vehicle.Process_heartbeat indeterminate v true custom_mode
          ).native_flight_mode = custom_mode % 2 ^ 32)
    ∧ (v.native_flight_mode = custom_mode % 2 ^ 32 →
      (Reported_vehicle.Process_heartbeat indeterminate v true custom_mode).reported_modes
        = (if v.control_mode = some Control_mode.MANUAL ∧ v.direct_vehicle_control.isSome
            then some Control_mode.JOYSTICK else v.control_mode,
          v.current_flight_mode)) := by
  obtain ⟨w, e, c, f, n⟩ := Process_heartbeat_modes indeterminate v custom_mode
  unfold Reported_vehicle.reported_modes
  refine ⟨fun hn => ?_, fun hn => ?_⟩
  · have k : w = Reported_vehicle.Decode_native_flight_mode v (custom_mode % 2 ^ 32) := by
      rw [e, if_pos hcustom, if_pos (by simpa using hn)]
    obtain ⟨d1, d2, d3⟩ := Decode_native_flight_mode_modes v (custom_mode % 2 ^ 32)
    have p := congrArg Prod.fst d1
    have q := congrArg Prod.snd d1
    dsimp only at p q
    rw [c, f, n, k, p, q, d2, d3]
    refine ⟨?_, rfl⟩
    unfold decode_custom_mode
    generalize Px4_custom_mode.main_mode (custom_mode % 2 ^ 32) = main_mode
    generalize Px4_custom_mode.sub_mode (custom_mode % 2 ^ 32) = sub_mode
    by_cases hm : main_mode = Px4_main_mode_AUTO
    · simp only [hm, if_true]
      split_ifs <;> simp at *
    · simp only [hm, if_false, Bool.false_eq_true]
      cases v.direct_vehicle_control.isSome <;> simp
  · have k : w = v := by
      rw [e, if_pos hcustom, if_neg (by simpa using hn)]
    rw [c, f, k]

/-- C30 (amended) on a heartbeat in (AUTO, loiter) received by a vehicle
whose stored native flight mode is 0: it reports (CLICK_GO, HOLD). -/
theorem C30_custom_mode_decoding_witness :
    (Reported_vehicle.Process_heartbeat none
        (example_reported MAV_MODE_FLAG_CUSTOM_MODE_ENABLED true none 0 none none) true
        (example_custom_mode Px4_main_mode_AUTO Px4_auto_sub_mode_AUTO_LOITER)).reported_modes
      = (some Control_mode.CLICK_GO, some Flight_mode.HOLD) :=
  ((C30_custom_mode_decoding none
    (example_reported MAV_MODE_FLAG_CUSTOM_MODE_ENABLED true none 0 none none)
    (example_custom_mode Px4_main_mode_AUTO Px4_auto_sub_mode_AUTO_LOITER)
    (by decide)).1 (by decide)).1.trans (by decide)

/-- C31 as stated fails: on the ground the arm command also depends on the
control mode, and the waypoint command is enabled while armed.  Two
disarmed vehicles on the ground, in control modes AUTO and MANUAL, have arm
disabled and enabled; an armed vehicle on the ground has waypoint
enabled. -/
theorem C31_arm_and_waypoint_counterexample :
    (example_reported 0 false none 0 (some Control_mode.AUTO) none).is_airborne = false
    ∧ (Reported_vehicle.Update_capability_states none
        (example_reported 0 false none 0 (some Control_mode.AUTO) none)).commands.c_arm = false
    ∧ (Reported_vehicle.Update_capability_states none
        (example_reported 0 false none 0 (some Control_mode.MANUAL) none)).commands.c_arm = true
    ∧ (example_reported 0 true none 0 (some Control_mode.MANUAL) none).is_airborne = false
    ∧ (Reported_vehicle.Update_capability_states none
        (example_reported 0 true none 0 (some Control_mode.MANUAL) none)).commands.c_waypoint
      = true := by
  decide

/-- C31 (amended): while the vehicle is not airborne, after
`Update_capability_states` the takeoff command is enabled exactly when the
vehicle is armed, whatever the control mode and flight mode; when the
control mode has a value, the arm command is enabled exactly when the
vehicle is not armed and that control mode is not AUTO; the waypoint command
is enabled exactly when the vehicle is armed; and land, return-to-home,
pause, resume and guided are disabled. -/
theorem C31_not_airborne_commands (indeterminate : Option Control_mode)
    (v : Reported_vehicle) (hground : v.is_airborne = false) :
    (Reported_vehicle.Update_capability_states indeterminate v).commands.c_takeoff_command
      = v.is_armed
    ∧ (∀ mode : Control_mode, v.control_mode = some mode →
        (Reported_vehicle.Update_capability_states indeterminate v).commands.c_arm
          = (!v.is_armed && mode != Control_mode.AUTO))
    ∧ (Reported_vehicle.Update_capability_states indeterminate v).commands.c_waypoint
      = v.is_armed
    ∧ (Reported_vehicle.Update_capability_states indeterminate v).commands.c_land_command
      = false
    ∧ (Reported_vehicle.Update_capability_states indeterminate v).commands.c_rth = false
    ∧ (Reported_vehicle.Update_capability_states indeterminate v).commands.c_pause = false
    ∧ (Reported_vehicle.Update_capability_states indeterminate v).commands.c_resume = false
    ∧ (Reported_vehicle.Update_capability_states indeterminate v).commands.c_guided
      = false := by
  have hb : (v.is_armed && v.is_airborne) = false := by
    rw [hground]
    exact Bool.and_false _
  unfold Reported_vehicle.Update_capability_states
  dsimp only
  rw [hb]
  refine ⟨rfl, fun mode hmode => ?_, rfl, rfl, rfl, rfl, rfl, rfl⟩
  rw [hmode]
  cases mode <;> rfl

/-- C31 (amended) on an armed vehicle on the ground: takeoff is enabled and
arm is disabled. -/
theorem C31_not_airborne_witness :
    (Reported_vehicle.Update_capability_states none
        (example_reported 0 true none 0 (some Control_mode.MANUAL) none)
      ).commands.c_takeoff_command = true
    ∧ (Reported_vehicle.Update_capability_states none
        (example_reported 0 true none 0 (some Control_mode.MANUAL) none)).commands.c_arm
      = false :=
  ⟨(C31_not_airborne_commands none
      (example_reported 0 true none 0 (some Control_mode.MANUAL) none) rfl).1,
    (C31_not_airborne_commands none
      (example_reported 0 true none 0 (some Control_mode.MANUAL) none) rfl).2.1
      Control_mode.MANUAL rfl⟩

/-- C32: after `Update_capability_states`, from any state, the disarm
command is enabled if and only if the vehicle is armed and not airborne. -/
theorem C32_disarm_enabled (indeterminate : Option Control_mode) (v : Reported_vehicle) :
    (Reported_vehicle.Update_capability_states indeterminate v).commands.c_disarm = true
      ↔ v.is_armed = true ∧ v.is_airborne = false := by
  unfold Reported_vehicle.Update_capability_states
  cases h1 : v.is_armed <;> cases h2 : v.is_airborne <;> simp [h1, h2]

/-- C38: after `Update_capability_states`, for every combination of armed,
airborne, control mode and flight mode (and whatever the uninitialised local
compares as), arm and disarm are never both enabled, pause and resume are
never both enabled, and takeoff and land are never both enabled. -/
theorem C38_no_contradictory_commands (indeterminate : Option Control_mode)
    (v : Reported_vehicle) :
    ¬ ((Reported_vehicle.Update_capability_states indeterminate v).commands.c_arm = true
      ∧ (Reported_vehicle.Update_capability_states indeterminate v).commands.c_disarm = true)
    ∧ ¬ ((Reported_vehicle.Update_capability_states indeterminate v).commands.c_pause = true
      ∧ (Reported_vehicle.Update_capability_states indeterminate v).commands.c_resume = true)
    ∧ ¬ ((Reported_vehicle.Update_capability_states indeterminate v
          ).commands.c_takeoff_command = true
      ∧ (Reported_vehicle.Update_capability_states indeterminate v
          ).commands.c_land_command = true) := by
  unfold Reported_vehicle.Update_capability_states
  cases h1 : v.is_armed <;> cases h2 : v.is_airborne <;>
    cases h3 : v.Is_flight_mode Flight_mode.HOLD <;> simp [h1, h2, h3]

/-- C39 at the failing input: for a custom mode whose main mode byte is 9,
outside the listed main modes, `Get_native_flight_mode_name` returns the
null pointer, and `Process_heartbeat` hands it to the native flight mode
telemetry field.  A name is returned exactly for the main mode bytes 0 to
8. -/
theorem C39_null_flight_mode_name :
    Reported_vehicle.Get_native_flight_mode_name (example_custom_mode 9 0) = none
    ∧ (Reported_vehicle.Process_heartbeat none
        (example_reported MAV_MODE_FLAG_CUSTOM_MODE_ENABLED false none 0 none none) true
        (example_custom_mode 9 0)).t_native_flight_mode = some none
    ∧ ∀ mode : Nat, (Reported_vehicle.Get_native_flight_mode_name mode).isSome = true
        ↔ Px4_custom_mode.main_mode mode ≤ 8 := by
  refine ⟨by decide, by decide, fun mode => ?_⟩
  unfold Reported_vehicle.Get_native_flight_mode_name
  generalize Px4_custom_mode.main_mode mode = main_mode
  generalize Px4_custom_mode.sub_mode mode = sub_mode
  simp only [Px4_main_mode_ACRO, Px4_main_mode_ALTCTL, Px4_main_mode_AUTO,
    Px4_main_mode_MANUAL, Px4_main_mode_OFFBOARD, Px4_main_mode_POSCTL,
    Px4_main_mode_RATTITUDE, Px4_main_mode_STABILIZED, Px4_main_mode_UNKNOWN]
  by_cases h : main_mode ≤ 8
  · refine ⟨fun _ => h, fun _ => ?_⟩
    interval_cases main_mode <;> simp
    split_ifs <;> simp
  · have h0 : main_mode ≠ 0 := by omega
    have h1 : main_mode ≠ 1 := by omega
    have h2 : main_mode ≠ 2 := by omega
    have h3 : main_mode ≠ 3 := by omega
    have h4 : main_mode ≠ 4 := by omega
    have h5 : main_mode ≠ 5 := by omega
    have h6 : main_mode ≠ 6 := by omega
    have h7 : main_mode ≠ 7 := by omega
    have h8 : main_mode ≠ 8 := by omega
    simp only [h0, h1, h2, h3, h4, h5, h6, h7, h8, if_false]
    exact ⟨fun hs => absurd hs (by decide), fun hs => absurd hs h⟩

/-- C34: `Direct_vehicle_control_timer`, when direct control is engaged and
more than MANUAL_CONTROL_TIMEOUT has elapsed since the last received input,
sends exactly one message, with all four stick values 0, disengages direct
control and returns false; when direct control is already disengaged it
changes nothing, so sends nothing, and returns false. -/
theorem C34_direct_control_timeout (E : Command_arith) (period : Int) (v : Vehicle) :
    (∀ sticks : Manual_control, v.direct_vehicle_control = some sticks →
      v.steady_clock - v.direct_vehicle_control_last_received > E.MANUAL_CONTROL_TIMEOUT →
      (v.Direct_vehicle_control_timer E period).2 = false
      ∧ (v.Direct_vehicle_control_timer E period).1.manual_control_sent
        = v.manual_control_sent ++ [⟨0, 0, 0, 0⟩]
      ∧ (v.Direct_vehicle_control_timer E period).1.direct_vehicle_control = none)
    ∧ (v.direct_vehicle_control = none →
      v.Direct_vehicle_control_timer E period = (v, false)) := by
  refine ⟨fun sticks hs ht => ?_, fun hn => ?_⟩
  · unfold Vehicle.Direct_vehicle_control_timer
    rw [hs]
    rw [if_pos ht]
    unfold Vehicle.Stop_direct_vehicle_control Vehicle.Send_direct_vehicle_control
      Vehicle.Set_direct_vehicle_control
    rw [hs]
    exact ⟨rfl, rfl, rfl⟩
  · unfold Vehicle.Direct_vehicle_control_timer
    rw [hn]

/-- C34 on a vehicle whose last input is 3001 ticks old, with a timeout of
3000 ticks: one neutral message is sent and the timer stops. -/
theorem C34_direct_control_timeout_witness :
    (Vehicle.Direct_vehicle_control_timer example_command_arith 100
        (example_joystick_vehicle 4001)).2 = false
    ∧ (Vehicle.Direct_vehicle_control_timer example_command_arith 100
        (example_joystick_vehicle 4001)).1.manual_control_sent = [⟨0, 0, 0, 0⟩]
    ∧ (Vehicle.Direct_vehicle_control_timer example_command_arith 100
        (example_joystick_vehicle 4001)).1.direct_vehicle_control = none :=
  (C34_direct_control_timeout example_command_arith 100 (example_joystick_vehicle 4001)).1
    ⟨100, 200, 300, 400⟩ rfl (by decide)

/-- C37 at the failing input: `Prepare_landing` clears the last-move
reference, so the Move after a Land is taken for the first action and
marked current again.  The list Move, Land, Move compiles to three items
whose current flags are 1, 0 and 1. -/
theorem C37_current_after_landing :
    (Task_upload.compile example_arith (example_config Vehicle_type.MULTICOPTER 0)
        example_task_upload
        (example_request
          [Action.MOVE (example_move 100 (Xnum.val 0 1)),
            Action.LANDING (example_move 200 (Xnum.val 0 1)).position (Xnum.val 0 1),
            Action.MOVE (example_move 300 (Xnum.val 0 1))])
      ).prepared_actions.map (fun item => (item.command, item.current))
      = [(MAV_CMD_NAV_WAYPOINT, 1), (MAV_CMD_NAV_LAND, 0), (MAV_CMD_NAV_WAYPOINT, 1)]
    ∧ (Task_upload.compile example_arith (example_config Vehicle_type.MULTICOPTER 0)
        example_task_upload
        (example_request
          [Action.MOVE (example_move 100 (Xnum.val 0 1)),
            Action.WAIT (Xnum.val 5 1),
            Action.HEADING (Xnum.val 1 1),
            Action.MOVE (example_move 300 (Xnum.val 0 1))])
      ).prepared_actions.map (fun item => (item.command, item.current))
      = [(MAV_CMD_NAV_WAYPOINT, 1), (MAV_CMD_NAV_WAYPOINT, 0), (MAV_CMD_NAV_WAYPOINT, 0),
          (MAV_CMD_NAV_WAYPOINT, 0)] := by
  decide

/-- C35 as stated fails: the stop of the distance series is the first item
of a Move, not always the one next to its waypoint.  With a distance series
and a time series both started before the first Move, the second Move emits
the distance stop, then the time series stop, then its waypoint. -/
theorem C35_stop_not_adjacent_counterexample :
    (Task_upload.compile example_arith (example_config Vehicle_type.MULTICOPTER 0)
        example_task_upload
        (example_request
          [Action.CAMERA_SERIES_BY_DISTANCE (Xnum.val 50 1),
            Action.CAMERA_SERIES_BY_TIME 1000,
            Action.MOVE (example_move 100 (Xnum.val 0 1)),
            Action.MOVE (example_move 200 (Xnum.val 0 1))])
      ).prepared_actions.map (fun item => item.command)
      = [MAV_CMD_DO_SET_CAM_TRIGG_DIST, MAV_CMD_SET_CAMERA_MODE, MAV_CMD_IMAGE_START_CAPTURE,
          MAV_CMD_NAV_WAYPOINT, MAV_CMD_DO_SET_CAM_TRIGG_DIST, MAV_CMD_IMAGE_STOP_CAPTURE,
          MAV_CMD_NAV_WAYPOINT] := by
  decide

/-- C35 (amended): `Prepare_move` appends a distance series stop item
(DO_SET_CAM_TRIGG_DIST, with param1 as `Create` leaves it) exactly when, on
entry, a by-distance series is active and its in-waypoint flag is clear.
The stop is the first item the Move appends; its waypoint item is the last;
between them stand only the time series stop and the automatic POI item,
when the Move emits them, and none when no time series is pending and no
POI is active.  After any Move the in-waypoint flag is clear, and the series
is active only if it was active with the flag set: after a Move that
emitted the stop the series is inactive, so a started series is stopped
implicitly at most once. -/
theorem C35_implicit_distance_stop {F : Type} (A : Arith F) (cfg : Compiler_config F)
    (t : Task_upload F) (m : Move_action F) :
    (Task_upload.Prepare_move A cfg t m).1.camera_series_by_dist_active_in_wp = false
    ∧ (Task_upload.Prepare_move A cfg t m).1.camera_series_by_dist_active
      = (t.camera_series_by_dist_active && t.camera_series_by_dist_active_in_wp)
    ∧ ∃ (dist_stop between : List (Mission_item F)) (wp : Mission_item F),
      (Task_upload.Prepare_move A cfg t m).1.prepared_actions
        = t.prepared_actions ++ dist_stop ++ between ++ [wp]
      ∧ wp.command = MAV_CMD_NAV_WAYPOINT
      ∧ (t.camera_series_by_dist_active = true → t.camera_series_by_dist_active_in_wp = false →
          ∃ stop : Mission_item F, dist_stop = [stop]
            ∧ stop.command = MAV_CMD_DO_SET_CAM_TRIGG_DIST
            ∧ stop.param1 = A.Create.param1)
      ∧ (¬ (t.camera_series_by_dist_active = true
            ∧ t.camera_series_by_dist_active_in_wp = false) → dist_stop = [])
      ∧ (∀ item ∈ between, item.command = MAV_CMD_DO_REPEAT_SERVO
          ∨ item.command = MAV_CMD_IMAGE_STOP_CAPTURE
          ∨ item.command = MAV_CMD_DO_SET_ROI_LOCATION)
      ∧ (¬ (t.camera_series_by_time_active = true
            ∧ t.camera_series_by_time_active_in_wp = false) →
          t.current_mission_poi = none → between = []) := by
  obtain ⟨s1, _, dist_stop, time_stop, s3, s4, s5, s6, s7⟩ :=
    Prepare_move_series_off_items A cfg t
  obtain ⟨roi, wp, m1, m2, m3, m4, m5, m6⟩ := Prepare_move_items A cfg t m
  refine ⟨m6, by rw [m5, s1], dist_stop, time_stop ++ roi, wp, ?_, m2, s4, s5, ?_, ?_⟩
  · rw [m1, s3]
    simp only [List.append_assoc]
  · intro item hitem
    rcases List.mem_append.1 hitem with h | h
    · rcases s6 item h with h2 | h2
      · exact Or.inl h2
      · exact Or.inr (Or.inl h2)
    · exact Or.inr (Or.inr (m3 item h))
  · intro htime hpoi
    rw [s7 htime, m4 hpoi]
    rfl

/-- C35 (amended) on a Move entered with the distance series active and the
in-waypoint flag clear: the stop is emitted and the series is inactive
afterwards. -/
theorem C35_implicit_distance_stop_witness :
    ((Task_upload.Prepare_move example_arith (example_config Vehicle_type.MULTICOPTER 0)
        { example_task_upload with camera_series_by_dist_active := true }
        (example_move 100 (Xnum.val 0 1))).1.prepared_actions.map
        (fun item => item.command))
      = [MAV_CMD_DO_SET_CAM_TRIGG_DIST, MAV_CMD_NAV_WAYPOINT]
    ∧ (Task_upload.Prepare_move example_arith (example_config Vehicle_type.MULTICOPTER 0)
        { example_task_upload with camera_series_by_dist_active := true }
        (example_move 100 (Xnum.val 0 1))).1.camera_series_by_dist_active = false :=
  ⟨by decide,
    (C35_implicit_distance_stop example_arith (example_config Vehicle_type.MULTICOPTER 0)
      { example_task_upload with camera_series_by_dist_active := true }
      (example_move 100 (Xnum.val 0 1))).2.1⟩

/-- C36: compilation is an append-only left fold.  For every starting
context `t`, action list `L` and action `a`: the loop of `Prepare_task` over
`L` followed by `a` is `Prepare_action` applied to the context the loop over
`L` leaves; the items produced for `L` are a prefix, item for item and field
for field, of the items produced for `L` followed by `a`, both for the loop
run from `t` and for `Prepare_task` on a request with these action lists;
and a single `Prepare_action` keeps every item already emitted in place and
unchanged. -/
theorem C36_append_only_fold {F : Type} (A : Arith F) (cfg : Compiler_config F)
    (t : Task_upload F) (L : List (Action F)) (a : Action F) :
    (Task_upload.Prepare_actions A cfg t (L ++ [a])).1
        = (Task_upload.Prepare_action A cfg (Task_upload.Prepare_actions A cfg t L).1 a).1
      ∧ (Task_upload.Prepare_actions A cfg t L).1.prepared_actions
        <+: (Task_upload.Prepare_actions A cfg t (L ++ [a])).1.prepared_actions
      ∧ (Task_upload.Prepare_task A cfg (t.set_actions L)).prepared_actions
        <+: (Task_upload.Prepare_task A cfg (t.set_actions (L ++ [a]))).prepared_actions
      ∧ t.prepared_actions
        <+: (Task_upload.Prepare_action A cfg t a).1.prepared_actions := by
  have h : ∀ s : Task_upload F,
      (Task_upload.Prepare_actions A cfg s L).1.prepared_actions
        <+: (Task_upload.Prepare_actions A cfg s (L ++ [a])).1.prepared_actions := by
    intro s
    rw [Prepare_actions_append A cfg L [a] s]
    exact prefix_Prepare_actions A cfg [a] _
  refine ⟨?_, h t, ?_, prefix_Prepare_action A cfg t a⟩
  · rw [Prepare_actions_append A cfg L [a] t]
    rfl
  · rw [Prepare_task_items, Prepare_task_items]
    exact h _

/-- C33 at the failing input: the latitude and longitude tolerance 0.00001 is
compared with angles in radians, which is about 64 m on the ground and not
the 6 cm the code states.  After a first report of (47 degrees, 8 degrees,
500 m) has set the home and the altitude origin, a valid report one metre
further north (latitude field 470000090) and one about 56 m further north
(470005000) leave the whole state as it was, while a report about 1.1 km
further north (470100000) moves the stored home. -/
theorem C33_one_metre_move_ignored :
    example_home_reported.altitude_origin = some (Xnum.val 500 1)
    ∧ example_home_reported.t_home_altitude_amsl = some (Xnum.val 500 1)
    ∧ Home_state.On_home_position example_arith example_route_id example_home_reported
        470000090 80000000 500000 = example_home_reported
    ∧ Home_state.On_home_position example_arith example_route_id example_home_reported
        470005000 80000000 500000 = example_home_reported
    ∧ (Home_state.On_home_position example_arith example_route_id example_home_reported
        470100000 80000000 500000).home_location ≠ example_home_reported.home_location := by
  decide

/-- C40: under the order properties of binary32 arithmetic, a
`Process_direct_payload_control` call with a finite pitch input on a finite
accumulated pitch leaves the payload pitch a finite number between -90 and 0;
if the payload yaw was between -180 and 180 before the call and the scaled
yaw increment is between -360 and 360, the payload yaw is between -180 and
180 after the call; and the call appends one DO_MOUNT_CONTROL command whose
param1 and param3 are exactly the payload pitch and yaw it leaves. -/
theorem C40_payload_angles (E : Command_arith) (hE : E.Ieee_order) (v : Vehicle)
    (pitch yaw : F32) (hv : v.payload_pitch.isFinite = true)
    (hp : pitch.isFinite = true) :
    F32.le (F32.of_nat 90).neg (v.Process_direct_payload_control E pitch yaw).payload_pitch
        = true
      ∧ F32.le (v.Process_direct_payload_control E pitch yaw).payload_pitch (F32.of_nat 0)
        = true
      ∧ (v.Process_direct_payload_control E pitch yaw).payload_pitch.isFinite = true
      ∧ (F32.le (F32.of_nat 180).neg v.payload_yaw = true →
          F32.le v.payload_yaw (F32.of_nat 180) = true →
          F32.le (F32.of_nat 360).neg (E.mul yaw E.DIRECT_PAYLOAD_CONTROLLING_COEF) = true →
          F32.le (E.mul yaw E.DIRECT_PAYLOAD_CONTROLLING_COEF) (F32.of_nat 360) = true →
          F32.le (F32.of_nat 180).neg
              (v.Process_direct_payload_control E pitch yaw).payload_yaw = true
            ∧ F32.le (v.Process_direct_payload_control E pitch yaw).payload_yaw
              (F32.of_nat 180) = true)
      ∧ (v.Process_direct_payload_control E pitch yaw).vehicle_command.cmd_messages
        = v.vehicle_command.cmd_messages
          ++ [Payload.COMMAND_LONG MAV_CMD_DO_MOUNT_CONTROL
            [(v.Process_direct_payload_control E pitch yaw).payload_pitch, F32.of_nat 0,
              (v.Process_direct_payload_control E pitch yaw).payload_yaw,
              E.unset, E.unset, E.unset, F32.of_nat MAV_MOUNT_MODE_MAVLINK_TARGETING]
            E.unset_confirmation] := by
  obtain ⟨hpitch, hyaw, hcmd⟩ := Process_direct_payload_control_fields E v pitch yaw _ _ rfl rfl
  have hs : (E.add v.payload_pitch (E.mul pitch E.DIRECT_PAYLOAD_CONTROLLING_COEF)).isNaN
      = false :=
    hE.add_finite _ _ hv (hE.mul_finite _ _ hp hE.coef_finite)
  obtain ⟨hlo, hhi⟩ := clamp_pitch_range _ hs
  rw [← hpitch] at hlo hhi
  have hlok := (F32.le_iff _ _).1 hlo
  have hhik := (F32.le_iff _ _).1 hhi
  obtain ⟨k0, k90, -⟩ := F32.key_consts
  refine ⟨hlo, hhi, F32.isFinite_of_key _ (by omega) (by omega), ?_, hcmd⟩
  intro h1 h2 h3 h4
  rw [hyaw]
  exact wrap_yaw_range E hE _ _ h1 h2 h3 h4

/-- C40 on the example arithmetic: from pitch 0 and yaw 180, a pitch input of
-180 and a yaw input of 180 leave the pitch at -90 and the yaw, wrapped from
360, at 0. -/
theorem C40_payload_angles_witness :
    (Vehicle.Process_direct_payload_control example_grid_arith example_payload_vehicle
        (F32.of_nat 180).neg (F32.of_nat 180)).payload_pitch = (F32.of_nat 90).neg
    ∧ (Vehicle.Process_direct_payload_control example_grid_arith example_payload_vehicle
        (F32.of_nat 180).neg (F32.of_nat 180)).payload_yaw = F32.of_nat 0
    ∧ F32.le (F32.of_nat 180).neg
        (Vehicle.Process_direct_payload_control example_grid_arith example_payload_vehicle
          (F32.of_nat 180).neg (F32.of_nat 180)).payload_yaw = true
    ∧ F32.le
        (Vehicle.Process_direct_payload_control example_grid_arith example_payload_vehicle
          (F32.of_nat 180).neg (F32.of_nat 180)).payload_yaw (F32.of_nat 180) = true :=
  ⟨by decide, by decide,
    (C40_payload_angles example_grid_arith example_grid_arith_order example_payload_vehicle
      (F32.of_nat 180).neg (F32.of_nat 180) (by decide) (by decide)).2.2.2.1
      (by decide) (by decide) (by decide) (by decide)⟩

end Px4_vehicle
